import Mathlib

/-!
# Shadow mapping and GPU instancing controllers

A shallow embedding of `engine/src/ShadowController.cpp` and
`engine/src/InstancingController.cpp` (with their headers) and of the skin animation and the
grid of blocks of `app/src/MainController.cpp`, followed by theorems about the embedded code.

Conventions of the embedding.

* `float` is modelled by the rationals `ℚ` (exact arithmetic), except in
  `create_grid_offsets_float`, where the arithmetic of `float` is a parameter; `uint32_t`,
  `size_t` and GL object names are natural numbers.
* `std::unordered_map<std::string, V>` is an association list without duplicate keys
  (`UMap V`); `find` is `AList.lookup`, assignment through a valid iterator is
  `AList.replace`, `erase(it)` is `AList.erase`, `size()` is the number of entries.
* The OpenGL context is an explicit value `GLState`: the live objects, the bindings the code
  reads back, and the `trace` of every call issued so far. Every `glGen*` call creates a new
  object; objects are numbered in creation order starting from 1, so `0` is never the name of an
  object and a name identifies one object for ever.
* A function that can hit `RG_GUARANTEE` or let an exception escape returns the state it had
  reached together with an `Outcome`; the geometry callback of a shadow render can throw too.
  A violated guarantee halts the program; a theorem that is about the states reached by calls
  none of which violated one says so in its hypotheses.
* `int` is modelled by the integers; a `uint32_t` sum that can wrap around is taken modulo
  `2 ^ 32`, and a `uint32_t` passed to OpenGL as a `GLsizei` is narrowed by `to_GLsizei`.
* A payload is shared between a group and its registrant: a group holds the value the pointer
  points to, and a write of the registrant is the explicit step `registrant_add_transform`.
-/

namespace engine

/-! ## glm -/

/-- The type `glm::vec2`. -/
structure Vec2 where
  x : ℚ
  y : ℚ
  deriving DecidableEq, Repr

/-- The type `glm::vec3`. -/
structure Vec3 where
  x : ℚ
  y : ℚ
  z : ℚ
  deriving DecidableEq, Repr

/-- The type `glm::mat4`; `M r c` is the element in row `r` and column `c`, which glm writes
`M[c][r]`. -/
abbrev Mat4 := Matrix (Fin 4) (Fin 4) ℚ

namespace glm

/-- Vector sum `a + b`. -/
def add (a b : Vec3) : Vec3 := ⟨a.x + b.x, a.y + b.y, a.z + b.z⟩

/-- Vector difference `a - b`. -/
def sub (a b : Vec3) : Vec3 := ⟨a.x - b.x, a.y - b.y, a.z - b.z⟩

/-- Function `glm::dot`. -/
def dot (a b : Vec3) : ℚ := a.x * b.x + a.y * b.y + a.z * b.z

/-- Function `glm::cross`. -/
def cross (a b : Vec3) : Vec3 :=
  ⟨a.y * b.z - b.y * a.z, a.z * b.x - b.z * a.x, a.x * b.y - b.x * a.y⟩

/-- Function `glm::normalize`: `v * inversesqrt(dot(v, v))`. The square root is `Rat.sqrt`,
which is the exact root whenever the squared length is the square of a rational. -/
def normalize (v : Vec3) : Vec3 :=
  let n : ℚ := Rat.sqrt (dot v v)
  ⟨v.x / n, v.y / n, v.z / n⟩

/-- Function `glm::perspective` (right-handed, depth range -1..1), given the tangent of half
the vertical field of view. -/
def perspective (tanHalfFovy aspect zNear zFar : ℚ) : Mat4 :=
  Matrix.of ![![1 / (aspect * tanHalfFovy), 0, 0, 0],
              ![0, 1 / tanHalfFovy, 0, 0],
              ![0, 0, -(zFar + zNear) / (zFar - zNear), -(2 * zFar * zNear) / (zFar - zNear)],
              ![0, 0, -1, 0]]

/-- Function `glm::lookAt` (right-handed). -/
def lookAt (eye center up : Vec3) : Mat4 :=
  let f := normalize (sub center eye)
  let s := normalize (cross f up)
  let u := cross s f
  Matrix.of ![![s.x, s.y, s.z, -dot s eye],
              ![u.x, u.y, u.z, -dot u eye],
              ![-f.x, -f.y, -f.z, dot f eye],
              ![0, 0, 0, 1]]

end glm

/-! ## Outcomes, events and the OpenGL context -/

/-- How a call ends: it returns, an `RG_GUARANTEE` is violated, or an exception of a
collaborator (a uniform setter, the resource lookup) escapes. -/
inductive Outcome (α : Type) where
  | ok (value : α)
  | fatal (message : String)
  | threw (what : String)
  deriving DecidableEq, Repr

/-- Severity of an `spdlog` message. -/
inductive LogLevel where
  | info
  | warn
  | error
  deriving DecidableEq, Repr

/-- Everything the two controllers do to the outside world, in the order they do it: OpenGL
calls, shader calls, the invocation of the geometry callback and log messages. An argument is
recorded as the value of the C++ expression passed; arguments that are constants in every call
of the source are left out. -/
inductive Event where
  | glGenTextures (name : Nat)
  | glDeleteTextures (name : Nat)
  | glGenFramebuffers (name : Nat)
  | glDeleteFramebuffers (name : Nat)
  | glGenBuffers (name : Nat)
  | glDeleteBuffers (name : Nat)
  | glBindTextureCubeMap (name : Nat)
  | glBindTexture2D (name : Nat)
  | glActiveTexture (unit : Nat)
  | glTexImage2D (face : Nat) (width height : Int)
  | glTexParameteri (pname : String) (param : String)
  | glFramebufferTexture (texture : Nat)
  | glDrawBuffer
  | glReadBuffer
  | glCheckFramebufferStatus
  | glViewport (x y width height : Int)
  | glBindFramebuffer (name : Nat)
  | glClear
  | glGetViewport
  | glGetFramebufferBinding
  | glEnableDepthTest
  | glDepthFuncLess
  | glBindBuffer (name : Nat)
  | glBufferData (buffer : Nat) (size : Nat)
  | glBindVertexArray (vao : Nat)
  | glEnableVertexAttribArray (location : Nat)
  | glVertexAttribPointer (location components stride offset : Nat)
  | glVertexAttribDivisor (location divisor : Nat)
  | glDrawElementsInstanced (count : Nat) (instancecount : Nat)
  | use (shader : Nat)
  | set_int (shader : Nat) (name : String) (value : Int)
  | set_float (shader : Nat) (name : String) (value : ℚ)
  | set_vec3 (shader : Nat) (name : String) (value : Vec3)
  | set_mat4 (shader : Nat) (name : String) (value : Mat4)
  | render_geometry
  | spdlog (level : LogLevel) (message : String)
  deriving DecidableEq

/-- The conversion of a `uint32_t` to the 32-bit `int` that is `GLsizei`, at a call of OpenGL
that takes a size: the values from `2 ^ 31` on become negative. -/
def to_GLsizei (n : Nat) : Int :=
  if n % 2 ^ 32 < 2 ^ 31 then ((n % 2 ^ 32 : Nat) : Int)
  else ((n % 2 ^ 32 : Nat) : Int) - 2 ^ 32

/-- The OpenGL context as far as the controllers use it. -/
structure GLState where
  /-- number of objects created so far; the next object gets the name `created + 1` -/
  created : Nat
  /-- live texture objects -/
  textures : List Nat
  /-- live framebuffer objects -/
  framebuffers : List Nat
  /-- live buffer objects -/
  buffers : List Nat
  /-- value of `GL_VIEWPORT` -/
  viewport : Int × Int × Int × Int
  /-- value of `GL_FRAMEBUFFER_BINDING` -/
  framebuffer_binding : Nat
  /-- value of `GL_ARRAY_BUFFER_BINDING` -/
  array_buffer_binding : Nat
  /-- every call issued so far, oldest first -/
  trace : List Event

namespace GLState

/-- Append one event to the trace. -/
def emit (e : Event) (gl : GLState) : GLState := { gl with trace := gl.trace ++ [e] }

/-- Append the events of a loop to the trace, in order. -/
def emits (es : List Event) (gl : GLState) : GLState := { gl with trace := gl.trace ++ es }

/-- Call `glGenTextures(1, &name)`: a new texture object. -/
def glGenTextures (gl : GLState) : Nat × GLState :=
  let name := gl.created + 1
  (name, { gl with created := name, textures := name :: gl.textures,
                   trace := gl.trace ++ [Event.glGenTextures name] })

/-- Call `glDeleteTextures(1, &name)`. -/
def glDeleteTextures (name : Nat) (gl : GLState) : GLState :=
  { gl with textures := gl.textures.filter (fun t => t != name),
            trace := gl.trace ++ [Event.glDeleteTextures name] }

/-- Call `glGenFramebuffers(1, &name)`: a new framebuffer object. -/
def glGenFramebuffers (gl : GLState) : Nat × GLState :=
  let name := gl.created + 1
  (name, { gl with created := name, framebuffers := name :: gl.framebuffers,
                   trace := gl.trace ++ [Event.glGenFramebuffers name] })

/-- Call `glDeleteFramebuffers(1, &name)`. -/
def glDeleteFramebuffers (name : Nat) (gl : GLState) : GLState :=
  { gl with framebuffers := gl.framebuffers.filter (fun t => t != name),
            trace := gl.trace ++ [Event.glDeleteFramebuffers name] }

/-- Call `glGenBuffers(1, &name)`: a new buffer object. -/
def glGenBuffers (gl : GLState) : Nat × GLState :=
  let name := gl.created + 1
  (name, { gl with created := name, buffers := name :: gl.buffers,
                   trace := gl.trace ++ [Event.glGenBuffers name] })

/-- Call `glDeleteBuffers(1, &name)`. -/
def glDeleteBuffers (name : Nat) (gl : GLState) : GLState :=
  { gl with buffers := gl.buffers.filter (fun t => t != name),
            trace := gl.trace ++ [Event.glDeleteBuffers name] }

/-- Call `glViewport(x, y, width, height)`. -/
def glViewport (x y width height : Int) (gl : GLState) : GLState :=
  { gl with viewport := (x, y, width, height),
            trace := gl.trace ++ [Event.glViewport x y width height] }

/-- Call `glBindFramebuffer(GL_FRAMEBUFFER, name)`. -/
def glBindFramebuffer (name : Nat) (gl : GLState) : GLState :=
  { gl with framebuffer_binding := name, trace := gl.trace ++ [Event.glBindFramebuffer name] }

/-- Call `glBindBuffer(GL_ARRAY_BUFFER, name)`. -/
def glBindBuffer (name : Nat) (gl : GLState) : GLState :=
  { gl with array_buffer_binding := name, trace := gl.trace ++ [Event.glBindBuffer name] }

/-- Call `glBufferData(GL_ARRAY_BUFFER, size, data, GL_STATIC_DRAW)`: `size` bytes go to the
buffer bound to `GL_ARRAY_BUFFER`. -/
def glBufferData (size : Nat) (gl : GLState) : GLState :=
  gl.emit (Event.glBufferData gl.array_buffer_binding size)

end GLState

/-- The objects of a context: how many were created, and the live textures, framebuffers and
buffers. -/
def GLState.objects (gl : GLState) : Nat × List Nat × List Nat × List Nat :=
  (gl.created, gl.textures, gl.framebuffers, gl.buffers)

/-- The type `std::unordered_map<std::string, V>`. -/
abbrev UMap (V : Type) := AList (fun _ : String => V)

namespace UMap

/-- Member `size()`. -/
def size {V : Type} (m : UMap V) : Nat := m.entries.length

/-- Member `operator[]` followed by an assignment: `m[key] = value`. -/
def subscript_assign {V : Type} (key : String) (value : V) (m : UMap V) : UMap V :=
  if key ∈ m then m.replace key value else m.insert key value

end UMap

/-- Run `first`; if it returned, run `next` on the state it left, otherwise stop there. -/
def and_then {σ α : Type} (first : σ → σ × Outcome Unit) (next : σ → σ × Outcome α) (s : σ) :
    σ × Outcome α :=
  match first s with
  | (s1, Outcome.ok _) => next s1
  | (s1, Outcome.fatal message) => (s1, Outcome.fatal message)
  | (s1, Outcome.threw what) => (s1, Outcome.threw what)

/-! ## Collaborators: shaders, meshes, the resource system, the driver -/

/-- Modelled from the spec: the class `resources::Shader`, whose source is not part of the
two controllers. A shader is its program id and the names of the uniforms that exist in the
compiled program; a typed setter fails with a recoverable error if the named uniform does not
exist. -/
structure Shader where
  id : Nat
  uniforms : List String
  deriving DecidableEq, Repr

namespace Shader

/-- Modelled from the spec: a typed uniform setter of `resources::Shader`; `e` is the upload
it performs when the uniform `name` exists. -/
def set (shader : Shader) (name : String) (e : Event) (gl : GLState) : GLState × Outcome Unit :=
  if name ∈ shader.uniforms then (gl.emit e, Outcome.ok ())
  else (gl, Outcome.threw ("no uniform named " ++ name))

/-- Setter `set_int(name, value)`. -/
def set_int (shader : Shader) (name : String) (value : Int) :
    GLState → GLState × Outcome Unit :=
  shader.set name (Event.set_int shader.id name value)

/-- Setter `set_float(name, value)`. -/
def set_float (shader : Shader) (name : String) (value : ℚ) :
    GLState → GLState × Outcome Unit :=
  shader.set name (Event.set_float shader.id name value)

/-- Setter `set_vec3(name, value)`. -/
def set_vec3 (shader : Shader) (name : String) (value : Vec3) :
    GLState → GLState × Outcome Unit :=
  shader.set name (Event.set_vec3 shader.id name value)

/-- Setter `set_mat4(name, value)`. -/
def set_mat4 (shader : Shader) (name : String) (value : Mat4) :
    GLState → GLState × Outcome Unit :=
  shader.set name (Event.set_mat4 shader.id name value)

end Shader

/-- Modelled from the spec: the class `resources::Texture`, of which the controllers use the GL
handle `id()` and `uniform_name_convention(type())`, the uniform-name prefix that belongs to
the semantic type of the texture. -/
structure Texture where
  id : Nat
  uniform_name_convention : String
  deriving DecidableEq, Repr

/-- Modelled from the spec: the class `resources::Mesh`, of which the controllers use the
vertex-array handle, the index count and the ordered list of textures. -/
structure Mesh where
  vao : Nat
  num_indices : Nat
  textures : List Texture := []
  deriving DecidableEq, Repr

/-- Modelled from the spec: what `ResourcesController::shader(name)` can do. -/
inductive ShaderLookup where
  | found (shader : Shader)
  | null
  | throws (what : String)
  deriving DecidableEq, Repr

/-- The parts of the environment the controllers query. -/
structure Env where
  /-- whether `glCheckFramebufferStatus` reports `GL_FRAMEBUFFER_COMPLETE` for a framebuffer -/
  framebuffer_complete : Nat → Bool
  /-- the resource system's `shader(name)` -/
  shader : String → ShaderLookup

/-- What a `render_geometry` callback does to the context: it issues calls, may leave other
values in the viewport and in the bindings, and returns or throws. The controllers own their GL
objects exclusively, so a callback creates and deletes none of them. -/
structure CallbackEffect where
  events : List Event
  viewport : Int × Int × Int × Int
  framebuffer_binding : Nat
  array_buffer_binding : Nat
  /-- the `what()` of the exception the callback throws, `none` if it returns; an empty
  `std::function` throws `std::bad_function_call` and has no other effect -/
  threw : Option String

/-- The type `std::function<void()>` of the geometry callback. -/
abbrev RenderGeometry := GLState → CallbackEffect

/-- The call `render_geometry()`: the state the callback leaves, and whether it returned. -/
def invoke (render_geometry : RenderGeometry) (gl : GLState) : GLState × Outcome Unit :=
  let effect := render_geometry gl
  ({ gl with viewport := effect.viewport,
             framebuffer_binding := effect.framebuffer_binding,
             array_buffer_binding := effect.array_buffer_binding,
             trace := gl.trace ++ Event.render_geometry :: effect.events },
    match effect.threw with
    | none => Outcome.ok ()
    | some what => Outcome.threw what)

/-! ## ShadowController: data -/

/-- The struct `PointLightShadowParams`. -/
structure PointLightShadowParams where
  position : Vec3 := ⟨0, 0, 0⟩
  far_plane : ℚ := 25
  resolution : Nat := 1024
  near_plane : ℚ := 1
  deriving DecidableEq, Repr

/-- The struct `ShadowController::PointLightShadow`. -/
structure PointLightShadow where
  params : PointLightShadowParams := {}
  depth_cubemap : Nat := 0
  framebuffer : Nat := 0
  shadow_transforms : Fin 6 → Mat4 := fun _ => 0

/-- Constructor `PointLightShadow(const PointLightShadowParams& p)`. The six matrices are
left as the default constructor of `std::array` leaves them; every caller overwrites them
before they are read. -/
def PointLightShadow.of_params (p : PointLightShadowParams) : PointLightShadow :=
  { params := p }

/-- The struct `ShadowController::StateBackup`. -/
structure StateBackup where
  viewport : Int × Int × Int × Int := (0, 0, 0, 0)
  framebuffer : Nat := 0

/-- The data members of `ShadowController`. -/
structure ShadowController where
  m_point_lights : UMap PointLightShadow := ∅
  m_depth_shader : Option Shader := none
  m_state_backup : StateBackup := {}
  m_current_rendering_light : String := ""
  m_next_texture_unit : Nat := 5

/-! ## InstancingController: data -/

/-- The struct `InstancedTransforms`. -/
structure InstancedTransforms where
  transforms : List Mat4 := []

/-- The struct `InstancedOffsets`. -/
structure InstancedOffsets where
  offsets : List Vec2 := []
  deriving DecidableEq

/-- The abstract `InstancedData` with its two subclasses; `other` stands for an object of any
further subclass, of which only `size()` and `stride()` are known. -/
inductive InstancedData where
  | transforms (payload : InstancedTransforms)
  | offsets (payload : InstancedOffsets)
  | other (size stride : Nat)

namespace InstancedTransforms

/-- Member `add_transform`. -/
def add_transform (self : InstancedTransforms) (transform : Mat4) : InstancedTransforms :=
  { self with transforms := self.transforms ++ [transform] }

/-- Member `count()`. -/
def count (self : InstancedTransforms) : Nat := self.transforms.length

/-- Member `stride()`: `sizeof(glm::mat4)`. -/
def stride (_self : InstancedTransforms) : Nat := 64

/-- Member `size()`. -/
def size (self : InstancedTransforms) : Nat := self.transforms.length * 64

end InstancedTransforms

namespace InstancedOffsets

/-- Member `add_offset`. -/
def add_offset (self : InstancedOffsets) (offset : Vec2) : InstancedOffsets :=
  { self with offsets := self.offsets ++ [offset] }

/-- Member `count()`. -/
def count (self : InstancedOffsets) : Nat := self.offsets.length

/-- Member `stride()`: `sizeof(glm::vec2)`. -/
def stride (_self : InstancedOffsets) : Nat := 8

/-- Member `size()`. -/
def size (self : InstancedOffsets) : Nat := self.offsets.length * 8

end InstancedOffsets

namespace InstancedData

/-- Virtual member `size()`. -/
def size : InstancedData → Nat
  | transforms payload => payload.size
  | offsets payload => payload.size
  | other size _ => size

/-- Virtual member `stride()`. -/
def stride : InstancedData → Nat
  | transforms payload => payload.stride
  | offsets payload => payload.stride
  | other _ stride => stride

end InstancedData

/-- The struct `InstancingController::InstanceGroup`; `data` is the payload that the shared
pointer points to, `none` when the pointer is null. The registrant holds the same pointer: a
write of the registrant to the payload is `registrant_add_transform` below, which changes
`data` and nothing else. -/
structure InstanceGroup where
  data : Option InstancedData := none
  buffer_id : Nat := 0
  needs_update : Bool := true

/-- Constructor `InstanceGroup(std::shared_ptr<InstancedData> d)`. -/
def InstanceGroup.of_data (d : Option InstancedData) : InstanceGroup :=
  { data := d }

/-- The data members of `InstancingController`. -/
structure InstancingController where
  m_instance_groups : UMap InstanceGroup := ∅

/-! ## The whole state -/

/-- The two controllers, the OpenGL context they share and the environment. -/
structure World where
  shadow : ShadowController := {}
  instancing : InstancingController := {}
  gl : GLState
  env : Env

/-! ## ShadowController: code -/

/-- Function `create_shadow_transforms` of the anonymous namespace. The projection is
`glm::perspective(glm::radians(90.0f), 1.0f, near_plane, far_plane)`; the tangent of half of
90 degrees is 1. -/
def create_shadow_transforms (light_pos : Vec3) (near_plane far_plane : ℚ) : List Mat4 :=
  let shadowProj : Mat4 := glm.perspective 1 1 near_plane far_plane
  let shadowTransforms : List Mat4 := []
  let shadowTransforms := shadowTransforms ++
    [shadowProj * glm.lookAt light_pos (glm.add light_pos ⟨1, 0, 0⟩) ⟨0, -1, 0⟩]
  let shadowTransforms := shadowTransforms ++
    [shadowProj * glm.lookAt light_pos (glm.add light_pos ⟨-1, 0, 0⟩) ⟨0, -1, 0⟩]
  let shadowTransforms := shadowTransforms ++
    [shadowProj * glm.lookAt light_pos (glm.add light_pos ⟨0, 1, 0⟩) ⟨0, 0, 1⟩]
  let shadowTransforms := shadowTransforms ++
    [shadowProj * glm.lookAt light_pos (glm.add light_pos ⟨0, -1, 0⟩) ⟨0, 0, -1⟩]
  let shadowTransforms := shadowTransforms ++
    [shadowProj * glm.lookAt light_pos (glm.add light_pos ⟨0, 0, 1⟩) ⟨0, -1, 0⟩]
  let shadowTransforms := shadowTransforms ++
    [shadowProj * glm.lookAt light_pos (glm.add light_pos ⟨0, 0, -1⟩) ⟨0, -1, 0⟩]
  shadowTransforms

namespace ShadowController

/-- Member `update_shadow_transforms`. -/
def update_shadow_transforms (shadow : PointLightShadow) : PointLightShadow :=
  let pos := shadow.params.position
  let near_plane := shadow.params.near_plane
  let far_plane := shadow.params.far_plane
  let transforms := create_shadow_transforms pos near_plane far_plane
  { shadow with shadow_transforms := fun i => transforms.getD i.val 0 }

/-- Member `destroy_shadow_resources`. -/
def destroy_shadow_resources (shadow : PointLightShadow) (gl : GLState) :
    PointLightShadow × GLState :=
  let (shadow, gl) :=
    if shadow.depth_cubemap ≠ 0 then
      ({ shadow with depth_cubemap := 0 }, gl.glDeleteTextures shadow.depth_cubemap)
    else (shadow, gl)
  if shadow.framebuffer ≠ 0 then
    ({ shadow with framebuffer := 0 }, gl.glDeleteFramebuffers shadow.framebuffer)
  else (shadow, gl)

/-- Member `create_shadow_resources`; the `for` loop over the six faces issues the six
`glTexImage2D` calls, and the outcome is fatal when the framebuffer is reported incomplete. -/
def create_shadow_resources (env : Env) (shadow : PointLightShadow) (gl : GLState) :
    PointLightShadow × GLState × Outcome Unit :=
  let resolution := shadow.params.resolution
  let (texture, gl) := gl.glGenTextures
  let shadow := { shadow with depth_cubemap := texture }
  let gl := gl.emit (Event.glBindTextureCubeMap shadow.depth_cubemap)
  let gl := gl.emits ((List.range 6).map (fun i =>
    Event.glTexImage2D i (to_GLsizei resolution) (to_GLsizei resolution)))
  let gl := gl.emit (Event.glTexParameteri "GL_TEXTURE_MAG_FILTER" "GL_NEAREST")
  let gl := gl.emit (Event.glTexParameteri "GL_TEXTURE_MIN_FILTER" "GL_NEAREST")
  let gl := gl.emit (Event.glTexParameteri "GL_TEXTURE_WRAP_S" "GL_CLAMP_TO_EDGE")
  let gl := gl.emit (Event.glTexParameteri "GL_TEXTURE_WRAP_T" "GL_CLAMP_TO_EDGE")
  let gl := gl.emit (Event.glTexParameteri "GL_TEXTURE_WRAP_R" "GL_CLAMP_TO_EDGE")
  let (framebuffer, gl) := gl.glGenFramebuffers
  let shadow := { shadow with framebuffer := framebuffer }
  let gl := gl.glBindFramebuffer shadow.framebuffer
  let gl := gl.emit (Event.glFramebufferTexture shadow.depth_cubemap)
  let gl := gl.emit Event.glDrawBuffer
  let gl := gl.emit Event.glReadBuffer
  let gl := gl.emit Event.glCheckFramebufferStatus
  if env.framebuffer_complete shadow.framebuffer then
    let gl := gl.glBindFramebuffer 0
    let gl := gl.emit (Event.glBindTextureCubeMap 0)
    (shadow, gl, Outcome.ok ())
  else
    (shadow, gl, Outcome.fatal "Shadow framebuffer is not complete")

/-- Member `ensure_depth_shader`. -/
def ensure_depth_shader (w : World) : World × Outcome Unit :=
  match w.shadow.m_depth_shader with
  | some _ => (w, Outcome.ok ())
  | none =>
    match w.env.shader "shadow_depth" with
    | ShaderLookup.found shader =>
      ({ w with shadow := { w.shadow with m_depth_shader := some shader } }, Outcome.ok ())
    | ShaderLookup.null => (w, Outcome.ok ())
    | ShaderLookup.throws what =>
      (w, Outcome.fatal ("Failed to load shadow depth shader: " ++ what))

/-- Member `register_point_light`. -/
def register_point_light (light_name : String) (params : PointLightShadowParams) (w : World) :
    World × Outcome Unit :=
  let (lights, gl) :=
    match w.shadow.m_point_lights.lookup light_name with
    | some shadow =>
      let (_, gl) := destroy_shadow_resources shadow w.gl
      (w.shadow.m_point_lights.replace light_name (PointLightShadow.of_params params), gl)
    | none =>
      (w.shadow.m_point_lights.subscript_assign light_name (PointLightShadow.of_params params),
        w.gl)
  -- auto& shadow = m_point_lights[light_name];
  let (lights, shadow) :=
    match lights.lookup light_name with
    | some shadow => (lights, shadow)
    | none => (lights.insert light_name {}, {})
  let lights := lights.replace light_name (update_shadow_transforms shadow)
  ({ w with shadow := { w.shadow with m_point_lights := lights }, gl := gl }, Outcome.ok ())

/-- Member `unregister_point_light`. -/
def unregister_point_light (light_name : String) (w : World) : World × Outcome Bool :=
  match w.shadow.m_point_lights.lookup light_name with
  | none => (w, Outcome.ok false)
  | some shadow =>
    let (_, gl) := destroy_shadow_resources shadow w.gl
    let lights := w.shadow.m_point_lights.erase light_name
    ({ w with shadow := { w.shadow with m_point_lights := lights }, gl := gl }, Outcome.ok true)

/-- Member `update_light_position`. -/
def update_light_position (light_name : String) (position : Vec3) (w : World) :
    World × Outcome Bool :=
  match w.shadow.m_point_lights.lookup light_name with
  | none => (w, Outcome.ok false)
  | some shadow =>
    let shadow := { shadow with params := { shadow.params with position := position } }
    let shadow := update_shadow_transforms shadow
    let lights := w.shadow.m_point_lights.replace light_name shadow
    ({ w with shadow := { w.shadow with m_point_lights := lights } }, Outcome.ok true)

/-- Member `update_light_far_plane`. -/
def update_light_far_plane (light_name : String) (far_plane : ℚ) (w : World) :
    World × Outcome Bool :=
  match w.shadow.m_point_lights.lookup light_name with
  | none => (w, Outcome.ok false)
  | some shadow =>
    let shadow := { shadow with params := { shadow.params with far_plane := far_plane } }
    let shadow := update_shadow_transforms shadow
    let lights := w.shadow.m_point_lights.replace light_name shadow
    ({ w with shadow := { w.shadow with m_point_lights := lights } }, Outcome.ok true)

/-- Member `get_light_params`; `none` is the null pointer. -/
def get_light_params (light_name : String) (w : World) : Option PointLightShadowParams :=
  match w.shadow.m_point_lights.lookup light_name with
  | some shadow => some shadow.params
  | none => none

/-- Member `is_light_registered`. -/
def is_light_registered (light_name : String) (w : World) : Bool :=
  (w.shadow.m_point_lights.lookup light_name).isSome

/-- Member `get_light_count`. -/
def get_light_count (w : World) : Nat := w.shadow.m_point_lights.size

/-- The loop of `render_shadows_for_light` that uploads `shadowMatrices[i]` for the indices in
`indices`; an exception of `set_mat4` ends it. -/
def upload_shadow_matrices (shader : Shader) (shadow : PointLightShadow) :
    List (Fin 6) → GLState → GLState × Outcome Unit
  | [], gl => (gl, Outcome.ok ())
  | i :: rest, gl =>
    let uniform_name := "shadowMatrices[" ++ toString i.val ++ "]"
    and_then (shader.set_mat4 uniform_name (shadow.shadow_transforms i))
      (upload_shadow_matrices shader shadow rest) gl

/-- Member `render_shadows_for_light`. -/
def render_shadows_for_light (light_name : String) (render_geometry : RenderGeometry)
    (w : World) : World × Outcome Unit :=
  match w.shadow.m_point_lights.lookup light_name with
  | none =>
    (w, Outcome.fatal ("Light '" ++ light_name ++ "' is not registered for shadow mapping"))
  | some shadow =>
    let w := { w with shadow := { w.shadow with m_current_rendering_light := light_name } }
    let (shadow, gl, created) :=
      if shadow.framebuffer = 0 then create_shadow_resources w.env shadow w.gl
      else (shadow, w.gl, Outcome.ok ())
    let w := { w with
      shadow := { w.shadow with m_point_lights := w.shadow.m_point_lights.replace light_name shadow },
      gl := gl }
    match created with
    | Outcome.fatal message => (w, Outcome.fatal message)
    | Outcome.threw what => (w, Outcome.threw what)
    | Outcome.ok _ =>
      let gl := w.gl.glViewport 0 0 (to_GLsizei shadow.params.resolution)
        (to_GLsizei shadow.params.resolution)
      let gl := gl.glBindFramebuffer shadow.framebuffer
      let gl := gl.emit Event.glClear
      match ensure_depth_shader { w with gl := gl } with
      | (w, Outcome.fatal message) => (w, Outcome.fatal message)
      | (w, Outcome.threw what) => (w, Outcome.threw what)
      | (w, Outcome.ok _) =>
        match w.shadow.m_depth_shader with
        | none =>
          let gl := w.gl.emit (Event.spdlog LogLevel.error "ShadowController: Depth shader is null!")
          ({ w with gl := gl }, Outcome.ok ())
        | some depth_shader =>
          let gl := w.gl.emit (Event.use depth_shader.id)
          let uploads :=
            and_then (upload_shadow_matrices depth_shader shadow (List.finRange 6))
              (and_then (depth_shader.set_float "far_plane" shadow.params.far_plane)
                (depth_shader.set_vec3 "lightPos" shadow.params.position))
          match uploads gl with
          | (gl, Outcome.fatal message) => ({ w with gl := gl }, Outcome.fatal message)
          | (gl, Outcome.threw what) => ({ w with gl := gl }, Outcome.threw what)
          | (gl, Outcome.ok _) =>
            match invoke render_geometry gl with
            | (gl, Outcome.fatal message) => ({ w with gl := gl }, Outcome.fatal message)
            | (gl, Outcome.threw what) => ({ w with gl := gl }, Outcome.threw what)
            | (gl, Outcome.ok _) =>
              let gl := gl.glBindFramebuffer 0
              ({ w with gl := gl }, Outcome.ok ())

end ShadowController

/-! ## InstancingController: code -/

namespace InstancingController

/-- Member `create_instance_buffer`. -/
def create_instance_buffer (group : InstanceGroup) (gl : GLState) :
    InstanceGroup × GLState × Outcome Unit :=
  match group.data with
  | none => (group, gl, Outcome.fatal "Cannot create buffer for null instance data")
  | some data =>
    let (buffer, gl) := gl.glGenBuffers
    let group := { group with buffer_id := buffer }
    let gl := gl.glBindBuffer group.buffer_id
    let gl := gl.glBufferData data.size
    let gl := gl.glBindBuffer 0
    ({ group with needs_update := false }, gl, Outcome.ok ())

/-- Member `update_instance_buffer`. -/
def update_instance_buffer (group : InstanceGroup) (gl : GLState) :
    InstanceGroup × GLState × Outcome Unit :=
  if !group.needs_update || group.buffer_id == 0 then (group, gl, Outcome.ok ())
  else
    match group.data with
    | none => (group, gl, Outcome.fatal "Cannot update buffer for null instance data")
    | some data =>
      let gl := gl.glBindBuffer group.buffer_id
      let gl := gl.glBufferData data.size
      let gl := gl.glBindBuffer 0
      ({ group with needs_update := false }, gl, Outcome.ok ())

/-- Member `destroy_instance_buffer`. -/
def destroy_instance_buffer (group : InstanceGroup) (gl : GLState) : InstanceGroup × GLState :=
  if group.buffer_id ≠ 0 then
    ({ group with buffer_id := 0 }, gl.glDeleteBuffers group.buffer_id)
  else (group, gl)

/-- Member `register_instance_group`. -/
def register_instance_group (group_name : String) (instance_data : Option InstancedData)
    (w : World) : World × Outcome Unit :=
  let (groups, gl) :=
    match w.instancing.m_instance_groups.lookup group_name with
    | some group =>
      let (_, gl) := destroy_instance_buffer group w.gl
      (w.instancing.m_instance_groups.replace group_name (InstanceGroup.of_data instance_data),
        gl)
    | none =>
      (w.instancing.m_instance_groups.subscript_assign group_name
        (InstanceGroup.of_data instance_data), w.gl)
  -- auto& group = m_instance_groups[group_name];
  let (groups, group) :=
    match groups.lookup group_name with
    | some group => (groups, group)
    | none => (groups.insert group_name {}, {})
  let (group, gl, out) := create_instance_buffer group gl
  let groups := groups.replace group_name group
  ({ w with instancing := { w.instancing with m_instance_groups := groups }, gl := gl }, out)

/-- Member `update_instance_group`. -/
def update_instance_group (group_name : String) (instance_data : Option InstancedData)
    (w : World) : World × Outcome Bool :=
  match w.instancing.m_instance_groups.lookup group_name with
  | none => (w, Outcome.ok false)
  | some group =>
    let group := { group with data := instance_data }
    let group := { group with needs_update := true }
    let (group, gl, out) := update_instance_buffer group w.gl
    let groups := w.instancing.m_instance_groups.replace group_name group
    let w := { w with instancing := { w.instancing with m_instance_groups := groups }, gl := gl }
    match out with
    | Outcome.ok _ => (w, Outcome.ok true)
    | Outcome.fatal message => (w, Outcome.fatal message)
    | Outcome.threw what => (w, Outcome.threw what)

/-- Member `unregister_instance_group`. -/
def unregister_instance_group (group_name : String) (w : World) : World × Outcome Bool :=
  match w.instancing.m_instance_groups.lookup group_name with
  | none => (w, Outcome.ok false)
  | some group =>
    let (_, gl) := destroy_instance_buffer group w.gl
    let groups := w.instancing.m_instance_groups.erase group_name
    ({ w with instancing := { w.instancing with m_instance_groups := groups }, gl := gl },
      Outcome.ok true)

/-- Member `is_group_registered`. -/
def is_group_registered (group_name : String) (w : World) : Bool :=
  (w.instancing.m_instance_groups.lookup group_name).isSome

/-- Member `get_instance_count`; the two `dynamic_pointer_cast`s are the two first cases, and a
null pointer casts to null. -/
def get_instance_count (group_name : String) (w : World) : Nat :=
  match w.instancing.m_instance_groups.lookup group_name with
  | none => 0
  | some group =>
    match group.data with
    | some (InstancedData.transforms transforms) => transforms.count
    | some (InstancedData.offsets offsets) => offsets.count
    | _ => 0

/-- Member `draw_instanced`; `mesh` is `none` for the null pointer. -/
def draw_instanced (group_name : String) (mesh : Option Mesh) (w : World) :
    World × Outcome Unit :=
  match mesh with
  | none => (w, Outcome.fatal "Cannot draw null mesh")
  | some mesh =>
    match w.instancing.m_instance_groups.lookup group_name with
    | none => (w, Outcome.fatal ("Instance group '" ++ group_name ++ "' is not registered"))
    | some _ =>
      let instance_count := get_instance_count group_name w
      if instance_count = 0 then
        let gl := w.gl.emit (Event.spdlog LogLevel.warn
          ("InstancingController: No instances to draw for group '" ++ group_name ++ "'"))
        ({ w with gl := gl }, Outcome.ok ())
      else
        let gl := w.gl.emit (Event.glBindVertexArray mesh.vao)
        let gl :=
          if mesh.num_indices > 0 then
            gl.emit (Event.glDrawElementsInstanced mesh.num_indices instance_count)
          else
            gl.emit (Event.spdlog LogLevel.warn
              "InstancingController: Mesh without indices not fully supported for instancing")
        let gl := gl.emit (Event.glBindVertexArray 0)
        ({ w with gl := gl }, Outcome.ok ())

/-- Static member `create_grid_offsets` in exact arithmetic; the two `for` loops are the two
folds. The same function in an arbitrary arithmetic of `float` is `create_grid_offsets_float`
below. -/
def create_grid_offsets (width height : Nat) (spacing : ℚ) (center_offset : Vec2) :
    InstancedOffsets :=
  let offsets : InstancedOffsets := {}
  (List.range height).foldl (fun (offsets : InstancedOffsets) (y : Nat) =>
    (List.range width).foldl (fun (offsets : InstancedOffsets) (x : Nat) =>
      let offset : Vec2 :=
        { x := ((x : ℚ) - (width : ℚ) * (1 / 2)) * spacing + center_offset.x,
          y := ((y : ℚ) - (height : ℚ) * (1 / 2)) * spacing + center_offset.y }
      offsets.add_offset offset) offsets) offsets

end InstancingController

/-! ## Sequences of calls -/

/-- A freshly constructed pair of controllers (no light, no group) in a given context. -/
def World.initial (gl : GLState) (env : Env) : World := { gl := gl, env := env }

/-- One call of the public interface of `ShadowController` that changes a light. -/
inductive ShadowCall where
  | register_point_light (light_name : String) (params : PointLightShadowParams)
  | update_light_position (light_name : String) (position : Vec3)
  | update_light_far_plane (light_name : String) (far_plane : ℚ)
  | unregister_point_light (light_name : String)
  | render_shadows_for_light (light_name : String) (render_geometry : RenderGeometry)

/-- The state a call leaves behind, whether it returned or failed. -/
def ShadowCall.run : ShadowCall → World → World
  | register_point_light light_name params, w =>
    (ShadowController.register_point_light light_name params w).1
  | update_light_position light_name position, w =>
    (ShadowController.update_light_position light_name position w).1
  | update_light_far_plane light_name far_plane, w =>
    (ShadowController.update_light_far_plane light_name far_plane w).1
  | unregister_point_light light_name, w =>
    (ShadowController.unregister_point_light light_name w).1
  | render_shadows_for_light light_name render_geometry, w =>
    (ShadowController.render_shadows_for_light light_name render_geometry w).1

/-- The state after a sequence of calls, made one after the other. -/
def run_shadow_calls (calls : List ShadowCall) (w : World) : World :=
  calls.foldl (fun w call => call.run w) w

/-- The stored transforms of every registered light are the ones computed from its current
parameters. -/
def transforms_current (w : World) : Prop :=
  ∀ (light_name : String) (shadow : PointLightShadow),
    w.shadow.m_point_lights.lookup light_name = some shadow →
    List.ofFn shadow.shadow_transforms =
      create_shadow_transforms shadow.params.position shadow.params.near_plane
        shadow.params.far_plane

/-- One call on a fixed light: a (re-)registration or a shadow render. -/
inductive LightStep where
  | register (params : PointLightShadowParams)
  | render (render_geometry : RenderGeometry)

/-- The state a step on the light `light_name` leaves behind, whether it returned or failed. -/
def LightStep.run (light_name : String) : LightStep → World → World
  | register params, w => (ShadowController.register_point_light light_name params w).1
  | render render_geometry, w =>
    (ShadowController.render_shadows_for_light light_name render_geometry w).1

/-- The state after a sequence of steps on the light `light_name`. -/
def run_light_steps (light_name : String) (steps : List LightStep) (w : World) : World :=
  steps.foldl (fun w step => step.run light_name w) w

/-- Whether a step is a shadow render. -/
def LightStep.is_render : LightStep → Bool
  | register _ => false
  | render _ => true

/-- The names in `live` of the objects created after the first `created_before` ones. -/
def created_since (created_before : Nat) (live : List Nat) : List Nat :=
  live.filter (fun name => created_before < name)

/-- The resource accounting of one light since the context had `created_before` objects: the
light is registered, its two handles are zero together, they are non-zero exactly if `rendered`
holds, the live textures and framebuffers created since are the ones its handles name, and no
live texture or framebuffer has a name that `glGen*` has yet to hand out. -/
def one_resource_set (light_name : String) (created_before : Nat) (rendered : Bool)
    (w : World) : Prop :=
  ∃ shadow : PointLightShadow,
    w.shadow.m_point_lights.lookup light_name = some shadow ∧
    (shadow.depth_cubemap = 0 ↔ shadow.framebuffer = 0) ∧
    (shadow.framebuffer ≠ 0 ↔ rendered = true) ∧
    created_since created_before w.gl.textures =
      (if shadow.depth_cubemap = 0 then [] else [shadow.depth_cubemap]) ∧
    created_since created_before w.gl.framebuffers =
      (if shadow.framebuffer = 0 then [] else [shadow.framebuffer]) ∧
    created_before ≤ w.gl.created ∧
    (∀ t ∈ w.gl.textures, t ≤ w.gl.created) ∧
    (∀ f ∈ w.gl.framebuffers, f ≤ w.gl.created)

/-- The state after registering the payloads of `payloads`, one after the other, under the one
name `group_name`. -/
def register_repeatedly (group_name : String) (payloads : List InstancedData) (w : World) :
    World :=
  payloads.foldl
    (fun w data => (InstancingController.register_instance_group group_name (some data) w).1) w

/-- One call of the public interface of `InstancingController` that changes a group. -/
inductive InstancingCall where
  | register_instance_group (group_name : String) (instance_data : Option InstancedData)
  | update_instance_group (group_name : String) (instance_data : Option InstancedData)
  | unregister_instance_group (group_name : String)

/-- The state a call leaves behind, whether it returned or failed. -/
def InstancingCall.run : InstancingCall → World → World
  | register_instance_group group_name instance_data, w =>
    (InstancingController.register_instance_group group_name instance_data w).1
  | update_instance_group group_name instance_data, w =>
    (InstancingController.update_instance_group group_name instance_data w).1
  | unregister_instance_group group_name, w =>
    (InstancingController.unregister_instance_group group_name w).1

/-- The state after a sequence of calls, made one after the other. -/
def run_instancing_calls (calls : List InstancingCall) (w : World) : World :=
  calls.foldl (fun w call => call.run w) w

/-- Number of elements of a payload: matrices or 2D offsets; 0 for a null pointer and for a
payload of neither kind. -/
def element_count : Option InstancedData → Nat
  | some (InstancedData.transforms payload) => payload.transforms.length
  | some (InstancedData.offsets payload) => payload.offsets.length
  | _ => 0

/-- The instance count the specification expects for `group_name` after one more call, where
`none` stands for "not registered": registration records the payload passed, an update of a
registered group records the payload passed, unregistration forgets the group. -/
def expected_count_step (group_name : String) (expected : Option Nat) :
    InstancingCall → Option Nat
  | InstancingCall.register_instance_group name data =>
    if name = group_name then some (element_count data) else expected
  | InstancingCall.update_instance_group name data =>
    if name = group_name then expected.map (fun _ => element_count data) else expected
  | InstancingCall.unregister_instance_group name =>
    if name = group_name then none else expected

/-- The instance count the specification expects for `group_name` after `calls`, starting
from `expected`. -/
def expected_count (group_name : String) (calls : List InstancingCall)
    (expected : Option Nat) : Option Nat :=
  calls.foldl (expected_count_step group_name) expected

/-- The element count of the payload held under `group_name`, `none` if the name is not
registered. -/
def held_count (group_name : String) (w : World) : Option Nat :=
  (w.instancing.m_instance_groups.lookup group_name).map (fun group => element_count group.data)

/-- The offset the specification gives for column `x` and row `y` of the grid. -/
def grid_offset (width height : Nat) (spacing : ℚ) (center_offset : Vec2) (x y : Nat) : Vec2 :=
  { x := ((x : ℚ) - (width : ℚ) / 2) * spacing + center_offset.x,
    y := ((y : ℚ) - (height : ℚ) / 2) * spacing + center_offset.y }

/-- The entry that `register_point_light` stores for `params`. -/
def registered_entry (params : PointLightShadowParams) : PointLightShadow :=
  { params := params, depth_cubemap := 0, framebuffer := 0,
    shadow_transforms := fun i =>
      (create_shadow_transforms params.position params.near_plane params.far_plane).getD i.val 0 }

/-! ## ShadowController: the shadow pass, the shadow maps and the teardown -/

namespace ShadowController

/-- Member `begin_shadow_pass`: the two `glGetIntegerv` calls read the viewport and the
framebuffer binding into `m_state_backup`. -/
def begin_shadow_pass (w : World) : World :=
  let gl := w.gl.emit Event.glGetViewport
  let backup := { w.shadow.m_state_backup with viewport := gl.viewport }
  let gl := gl.emit Event.glGetFramebufferBinding
  let backup := { backup with framebuffer := gl.framebuffer_binding }
  let gl := gl.emit Event.glEnableDepthTest
  let gl := gl.emit Event.glDepthFuncLess
  { w with shadow := { w.shadow with m_state_backup := backup }, gl := gl }

/-- Member `end_shadow_pass`. -/
def end_shadow_pass (w : World) : World :=
  let backup := w.shadow.m_state_backup
  let gl := w.gl.glViewport backup.viewport.1 backup.viewport.2.1 backup.viewport.2.2.1
    backup.viewport.2.2.2
  let gl := gl.glBindFramebuffer backup.framebuffer
  { w with shadow := { w.shadow with m_current_rendering_light := "" }, gl := gl }

/-- One `try { setter } catch (const std::exception& e) { spdlog::error(message, e.what()) }`
block of `bind_shadow_maps`. A setter ends in `ok` or `threw`; the case `fatal` is there for
totality. -/
def try_set (setter : GLState → GLState × Outcome Unit) (message : String) (gl : GLState) :
    GLState :=
  match setter gl with
  | (gl, Outcome.ok _) => gl
  | (gl, Outcome.threw what) => gl.emit (Event.spdlog LogLevel.error (message ++ what))
  | (gl, Outcome.fatal what) => gl.emit (Event.spdlog LogLevel.error (message ++ what))

/-- The body of `bind_shadow_maps` for the first light whose resources exist: the texture bind
and the four guarded uploads before the `break`. -/
def bind_shadow_map (shader : Shader) (shadow_strength : ℚ) (shadow : PointLightShadow)
    (gl : GLState) : GLState :=
  let gl := gl.emit (Event.glActiveTexture 1)
  let gl := gl.emit (Event.glBindTextureCubeMap shadow.depth_cubemap)
  let gl := try_set (shader.set_int "depthMap" 1)
    "ShadowController: Failed to set depthMap uniform: " gl
  let gl := try_set (shader.set_vec3 "lightPos" shadow.params.position)
    "ShadowController: Failed to set lightPos uniform: " gl
  let gl := try_set (shader.set_float "far_plane" shadow.params.far_plane)
    "ShadowController: Failed to set far_plane uniform: " gl
  let gl := try_set (shader.set_float "shadowStrength" shadow_strength)
    "ShadowController: Failed to set shadowStrength uniform: " gl
  gl

/-- The `for` loop of `bind_shadow_maps` over the entries of the map, in the order in which
the map iterates: `continue` after a warning for a light without resources, `break` after the
first light with resources. -/
def bind_shadow_maps_loop (shader : Shader) (shadow_strength : ℚ) :
    List (Sigma fun _ : String => PointLightShadow) → GLState → GLState
  | [], gl => gl
  | ⟨light_name, shadow⟩ :: rest, gl =>
    if shadow.depth_cubemap = 0 then
      let gl := gl.emit (Event.spdlog LogLevel.warn
        ("ShadowController: Shadow resources not created for light '" ++ light_name ++ "'"))
      bind_shadow_maps_loop shader shadow_strength rest gl
    else
      bind_shadow_map shader shadow_strength shadow gl

/-- Member `bind_shadow_maps`; `shader` is `none` for the null pointer. -/
def bind_shadow_maps (shader : Option Shader) (shadow_strength : ℚ) (w : World) :
    World × Outcome Unit :=
  match shader with
  | none => (w, Outcome.fatal "Cannot bind shadow maps to null shader")
  | some shader =>
    let gl := bind_shadow_maps_loop shader shadow_strength w.shadow.m_point_lights.entries w.gl
    ({ w with gl := gl }, Outcome.ok ())

/-- Member `terminate`. -/
def terminate (w : World) : World :=
  let gl := w.gl.emit (Event.spdlog LogLevel.info "ShadowController::terminate")
  let gl := w.shadow.m_point_lights.entries.foldl
    (fun gl entry => (destroy_shadow_resources entry.2 gl).2) gl
  { w with shadow := { w.shadow with m_point_lights := ∅, m_depth_shader := none }, gl := gl }

end ShadowController

/-! ## InstancingController: attribute setup, textured draws and the teardown -/

namespace InstancingController

/-- Member `terminate`. -/
def terminate (w : World) : World :=
  let gl := w.gl.emit (Event.spdlog LogLevel.info "InstancingController::terminate")
  let gl := w.instancing.m_instance_groups.entries.foldl
    (fun gl entry => (destroy_instance_buffer entry.2 gl).2) gl
  { w with instancing := { w.instancing with m_instance_groups := ∅ }, gl := gl }

/-- Member `setup_matrix_attributes`; `location` is a `uint32_t`, `sizeof(glm::mat4)` is 64 and
`sizeof(glm::vec4)` is 16. -/
def setup_matrix_attributes (attribute_start buffer_id : Nat) (gl : GLState) : GLState :=
  let gl := gl.glBindBuffer buffer_id
  let gl := (List.range 4).foldl (fun (gl : GLState) (i : Nat) =>
    let location := (attribute_start + i) % 2 ^ 32
    let gl := gl.emit (Event.glEnableVertexAttribArray location)
    let gl := gl.emit (Event.glVertexAttribPointer location 4 64 (i * 16))
    gl.emit (Event.glVertexAttribDivisor location 1)) gl
  gl.glBindBuffer 0

/-- Member `setup_offset_attributes`; `sizeof(glm::vec2)` is 8. -/
def setup_offset_attributes (attribute_start buffer_id : Nat) (gl : GLState) : GLState :=
  let gl := gl.glBindBuffer buffer_id
  let gl := gl.emit (Event.glEnableVertexAttribArray attribute_start)
  let gl := gl.emit (Event.glVertexAttribPointer attribute_start 2 8 0)
  let gl := gl.emit (Event.glVertexAttribDivisor attribute_start 1)
  gl.glBindBuffer 0

/-- Member `setup_instanced_mesh`; `mesh` is `none` for the null pointer. -/
def setup_instanced_mesh (group_name : String) (mesh : Option Mesh) (attribute_start : Nat)
    (w : World) : World × Outcome Unit :=
  match mesh with
  | none => (w, Outcome.fatal "Cannot setup instancing for null mesh")
  | some mesh =>
    match w.instancing.m_instance_groups.lookup group_name with
    | none => (w, Outcome.fatal ("Instance group '" ++ group_name ++ "' is not registered"))
    | some group =>
      let (group, gl, out) :=
        if group.buffer_id = 0 then create_instance_buffer group w.gl
        else if group.needs_update then update_instance_buffer group w.gl
        else (group, w.gl, Outcome.ok ())
      let groups := w.instancing.m_instance_groups.replace group_name group
      let w := { w with instancing := { w.instancing with m_instance_groups := groups }, gl := gl }
      match out with
      | Outcome.fatal message => (w, Outcome.fatal message)
      | Outcome.threw what => (w, Outcome.threw what)
      | Outcome.ok _ =>
        let gl := w.gl.emit (Event.glBindVertexArray mesh.vao)
        match group.data with
        | some (InstancedData.transforms _) =>
          let gl := setup_matrix_attributes attribute_start group.buffer_id gl
          let gl := gl.emit (Event.glBindVertexArray 0)
          ({ w with gl := gl }, Outcome.ok ())
        | some (InstancedData.offsets _) =>
          let gl := setup_offset_attributes attribute_start group.buffer_id gl
          let gl := gl.emit (Event.glBindVertexArray 0)
          ({ w with gl := gl }, Outcome.ok ())
        | _ =>
          ({ w with gl := gl },
            Outcome.fatal ("Unsupported instance data type for group '" ++ group_name ++ "'"))

/-- The texture loop of `draw_instanced_with_textures` from index `i` on; `counts` is the map
from a uniform-name prefix to the number of textures seen with it. An exception of `set_int` is
not caught and ends the loop. -/
def bind_mesh_textures (shader : Shader) :
    List Texture → Nat → (String → Nat) → GLState → GLState × Outcome Unit
  | [], _, _, gl => (gl, Outcome.ok ())
  | texture :: rest, i, counts, gl =>
    let gl := gl.emit (Event.glActiveTexture i)
    let texture_type := texture.uniform_name_convention
    let uniform_name := "" ++ texture_type
    let count := counts texture_type + 1
    let counts := fun key => if key = texture_type then count else counts key
    let uniform_name := uniform_name ++ toString count
    match shader.set_int uniform_name i gl with
    | (gl, Outcome.ok _) =>
      let gl := gl.emit (Event.glBindTexture2D texture.id)
      bind_mesh_textures shader rest (i + 1) counts gl
    | (gl, Outcome.fatal message) => (gl, Outcome.fatal message)
    | (gl, Outcome.threw what) => (gl, Outcome.threw what)

/-- Member `draw_instanced_with_textures`; `mesh` and `shader` are `none` for the null
pointer. -/
def draw_instanced_with_textures (group_name : String) (mesh : Option Mesh)
    (shader : Option Shader) (w : World) : World × Outcome Unit :=
  match mesh with
  | none => (w, Outcome.fatal "Cannot draw null mesh")
  | some mesh =>
    match shader with
    | none => (w, Outcome.fatal "Cannot draw with null shader")
    | some shader =>
      match w.instancing.m_instance_groups.lookup group_name with
      | none => (w, Outcome.fatal ("Instance group '" ++ group_name ++ "' is not registered"))
      | some _ =>
        let instance_count := get_instance_count group_name w
        if instance_count = 0 then
          let gl := w.gl.emit (Event.spdlog LogLevel.warn
            ("InstancingController: No instances to draw for group '" ++ group_name ++ "'"))
          ({ w with gl := gl }, Outcome.ok ())
        else
          match bind_mesh_textures shader mesh.textures 0 (fun _ => 0) w.gl with
          | (gl, Outcome.fatal message) => ({ w with gl := gl }, Outcome.fatal message)
          | (gl, Outcome.threw what) => ({ w with gl := gl }, Outcome.threw what)
          | (gl, Outcome.ok _) =>
            let gl := gl.emit (Event.glBindVertexArray mesh.vao)
            let gl :=
              if mesh.num_indices > 0 then
                gl.emit (Event.glDrawElementsInstanced mesh.num_indices instance_count)
              else
                gl.emit (Event.spdlog LogLevel.warn
                  "InstancingController: Mesh without indices not fully supported for instancing")
            let gl := gl.emit (Event.glBindVertexArray 0)
            ({ w with gl := gl }, Outcome.ok ())

end InstancingController

/-! ## Sequences of calls on the whole interface of `ShadowController` -/

/-- One call of the public interface of `ShadowController` that can change anything. -/
inductive ShadowApiCall where
  | light (call : ShadowCall)
  | begin_shadow_pass
  | end_shadow_pass
  | bind_shadow_maps (shader : Option Shader) (shadow_strength : ℚ)
  | terminate

/-- The state a call leaves behind, whether it returned or failed. -/
def ShadowApiCall.run : ShadowApiCall → World → World
  | light call, w => call.run w
  | begin_shadow_pass, w => ShadowController.begin_shadow_pass w
  | end_shadow_pass, w => ShadowController.end_shadow_pass w
  | bind_shadow_maps shader shadow_strength, w =>
    (ShadowController.bind_shadow_maps shader shadow_strength w).1
  | terminate, w => ShadowController.terminate w

/-- The state after a sequence of calls, made one after the other. -/
def run_shadow_api_calls (calls : List ShadowApiCall) (w : World) : World :=
  calls.foldl (fun w call => call.run w) w

/-- Whether a call is `render_shadows_for_light` for the light `light_name`. -/
def ShadowApiCall.renders (light_name : String) : ShadowApiCall → Bool
  | light (ShadowCall.render_shadows_for_light name _) => name == light_name
  | _ => false

/-! ## Observations on the trace -/

/-- Whether an event binds a texture (or selects the texture unit for it) or uploads a
uniform. -/
def Event.is_bind_or_upload : Event → Bool
  | Event.glActiveTexture _ => true
  | Event.glBindTextureCubeMap _ => true
  | Event.glBindTexture2D _ => true
  | Event.set_int _ _ _ => true
  | Event.set_float _ _ _ => true
  | Event.set_vec3 _ _ _ => true
  | Event.set_mat4 _ _ _ => true
  | _ => false

/-- The texture binds and uniform uploads among a list of events, in order. -/
def binds_and_uploads (events : List Event) : List Event :=
  events.filter Event.is_bind_or_upload

/-- The uniform uploads `bind_shadow_maps` performs for a light: of depthMap, lightPos,
far_plane and shadowStrength, in this order, those that exist in the shader. -/
def shadow_map_uploads (shader : Shader) (shadow_strength : ℚ) (shadow : PointLightShadow) :
    List Event :=
  (if "depthMap" ∈ shader.uniforms then [Event.set_int shader.id "depthMap" 1] else []) ++
  (if "lightPos" ∈ shader.uniforms then
    [Event.set_vec3 shader.id "lightPos" shadow.params.position] else []) ++
  (if "far_plane" ∈ shader.uniforms then
    [Event.set_float shader.id "far_plane" shadow.params.far_plane] else []) ++
  (if "shadowStrength" ∈ shader.uniforms then
    [Event.set_float shader.id "shadowStrength" shadow_strength] else [])

/-- The first light, in the iteration order of the map, whose depth cubemap exists. -/
def first_ready_light (w : World) : Option (Sigma fun _ : String => PointLightShadow) :=
  w.shadow.m_point_lights.entries.find? (fun entry => entry.2.depth_cubemap != 0)

/-- The resource discipline of the shadow controller since the context had `created_before`
objects: the two handles of every registered light are zero together, and every live texture
and framebuffer created since is named by the handle of a registered light. -/
def shadow_resources_held (created_before : Nat) (w : World) : Prop :=
  (∀ (light_name : String) (shadow : PointLightShadow),
    w.shadow.m_point_lights.lookup light_name = some shadow →
      (shadow.depth_cubemap = 0 ↔ shadow.framebuffer = 0)) ∧
  (∀ t ∈ w.gl.textures, created_before < t →
    ∃ (light_name : String) (shadow : PointLightShadow),
      w.shadow.m_point_lights.lookup light_name = some shadow ∧ shadow.depth_cubemap = t) ∧
  (∀ f ∈ w.gl.framebuffers, created_before < f →
    ∃ (light_name : String) (shadow : PointLightShadow),
      w.shadow.m_point_lights.lookup light_name = some shadow ∧ shadow.framebuffer = f)

/-! ## Sequences of calls on the whole interface of `InstancingController` -/

/-- One call of the public interface of `InstancingController` that can change anything. -/
inductive InstancingApiCall where
  | group (call : InstancingCall)
  | setup_instanced_mesh (group_name : String) (mesh : Option Mesh) (attribute_start : Nat)
  | draw_instanced (group_name : String) (mesh : Option Mesh)
  | draw_instanced_with_textures (group_name : String) (mesh : Option Mesh)
      (shader : Option Shader)
  | terminate

/-- The state a call leaves behind, whether it returned or failed. -/
def InstancingApiCall.run : InstancingApiCall → World → World
  | group call, w => call.run w
  | setup_instanced_mesh group_name mesh attribute_start, w =>
    (InstancingController.setup_instanced_mesh group_name mesh attribute_start w).1
  | draw_instanced group_name mesh, w =>
    (InstancingController.draw_instanced group_name mesh w).1
  | draw_instanced_with_textures group_name mesh shader, w =>
    (InstancingController.draw_instanced_with_textures group_name mesh shader w).1
  | terminate, w => InstancingController.terminate w

/-- The state after a sequence of calls, made one after the other. -/
def run_instancing_api_calls (calls : List InstancingApiCall) (w : World) : World :=
  calls.foldl (fun w call => call.run w) w

/-- The resource discipline of the instancing controller since the context had
`created_before` objects: every live buffer created since is named by the `buffer_id` of a
registered group. -/
def instance_buffers_held (created_before : Nat) (w : World) : Prop :=
  ∀ b ∈ w.gl.buffers, created_before < b →
    ∃ (group_name : String) (group : InstanceGroup),
      w.instancing.m_instance_groups.lookup group_name = some group ∧ group.buffer_id = b

/-! ## The events of a shadow render -/

/-- The calls `create_shadow_resources` issues, up to and including the completeness check,
when `created` objects exist: the new texture is `created + 1`, the new framebuffer is
`created + 2`. -/
def create_shadow_resources_events (resolution created : Nat) : List Event :=
  [Event.glGenTextures (created + 1), Event.glBindTextureCubeMap (created + 1)] ++
  (List.range 6).map (fun i =>
    Event.glTexImage2D i (to_GLsizei resolution) (to_GLsizei resolution)) ++
  [Event.glTexParameteri "GL_TEXTURE_MAG_FILTER" "GL_NEAREST",
   Event.glTexParameteri "GL_TEXTURE_MIN_FILTER" "GL_NEAREST",
   Event.glTexParameteri "GL_TEXTURE_WRAP_S" "GL_CLAMP_TO_EDGE",
   Event.glTexParameteri "GL_TEXTURE_WRAP_T" "GL_CLAMP_TO_EDGE",
   Event.glTexParameteri "GL_TEXTURE_WRAP_R" "GL_CLAMP_TO_EDGE",
   Event.glGenFramebuffers (created + 2), Event.glBindFramebuffer (created + 2),
   Event.glFramebufferTexture (created + 1), Event.glDrawBuffer, Event.glReadBuffer,
   Event.glCheckFramebufferStatus]

/-- The calls by which `render_shadows_for_light` creates the resources of a light lazily:
none if the light has a framebuffer, otherwise those of a successful
`create_shadow_resources`. -/
def lazy_creation_events (shadow : PointLightShadow) (created : Nat) : List Event :=
  if shadow.framebuffer = 0 then
    create_shadow_resources_events shadow.params.resolution created ++
      [Event.glBindFramebuffer 0, Event.glBindTextureCubeMap 0]
  else []

/-- The entry of a light after the lazy creation of its resources. -/
def with_resources (shadow : PointLightShadow) (created : Nat) : PointLightShadow :=
  if shadow.framebuffer = 0 then
    { shadow with depth_cubemap := created + 1, framebuffer := created + 2 }
  else shadow

/-- The first calls of a shadow render once the resources exist: the viewport, the framebuffer
bind and the depth clear. -/
def shadow_pass_setup_events (shadow : PointLightShadow) : List Event :=
  [Event.glViewport 0 0 (to_GLsizei shadow.params.resolution)
     (to_GLsizei shadow.params.resolution),
   Event.glBindFramebuffer shadow.framebuffer, Event.glClear]

/-- The uploads of a shadow render to the depth shader, after `use()`: the six shadow matrices
in order, the far plane and the light position. -/
def shadow_pass_upload_events (shader : Shader) (shadow : PointLightShadow) : List Event :=
  [Event.use shader.id] ++
  (List.finRange 6).map (fun i =>
    Event.set_mat4 shader.id ("shadowMatrices[" ++ toString i.val ++ "]")
      (shadow.shadow_transforms i)) ++
  [Event.set_float shader.id "far_plane" shadow.params.far_plane,
   Event.set_vec3 shader.id "lightPos" shadow.params.position]

/-- Whether an event is the invocation of the geometry callback. -/
def Event.is_render_geometry : Event → Bool
  | Event.render_geometry => true
  | _ => false

/-- Whether an event is an error message in the log. -/
def Event.is_error_log : Event → Bool
  | Event.spdlog LogLevel.error _ => true
  | _ => false

/-! ## The guarded uploads of `bind_shadow_maps` -/

/-- What one `try`/`catch` block of `bind_shadow_maps` leaves in the trace: the upload `e` if
the uniform `name` exists in the shader, otherwise the error that the `catch` logs. -/
def guarded_upload (shader : Shader) (name : String) (e : Event) (message : String) : Event :=
  if name ∈ shader.uniforms then e
  else Event.spdlog LogLevel.error (message ++ ("no uniform named " ++ name))

/-- What the four guarded uploads of `bind_shadow_maps` leave in the trace for a light, in the
order of the source: depthMap, lightPos, far_plane, shadowStrength. -/
def shadow_map_attempts (shader : Shader) (shadow_strength : ℚ) (shadow : PointLightShadow) :
    List Event :=
  [guarded_upload shader "depthMap" (Event.set_int shader.id "depthMap" 1)
     "ShadowController: Failed to set depthMap uniform: ",
   guarded_upload shader "lightPos" (Event.set_vec3 shader.id "lightPos" shadow.params.position)
     "ShadowController: Failed to set lightPos uniform: ",
   guarded_upload shader "far_plane"
     (Event.set_float shader.id "far_plane" shadow.params.far_plane)
     "ShadowController: Failed to set far_plane uniform: ",
   guarded_upload shader "shadowStrength"
     (Event.set_float shader.id "shadowStrength" shadow_strength)
     "ShadowController: Failed to set shadowStrength uniform: "]

/-- The warnings `bind_shadow_maps` logs for the lights it skips: those that come, in the
iteration order of the map, before the first light whose depth cubemap exists. -/
def skipped_light_warnings (entries : List (Sigma fun _ : String => PointLightShadow)) :
    List Event :=
  (entries.takeWhile (fun entry => entry.2.depth_cubemap == 0)).map (fun entry =>
    Event.spdlog LogLevel.warn
      ("ShadowController: Shadow resources not created for light '" ++ entry.1 ++ "'"))

/-! ## The per-instance vertex attributes -/

/-- Whether an event configures a vertex attribute. -/
def Event.is_attribute_setup : Event → Bool
  | Event.glEnableVertexAttribArray _ => true
  | Event.glVertexAttribPointer _ _ _ _ => true
  | Event.glVertexAttribDivisor _ _ => true
  | _ => false

/-- The calls that configure vertex attributes among a list of events, in order. -/
def attribute_setup (events : List Event) : List Event :=
  events.filter Event.is_attribute_setup

/-- The three calls that configure the attribute `location` as a per-instance attribute of
`components` floats read with the given stride from the given byte offset, advancing once per
instance. -/
def instanced_attribute (location components stride offset : Nat) : List Event :=
  [Event.glEnableVertexAttribArray location,
   Event.glVertexAttribPointer location components stride offset,
   Event.glVertexAttribDivisor location 1]

/-! ## The textures of an instanced draw -/

/-- The value of a string of decimal digits. -/
def decimal_value (digits : List Char) : Nat :=
  digits.foldl (fun acc c => 10 * acc + (c.toNat - 48)) 0

/-- The number of textures with the uniform-name convention `convention` among the textures of
index `0` to `i`. -/
def texture_rank (textures : List Texture) (i : Nat) (convention : String) : Nat :=
  ((textures.take (i + 1)).filter
    (fun texture => texture.uniform_name_convention == convention)).length

/-- The uniform name of the texture of index `i`: its convention followed by the decimal numeral
of its rank among the textures of the same convention. -/
def texture_uniform_name (textures : List Texture) (i : Nat) (texture : Texture) : String :=
  texture.uniform_name_convention ++
    toString (texture_rank textures i texture.uniform_name_convention)

/-- The calls of one round of the texture loop for the texture of index `i`: the texture unit
is selected, the index is uploaded under the uniform name, the texture is bound. -/
def texture_round (shader : Shader) (textures : List Texture) (i : Nat) (texture : Texture) :
    List Event :=
  [Event.glActiveTexture i,
   Event.set_int shader.id (texture_uniform_name textures i texture) i,
   Event.glBindTexture2D texture.id]

/-- The calls of the texture loop over all textures of a mesh when no upload fails. -/
def texture_binding_events (shader : Shader) (textures : List Texture) : List Event :=
  textures.enum.flatMap (fun entry => texture_round shader textures entry.1 entry.2)

/-- The calls of `draw_instanced_with_textures` after the texture loop. -/
def instanced_draw_events (mesh : Mesh) (instance_count : Nat) : List Event :=
  [Event.glBindVertexArray mesh.vao,
   if mesh.num_indices > 0 then Event.glDrawElementsInstanced mesh.num_indices instance_count
   else Event.spdlog LogLevel.warn
     "InstancingController: Mesh without indices not fully supported for instancing",
   Event.glBindVertexArray 0]

/-! ## The faces of a cube map -/

/-- The direction of face `i` of a cube map, in the order +X, -X, +Y, -Y, +Z, -Z. -/
def face_direction (i : Fin 6) : Vec3 :=
  [(⟨1, 0, 0⟩ : Vec3), ⟨-1, 0, 0⟩, ⟨0, 1, 0⟩, ⟨0, -1, 0⟩, ⟨0, 0, 1⟩, ⟨0, 0, -1⟩].getD i.val
    ⟨0, 0, 0⟩

/-- The homogeneous point `(origin + t * direction, 1)`. -/
def point_along (origin direction : Vec3) (t : ℚ) : Fin 4 → ℚ :=
  ![origin.x + t * direction.x, origin.y + t * direction.y, origin.z + t * direction.z, 1]

/-! ## The mean of a grid of offsets -/

/-- The arithmetic mean of a list of offsets. -/
def mean_offset (offsets : List Vec2) : Vec2 :=
  { x := (offsets.map (fun offset => offset.x)).sum / (offsets.length : ℚ),
    y := (offsets.map (fun offset => offset.y)).sum / (offsets.length : ℚ) }

/-! ## Calls that return, and the content of the instance buffers -/

/-- Whether a call ended in a violated `RG_GUARANTEE`. -/
def Outcome.is_fatal {α : Type} : Outcome α → Bool
  | Outcome.fatal _ => true
  | _ => false

/-- Whether a call on a group ends in a violated guarantee in the state `w`. -/
def InstancingCall.is_fatal : InstancingCall → World → Bool
  | register_instance_group group_name instance_data, w =>
    (InstancingController.register_instance_group group_name instance_data w).2.is_fatal
  | update_instance_group group_name instance_data, w =>
    (InstancingController.update_instance_group group_name instance_data w).2.is_fatal
  | unregister_instance_group group_name, w =>
    (InstancingController.unregister_instance_group group_name w).2.is_fatal

/-- Whether a call of the public interface of `InstancingController` ends in a violated
guarantee in the state `w`. -/
def InstancingApiCall.is_fatal : InstancingApiCall → World → Bool
  | group call, w => call.is_fatal w
  | setup_instanced_mesh group_name mesh attribute_start, w =>
    (InstancingController.setup_instanced_mesh group_name mesh attribute_start w).2.is_fatal
  | draw_instanced group_name mesh, w =>
    (InstancingController.draw_instanced group_name mesh w).2.is_fatal
  | draw_instanced_with_textures group_name mesh shader, w =>
    (InstancingController.draw_instanced_with_textures group_name mesh shader w).2.is_fatal
  | terminate, _ => false

/-- Whether no call of a sequence, made one after the other from the state `w`, ends in a
violated guarantee: a violated guarantee halts the program, so these are the sequences that can
be made in full. -/
def no_fatal_call : List InstancingApiCall → World → Bool
  | [], _ => true
  | call :: rest, w => !call.is_fatal w && no_fatal_call rest (call.run w)

/-- The byte length that an event leaves as the last one uploaded to `buffer`. -/
def upload_step (buffer : Nat) (last : Option Nat) : Event → Option Nat
  | Event.glBufferData target size => if target = buffer then some size else last
  | _ => last

/-- The byte length of the last `glBufferData` upload to `buffer` in a trace, `none` if there
is none. -/
def last_upload (buffer : Nat) (trace : List Event) : Option Nat :=
  trace.foldl (upload_step buffer) none

/-- The buffer of a group is not stale: it exists, the dirty flag is clear, the payload is
there and the last upload to the buffer had the byte length of the payload. -/
def InstanceGroup.buffer_current (group : InstanceGroup) (gl : GLState) : Prop :=
  group.buffer_id ≠ 0 ∧ group.needs_update = false ∧
  ∃ data : InstancedData, group.data = some data ∧
    last_upload group.buffer_id gl.trace = some data.size

/-- The buffers of all registered groups are not stale, were handed out by `glGenBuffers`, and
no two groups share a buffer. -/
def buffers_current (w : World) : Prop :=
  (∀ (group_name : String) (group : InstanceGroup),
    w.instancing.m_instance_groups.lookup group_name = some group →
      group.buffer_current w.gl ∧ group.buffer_id ≤ w.gl.created) ∧
  (∀ (first second : String) (g1 g2 : InstanceGroup),
    w.instancing.m_instance_groups.lookup first = some g1 →
    w.instancing.m_instance_groups.lookup second = some g2 →
    g1.buffer_id = g2.buffer_id → first = second)

/-! ## MainController: the skin animation -/

/-- Function `glm::mix` on vectors with a scalar weight: `x * (1 - a) + y * a`. -/
def glm.mix (x y : Vec3) (a : ℚ) : Vec3 :=
  ⟨x.x * (1 - a) + y.x * a, x.y * (1 - a) + y.y * a, x.z * (1 - a) + y.z * a⟩

/-- The enum `MainController::AnimationState`. -/
inductive AnimationState where
  | IDLE
  | ROTATING_TO_ZERO
  | MOVING_FORWARD
  | WAITING
  | ROTATING_TO_LOOK_BACK
  | MOVING_BACK
  | ROTATING_TO_ORIGINAL
  deriving DecidableEq, Repr

/-- The struct `MainController::BlockInfo`. -/
structure BlockInfo where
  model_name : String
  position : Vec3
  model_matrix : Mat4

/-- The data members of `MainController` that the skin animation and the grid of blocks read or
write. The four vectors saved by the animation have no initializer in the header. -/
structure MainController where
  m_blocks_to_render : List BlockInfo := []
  m_use_instancing : Bool := true
  m_grid_size : Int := 15
  m_skin_position : Vec3 := ⟨7041 / 1000, 336 / 100, 788 / 100⟩
  m_skin_rotation : Vec3 := ⟨0, -30, 0⟩
  m_animation_state : AnimationState := AnimationState.IDLE
  m_animation_timer : ℚ := 0
  m_animation_duration : ℚ := 2
  m_skin_original_position : Vec3
  m_skin_original_rotation : Vec3
  m_skin_target_position : Vec3
  m_skin_target_rotation : Vec3

namespace MainController

/-- Member `start_skin_animation`. -/
def start_skin_animation (self : MainController) : MainController :=
  if self.m_animation_state ≠ AnimationState.IDLE then self
  else
    let self := { self with m_skin_original_position := self.m_skin_position }
    let self := { self with m_skin_original_rotation := self.m_skin_rotation }
    let self := { self with m_animation_state := AnimationState.ROTATING_TO_ZERO }
    let self := { self with m_animation_timer := 0 }
    { self with m_skin_target_rotation := ⟨0, 0, 0⟩ }

/-- Member `update_skin_animation`. -/
def update_skin_animation (dt : ℚ) (self : MainController) : MainController :=
  if self.m_animation_state = AnimationState.IDLE then self
  else
    let self := { self with m_animation_timer := self.m_animation_timer + dt }
    let progress : ℚ := self.m_animation_timer / self.m_animation_duration
    match self.m_animation_state with
    | AnimationState.ROTATING_TO_ZERO =>
      if progress ≥ 1 then
        let self := { self with m_skin_rotation := self.m_skin_target_rotation }
        let self := { self with m_animation_state := AnimationState.MOVING_FORWARD }
        let self := { self with m_animation_timer := 0 }
        let forward : Vec3 := ⟨0, 0, 3⟩
        { self with m_skin_target_position := glm.add self.m_skin_position forward }
      else
        { self with
          m_skin_rotation :=
            glm.mix self.m_skin_original_rotation self.m_skin_target_rotation progress }
    | AnimationState.MOVING_FORWARD =>
      if progress ≥ 1 then
        let self := { self with m_skin_position := self.m_skin_target_position }
        let self := { self with m_animation_state := AnimationState.WAITING }
        let self := { self with m_animation_timer := 0 }
        { self with m_animation_duration := 10 }
      else
        { self with
          m_skin_position :=
            glm.mix self.m_skin_original_position self.m_skin_target_position progress }
    | AnimationState.WAITING =>
      if progress ≥ 1 then
        let self := { self with m_animation_state := AnimationState.ROTATING_TO_LOOK_BACK }
        let self := { self with m_animation_timer := 0 }
        let self := { self with m_animation_duration := 2 }
        { self with m_skin_target_rotation := ⟨0, 180, 0⟩ }
      else self
    | AnimationState.ROTATING_TO_LOOK_BACK =>
      let current_rotation : Vec3 := ⟨0, 0, 0⟩
      if progress ≥ 1 then
        let self := { self with m_skin_rotation := self.m_skin_target_rotation }
        let self := { self with m_animation_state := AnimationState.MOVING_BACK }
        { self with m_animation_timer := 0 }
      else
        { self with
          m_skin_rotation :=
            glm.mix current_rotation self.m_skin_target_rotation progress }
    | AnimationState.MOVING_BACK =>
      if progress ≥ 1 then
        let self := { self with m_skin_position := self.m_skin_original_position }
        let self := { self with m_animation_state := AnimationState.ROTATING_TO_ORIGINAL }
        let self := { self with m_animation_timer := 0 }
        { self with m_animation_duration := 2 }
      else
        { self with
          m_skin_position :=
            glm.mix self.m_skin_target_position self.m_skin_original_position progress }
    | AnimationState.ROTATING_TO_ORIGINAL =>
      if progress ≥ 1 then
        let self := { self with m_skin_rotation := self.m_skin_original_rotation }
        let self := { self with m_animation_state := AnimationState.IDLE }
        { self with m_animation_timer := 0 }
      else
        { self with
          m_skin_rotation :=
            glm.mix self.m_skin_target_rotation self.m_skin_original_rotation progress }
    | AnimationState.IDLE => self

end MainController

/-- The state that follows a state in the cycle of the skin animation. -/
def AnimationState.next : AnimationState → AnimationState
  | IDLE => ROTATING_TO_ZERO
  | ROTATING_TO_ZERO => MOVING_FORWARD
  | MOVING_FORWARD => WAITING
  | WAITING => ROTATING_TO_LOOK_BACK
  | ROTATING_TO_LOOK_BACK => MOVING_BACK
  | MOVING_BACK => ROTATING_TO_ORIGINAL
  | ROTATING_TO_ORIGINAL => IDLE

/-- One call of the skin animation: `start_skin_animation()` or `update_skin_animation(dt)`. -/
inductive AnimationCall where
  | start
  | update (dt : ℚ)

/-- The state a call of the skin animation leaves behind. -/
def AnimationCall.run : AnimationCall → MainController → MainController
  | start, self => self.start_skin_animation
  | update dt, self => self.update_skin_animation dt

/-- The state after a sequence of calls of the skin animation, with no other write to the
members in between. -/
def run_animation_calls (calls : List AnimationCall) (self : MainController) : MainController :=
  calls.foldl (fun self call => call.run self) self

/-- What holds between the calls of an animation started at position `position` and rotation
`rotation`: the saved values are these two; the skin is back at them and the phase lasts 2
whenever the animation is idle; the skin is still at the position while it rotates to zero; it
is back at the position and the phase lasts 2 while it rotates to the original. -/
def animation_invariant (position rotation : Vec3) (self : MainController) : Prop :=
  self.m_skin_original_position = position ∧ self.m_skin_original_rotation = rotation ∧
  match self.m_animation_state with
  | AnimationState.IDLE =>
    self.m_skin_position = position ∧ self.m_skin_rotation = rotation ∧
      self.m_animation_duration = 2
  | AnimationState.ROTATING_TO_ZERO => self.m_skin_position = position
  | AnimationState.ROTATING_TO_ORIGINAL =>
    self.m_skin_position = position ∧ self.m_animation_duration = 2
  | _ => True

/-! ## MainController: the grid of blocks -/

namespace glm

/-- Function `glm::translate`: the last column becomes
`m[0] * v[0] + m[1] * v[1] + m[2] * v[2] + m[3]`, the others stay. -/
def translate (m : Mat4) (v : Vec3) : Mat4 :=
  Matrix.of fun r c =>
    if c = 3 then m r 0 * v.x + m r 1 * v.y + m r 2 * v.z + m r 3 else m r c

/-- Function `glm::scale`: the first three columns are multiplied by the components of `v`. -/
def scale (m : Mat4) (v : Vec3) : Mat4 :=
  Matrix.of fun r c =>
    if c = 0 then m r 0 * v.x else if c = 1 then m r 1 * v.y
    else if c = 2 then m r 2 * v.z else m r 3

end glm

/-- The values of the loop variable of `for (int i = lo; i < hi; ++i)`, in order. -/
def int_range (lo hi : Int) : List Int :=
  (List.range (hi - lo).toNat).map (fun (k : Nat) => lo + (k : Int))

namespace MainController

/-- Member `calculate_block_model_matrix`. -/
def calculate_block_model_matrix (position : Vec3) : Mat4 :=
  let modelMatrix : Mat4 := 1
  let modelMatrix := glm.translate modelMatrix position
  let modelMatrix := glm.scale modelMatrix ⟨1 / 2, 1 / 2, 1 / 2⟩
  modelMatrix

/-- Member `setup_instanced_grid`; the two `for` loops are the two folds. -/
def setup_instanced_grid (self : MainController) (w : World) : World × Outcome Unit :=
  let transforms : InstancedTransforms := {}
  let transforms :=
    (int_range (-2) self.m_grid_size).foldl (fun (transforms : InstancedTransforms) (i : Int) =>
      (int_range (-2) self.m_grid_size).foldl
        (fun (transforms : InstancedTransforms) (j : Int) =>
          let model_matrix := calculate_block_model_matrix ⟨(i : ℚ), -1, (j : ℚ)⟩
          transforms.add_transform model_matrix) transforms) transforms
  InstancingController.register_instance_group "grid_blocks"
    (some (InstancedData.transforms transforms)) w

/-- Member `draw_block_with_shadows`. -/
def draw_block_with_shadows (block_name : String) (position : Vec3) (self : MainController) :
    MainController :=
  let model_matrix := calculate_block_model_matrix position
  { self with
    m_blocks_to_render := self.m_blocks_to_render ++ [⟨block_name, position, model_matrix⟩] }

/-- The part of member `draw` that fills `m_blocks_to_render`: the list is cleared, and the
blocks of the grid are queued if instancing is off. No other statement of `draw` adds a block;
the models, the shadow pass and the scene pass that follow are not part of the embedding. -/
def draw_queue_blocks (self : MainController) : MainController :=
  let self := { self with m_blocks_to_render := [] }
  if !self.m_use_instancing then
    (int_range 0 self.m_grid_size).foldl (fun (self : MainController) (i : Int) =>
      (int_range 0 self.m_grid_size).foldl (fun (self : MainController) (j : Int) =>
        draw_block_with_shadows "mcblock" ⟨(i : ℚ), -1, (j : ℚ)⟩ self) self) self
  else self

end MainController

/-- The positions `(i, -1, j)` with `lo <= i, j < hi`, row by row: the grid of blocks as the
specification describes it. -/
def grid_positions (lo hi : Int) : List Vec3 :=
  (int_range lo hi).flatMap (fun (i : Int) =>
    (int_range lo hi).map (fun (j : Int) => (⟨(i : ℚ), -1, (j : ℚ)⟩ : Vec3)))

/-- The transforms of the payload registered under `group_name`, empty if there is none. -/
def registered_transforms (group_name : String) (w : World) : List Mat4 :=
  match w.instancing.m_instance_groups.lookup group_name with
  | some group =>
    match group.data with
    | some (InstancedData.transforms payload) => payload.transforms
    | _ => []
  | none => []

/-! ## The circular arrangement of transforms -/

/-- The functions of the C math library that the factory and `glm::rotate` call. They are
parameters of the embedding: the theorems hold for whatever values they return. -/
structure Libm where
  sin : ℚ → ℚ
  cos : ℚ → ℚ
  sqrt : ℚ → ℚ

/-- A value of `std::generate_canonical`: a number of the interval [0, 1). -/
structure UnitDraw where
  value : ℚ
  nonneg : 0 ≤ value
  lt_one : value < 1

/-- One draw of a `std::uniform_real_distribution<float>` with the bounds `a` and `b`:
`a + (b - a) * u` for a canonical value `u`. -/
def uniform_real (a b : ℚ) (u : UnitDraw) : ℚ := a + (b - a) * u.value

/-- The quotient of two floats; `none` flags a division by zero, whose result would be an
infinity or a NaN. -/
def float_div (a b : ℚ) : Option ℚ := if b = 0 then none else some (a / b)

namespace glm

/-- Function `glm::radians`: the product with the constant 0.01745329251994329576923690768489. -/
def radians (degrees : ℚ) : ℚ :=
  degrees * (1745329251994329576923690768489 / 100000000000000000000000000000000)

/-- Function `glm::rotate`; `normalize` is `v * inversesqrt(dot(v, v))`. The first three
columns of the result are combinations of the first three columns of `m`, the last column is
the last column of `m`. -/
def rotate (libm : Libm) (m : Mat4) (angle : ℚ) (v : Vec3) : Mat4 :=
  let a := angle
  let c := libm.cos a
  let s := libm.sin a
  let n := libm.sqrt (dot v v)
  let axis : Vec3 := ⟨v.x / n, v.y / n, v.z / n⟩
  let temp : Vec3 := ⟨(1 - c) * axis.x, (1 - c) * axis.y, (1 - c) * axis.z⟩
  let r00 := c + temp.x * axis.x
  let r01 := temp.x * axis.y + s * axis.z
  let r02 := temp.x * axis.z - s * axis.y
  let r10 := temp.y * axis.x - s * axis.z
  let r11 := c + temp.y * axis.y
  let r12 := temp.y * axis.z + s * axis.x
  let r20 := temp.z * axis.x + s * axis.y
  let r21 := temp.z * axis.y - s * axis.x
  let r22 := c + temp.z * axis.z
  Matrix.of fun r col =>
    if col = 0 then m r 0 * r00 + m r 1 * r01 + m r 2 * r02
    else if col = 1 then m r 0 * r10 + m r 1 * r11 + m r 2 * r12
    else if col = 2 then m r 0 * r20 + m r 1 * r21 + m r 2 * r22
    else m r 3

end glm

namespace InstancingController

/-- The body of the loop of `create_circular_transforms` for the index `i`, where `draws` are
the values the generator yields from this round on: three draws for the displacement, one for
the scale, one for the rotation. The result is `none` if the division `i / count` is by
zero. -/
def circular_transform (libm : Libm) (draws : Nat → UnitDraw) (count : Nat)
    (radius offset scale_min scale_max : ℚ) (i : Nat) : Option Mat4 :=
  let model : Mat4 := 1
  match float_div (i : ℚ) (count : ℚ) with
  | none => none
  | some quotient =>
    let angle := quotient * 360
    let displacement_x := uniform_real (-offset) offset (draws 0)
    let displacement_y := uniform_real (-offset) offset (draws 1)
    let displacement_z := uniform_real (-offset) offset (draws 2)
    let x := libm.sin (glm.radians angle) * radius + displacement_x
    let y := displacement_y * (2 / 5)
    let z := libm.cos (glm.radians angle) * radius + displacement_z
    let model := glm.translate model ⟨x, y, z⟩
    let scale := uniform_real scale_min scale_max (draws 3)
    let model := glm.scale model ⟨scale, scale, scale⟩
    let rot_angle := glm.radians (uniform_real 0 360 (draws 4))
    let model := glm.rotate libm model rot_angle ⟨2 / 5, 3 / 5, 4 / 5⟩
    some model

/-- Static member `create_circular_transforms`; `draws` is the sequence of canonical values that
the generator `gen` yields, of which every round of the loop consumes five. The result is
`none` if a division by zero occurs. -/
def create_circular_transforms (libm : Libm) (draws : Nat → UnitDraw) (count : Nat)
    (radius offset scale_min scale_max : ℚ) : Option InstancedTransforms :=
  let transforms : InstancedTransforms := {}
  (List.range count).foldl
    (fun (state : Option InstancedTransforms) (i : Nat) =>
      match state with
      | none => none
      | some transforms =>
        match circular_transform libm (fun k => draws (5 * i + k)) count radius offset
            scale_min scale_max i with
        | none => none
        | some model => some (transforms.add_transform model))
    (some transforms)

end InstancingController

/-- The translation of a transform: the first three entries of its last column. -/
def translation (m : Mat4) : Vec3 := ⟨m 0 3, m 1 3, m 2 3⟩

/-! ## The grid of offsets in the arithmetic of `float` -/

/-- The operations of the type `float` that `create_grid_offsets` uses, on a carrier `F` of the
values of that type. Nothing is assumed of them: what is proved for every `FloatArithmetic`
holds for the operations of IEEE 754 binary32, which round and have infinities and NaN, as it
does for exact ones. -/
structure FloatArithmetic (F : Type) where
  /-- the conversion `static_cast<float>(n)` of a `uint32_t` -/
  of_uint32 : Nat → F
  /-- the literal `0.5f` -/
  half : F
  /-- the operator `-` -/
  sub : F → F → F
  /-- the operator `*` -/
  mul : F → F → F
  /-- the operator `+` -/
  add : F → F → F

/-- The type `glm::vec2` over the values `F` of `float`. -/
structure FloatVec2 (F : Type) where
  x : F
  y : F

/-- The struct `InstancedOffsets` over the values `F` of `float`. -/
structure FloatOffsets (F : Type) where
  offsets : List (FloatVec2 F) := []

/-- Member `add_offset`. -/
def FloatOffsets.add_offset {F : Type} (self : FloatOffsets F) (offset : FloatVec2 F) :
    FloatOffsets F :=
  { self with offsets := self.offsets ++ [offset] }

/-- Member `count()`. -/
def FloatOffsets.count {F : Type} (self : FloatOffsets F) : Nat := self.offsets.length

/-- Static member `create_grid_offsets` in a given arithmetic of `float`; the two `for` loops
are the two folds. -/
def InstancingController.create_grid_offsets_float {F : Type} (float : FloatArithmetic F)
    (width height : Nat) (spacing : F) (center_offset : FloatVec2 F) : FloatOffsets F :=
  let offsets : FloatOffsets F := {}
  (List.range height).foldl (fun (offsets : FloatOffsets F) (y : Nat) =>
    (List.range width).foldl (fun (offsets : FloatOffsets F) (x : Nat) =>
      let offset : FloatVec2 F :=
        { x := float.add
            (float.mul (float.sub (float.of_uint32 x) (float.mul (float.of_uint32 width) float.half))
              spacing)
            center_offset.x,
          y := float.add
            (float.mul
              (float.sub (float.of_uint32 y) (float.mul (float.of_uint32 height) float.half))
              spacing)
            center_offset.y }
      offsets.add_offset offset) offsets) offsets

/-- The exact arithmetic on the rationals, in which `create_grid_offsets` above is written. -/
def exact_arithmetic : FloatArithmetic ℚ :=
  { of_uint32 := fun n => (n : ℚ), half := 1 / 2, sub := fun a b => a - b,
    mul := fun a b => a * b, add := fun a b => a + b }

/-- The offset of column `x` and row `y` of the grid in a given arithmetic of `float`:
`((x - width * 0.5f) * spacing + center_offset.x, (y - height * 0.5f) * spacing +
center_offset.y)`. -/
def float_grid_offset {F : Type} (float : FloatArithmetic F) (width height : Nat) (spacing : F)
    (center_offset : FloatVec2 F) (x y : Nat) : FloatVec2 F :=
  { x := float.add
      (float.mul (float.sub (float.of_uint32 x) (float.mul (float.of_uint32 width) float.half))
        spacing)
      center_offset.x,
    y := float.add
      (float.mul (float.sub (float.of_uint32 y) (float.mul (float.of_uint32 height) float.half))
        spacing)
      center_offset.y }

/-! ## Writes of the registrant to a shared payload -/

/-- A call of `add_transform` by the registrant on the payload it has registered under
`group_name`. `register_instance_group` and `update_instance_group` store the
`std::shared_ptr` they are given, so the object that the `data` of the group points to is the
one the registrant still holds, and the group sees the matrix added. No member of the
controller runs: `buffer_id`, `needs_update` and the OpenGL context stay as they are. The step
is for a payload registered under one name; a pointer registered under several names would
show the write under each of them. -/
def registrant_add_transform (group_name : String) (transform : Mat4) (w : World) : World :=
  match w.instancing.m_instance_groups.lookup group_name with
  | some group =>
    match group.data with
    | some (InstancedData.transforms payload) =>
      let group :=
        { group with data := some (InstancedData.transforms (payload.add_transform transform)) }
      let groups := w.instancing.m_instance_groups.replace group_name group
      { w with instancing := { w.instancing with m_instance_groups := groups } }
    | _ => w
  | none => w

/-! ## Sample states -/

/-- A world with no light and no group, used to instantiate the theorems. -/
def sample_world : World :=
  World.initial
    { created := 0, textures := [], framebuffers := [], buffers := [], viewport := (0, 0, 800, 600),
      framebuffer_binding := 0, array_buffer_binding := 0, trace := [] }
    { framebuffer_complete := fun _ => true, shader := fun _ => ShaderLookup.null }

/-- A light whose depth cubemap 1 and framebuffer 2 have been created. -/
def sample_shadow : PointLightShadow :=
  { registered_entry {} with depth_cubemap := 1, framebuffer := 2 }

/-- A group of three identity matrices uploaded to buffer 3. -/
def sample_group : InstanceGroup :=
  { data := some (InstancedData.transforms { transforms := [1, 1, 1] }), buffer_id := 3,
    needs_update := false }

/-- A world with the light "L" of `sample_shadow` and the group "g" of `sample_group`. -/
def sample_lit_world : World :=
  { shadow := { m_point_lights := (∅ : UMap PointLightShadow).insert "L" sample_shadow },
    instancing := { m_instance_groups := (∅ : UMap InstanceGroup).insert "g" sample_group },
    gl := { created := 3, textures := [1], framebuffers := [2], buffers := [3],
            viewport := (0, 0, 800, 600), framebuffer_binding := 0, array_buffer_binding := 0,
            trace := [] },
    env := { framebuffer_complete := fun _ => true, shader := fun _ => ShaderLookup.null } }

/-- The parameters of the light of the scenario: position (0,0,5), far plane 25. -/
def sample_light_params : PointLightShadowParams := { position := ⟨0, 0, 5⟩, far_plane := 25 }

/-- The sample world after registering the light "L" with `sample_light_params`. -/
def sample_registered_world : World :=
  (ShadowController.register_point_light "L" sample_light_params sample_world).1

/-- A depth shader that has the eight uniforms a shadow render uploads. -/
def sample_depth_shader : Shader :=
  { id := 9,
    uniforms := ["shadowMatrices[0]", "shadowMatrices[1]", "shadowMatrices[2]",
      "shadowMatrices[3]", "shadowMatrices[4]", "shadowMatrices[5]", "far_plane", "lightPos"] }

/-- The world with the registered light "L" in which the depth shader can be obtained and
every framebuffer is complete. -/
def sample_render_world : World :=
  { sample_registered_world with
    env := { framebuffer_complete := fun _ => true,
             shader := fun _ => ShaderLookup.found sample_depth_shader } }

/-- A controller as constructed, with zero vectors for the members without initializer. -/
def sample_controller : MainController :=
  { m_skin_original_position := ⟨0, 0, 0⟩, m_skin_original_rotation := ⟨0, 0, 0⟩,
    m_skin_target_position := ⟨0, 0, 0⟩, m_skin_target_rotation := ⟨0, 0, 0⟩ }

/-- A math library whose sine is 0 and whose cosine and square root are 1 everywhere, used to
instantiate the theorems. -/
def sample_libm : Libm := { sin := fun _ => 0, cos := fun _ => 1, sqrt := fun _ => 1 }

/-- A generator that always yields the canonical value 1/2. -/
def sample_draws : Nat → UnitDraw := fun _ => ⟨1 / 2, by norm_num, by norm_num⟩

/-- Light parameters whose resolution, 2^31, is a `uint32_t` that no `GLsizei` holds. -/
def sample_wide_light_params : PointLightShadowParams :=
  { position := ⟨0, 0, 5⟩, far_plane := 25, resolution := 2147483648 }

/-- The sample world after registering the light "L" with `sample_wide_light_params`. -/
def sample_wide_world : World :=
  (ShadowController.register_point_light "L" sample_wide_light_params sample_world).1

/-! ## Facts about `UMap` -/

namespace UMap

theorem size_eq_keys_length {V : Type} (m : UMap V) : m.size = m.keys.length := by
  simp [size, AList.keys, List.keys]

theorem dlookup_kreplace_self {V : Type} (a : String) (b : V)
    (l : List (Sigma fun _ : String => V)) :
    List.dlookup a (List.kreplace a b l) = (List.dlookup a l).map (fun _ => b) := by
  induction l with
  | nil => rfl
  | cons hd tl ih =>
    obtain ⟨k, v⟩ := hd
    by_cases h : a = k
    · subst h
      simp [List.kreplace, List.lookmap_cons_some, List.dlookup_cons_eq]
    · have h2 : List.kreplace a b (⟨k, v⟩ :: tl) = ⟨k, v⟩ :: List.kreplace a b tl := by
        simp [List.kreplace, List.lookmap_cons_none, h]
      rw [h2, List.dlookup_cons_ne _ _ h, List.dlookup_cons_ne _ _ h, ih]

theorem dlookup_kreplace_ne {V : Type} {a c : String} (b : V) (hne : c ≠ a)
    (l : List (Sigma fun _ : String => V)) :
    List.dlookup c (List.kreplace a b l) = List.dlookup c l := by
  induction l with
  | nil => rfl
  | cons hd tl ih =>
    obtain ⟨k, v⟩ := hd
    by_cases h : a = k
    · subst h
      have h2 : List.kreplace a b (⟨a, v⟩ :: tl) = ⟨a, b⟩ :: tl := by
        simp [List.kreplace, List.lookmap_cons_some]
      rw [h2, List.dlookup_cons_ne _ _ hne, List.dlookup_cons_ne _ _ hne]
    · have h2 : List.kreplace a b (⟨k, v⟩ :: tl) = ⟨k, v⟩ :: List.kreplace a b tl := by
        simp [List.kreplace, List.lookmap_cons_none, h]
      rw [h2]
      by_cases hc : c = k
      · subst hc
        simp [List.dlookup_cons_eq]
      · rw [List.dlookup_cons_ne _ _ hc, List.dlookup_cons_ne _ _ hc, ih]

theorem kreplace_kreplace {V : Type} (a : String) (b c : V)
    (l : List (Sigma fun _ : String => V)) :
    List.kreplace a b (List.kreplace a c l) = List.kreplace a b l := by
  induction l with
  | nil => rfl
  | cons hd tl ih =>
    obtain ⟨k, v⟩ := hd
    by_cases h : a = k
    · subst h
      simp [List.kreplace, List.lookmap_cons_some]
    · have h2 : ∀ (x : V) (t : List (Sigma fun _ : String => V)),
          List.kreplace a x (⟨k, v⟩ :: t) = ⟨k, v⟩ :: List.kreplace a x t := by
        intro x t
        simp [List.kreplace, List.lookmap_cons_none, h]
      rw [h2, h2, h2, ih]

theorem lookup_replace_self {V : Type} (a : String) (b : V) (m : UMap V) :
    (m.replace a b).lookup a = (m.lookup a).map (fun _ => b) :=
  dlookup_kreplace_self a b m.entries

theorem lookup_replace_ne {V : Type} {a c : String} (b : V) (hne : c ≠ a) (m : UMap V) :
    (m.replace a b).lookup c = m.lookup c :=
  dlookup_kreplace_ne b hne m.entries

theorem replace_replace {V : Type} (a : String) (b c : V) (m : UMap V) :
    (m.replace a c).replace a b = m.replace a b :=
  AList.ext (kreplace_kreplace a b c m.entries)

theorem insert_replace {V : Type} (a : String) (b c : V) (m : UMap V) :
    (m.insert a c).replace a b = m.insert a b := by
  apply AList.ext
  simp [AList.replace, AList.insert, List.kinsert, List.kreplace, List.lookmap_cons_some]

theorem size_replace {V : Type} (a : String) (b : V) (m : UMap V) :
    size (m.replace a b) = m.size := by
  rw [size_eq_keys_length, size_eq_keys_length, AList.keys_replace]

theorem size_insert {V : Type} (a : String) (b : V) (m : UMap V) (h : m.lookup a = none) :
    size (m.insert a b) = m.size + 1 := by
  have hn : a ∉ m.keys := AList.lookup_eq_none.mp h
  rw [size_eq_keys_length, size_eq_keys_length, AList.keys_insert, List.erase_of_not_mem hn]
  rfl

theorem size_erase {V : Type} (a : String) (m : UMap V) (h : (m.lookup a).isSome) :
    size (m.erase a) + 1 = m.size := by
  have hm : a ∈ m.keys := AList.lookup_isSome.mp h
  rw [size_eq_keys_length, size_eq_keys_length, AList.keys_erase, List.length_erase_of_mem hm]
  have : 0 < m.keys.length := List.length_pos_of_mem hm
  omega

end UMap

/-! ## Facts about `ShadowController` -/

namespace ShadowController

theorem update_shadow_transforms_of_params (params : PointLightShadowParams) :
    update_shadow_transforms (PointLightShadow.of_params params) = registered_entry params :=
  rfl

theorem register_point_light_of_registered (light_name : String)
    (params : PointLightShadowParams) (w : World) (shadow : PointLightShadow)
    (h : w.shadow.m_point_lights.lookup light_name = some shadow) :
    register_point_light light_name params w =
      ({ w with
          shadow := { w.shadow with
            m_point_lights := w.shadow.m_point_lights.replace light_name (registered_entry params) },
          gl := (destroy_shadow_resources shadow w.gl).2 }, Outcome.ok ()) := by
  simp only [register_point_light, h, UMap.lookup_replace_self, Option.map_some',
    UMap.replace_replace, update_shadow_transforms_of_params]

theorem register_point_light_of_unregistered (light_name : String)
    (params : PointLightShadowParams) (w : World)
    (h : w.shadow.m_point_lights.lookup light_name = none) :
    register_point_light light_name params w =
      ({ w with
          shadow := { w.shadow with
            m_point_lights := w.shadow.m_point_lights.insert light_name (registered_entry params) } },
        Outcome.ok ()) := by
  have hn : light_name ∉ w.shadow.m_point_lights := AList.lookup_eq_none.mp h
  simp only [register_point_light, h, UMap.subscript_assign, hn, if_false, AList.lookup_insert,
    UMap.insert_replace, update_shadow_transforms_of_params]

end ShadowController

/-! ## Facts about the OpenGL context -/

namespace GLState

@[simp] theorem objects_emit (e : Event) (gl : GLState) : (gl.emit e).objects = gl.objects := rfl

@[simp] theorem objects_glViewport (x y width height : Int) (gl : GLState) :
    (gl.glViewport x y width height).objects = gl.objects := rfl

@[simp] theorem objects_glBindFramebuffer (name : Nat) (gl : GLState) :
    (gl.glBindFramebuffer name).objects = gl.objects := rfl

@[simp] theorem objects_glBindBuffer (name : Nat) (gl : GLState) :
    (gl.glBindBuffer name).objects = gl.objects := rfl

@[simp] theorem objects_glBufferData (size : Nat) (gl : GLState) :
    (gl.glBufferData size).objects = gl.objects := rfl

@[simp] theorem objects_emits (es : List Event) (gl : GLState) :
    (gl.emits es).objects = gl.objects := rfl

end GLState

@[simp] theorem objects_invoke (render_geometry : RenderGeometry) (gl : GLState) :
    (invoke render_geometry gl).1.objects = gl.objects := rfl

theorem objects_set (shader : Shader) (name : String) (e : Event) (gl : GLState) :
    (shader.set name e gl).1.objects = gl.objects := by
  unfold Shader.set
  split <;> rfl

theorem objects_and_then {α : Type} (first : GLState → GLState × Outcome Unit)
    (next : GLState → GLState × Outcome α)
    (h1 : ∀ gl, (first gl).1.objects = gl.objects) (h2 : ∀ gl, (next gl).1.objects = gl.objects)
    (gl : GLState) : (and_then first next gl).1.objects = gl.objects := by
  unfold and_then
  have := h1 gl
  split
  · next s1 _ heq => rw [heq] at this; rw [h2 s1, ← this]
  · next s1 _ heq => rw [heq] at this; exact this
  · next s1 _ heq => rw [heq] at this; exact this

namespace ShadowController

theorem objects_upload_shadow_matrices (shader : Shader) (shadow : PointLightShadow)
    (indices : List (Fin 6)) (gl : GLState) :
    (upload_shadow_matrices shader shadow indices gl).1.objects = gl.objects := by
  induction indices generalizing gl with
  | nil => rfl
  | cons i rest ih =>
    unfold upload_shadow_matrices
    exact objects_and_then _ _ (fun gl => objects_set _ _ _ gl) ih gl

theorem create_shadow_resources_shadow (env : Env) (shadow : PointLightShadow) (gl : GLState) :
    (create_shadow_resources env shadow gl).1 =
      { shadow with depth_cubemap := gl.created + 1, framebuffer := gl.created + 2 } := by
  unfold create_shadow_resources
  simp only [GLState.glGenTextures, GLState.glGenFramebuffers]
  split <;> simp [GLState.emit, GLState.emits, GLState.glBindFramebuffer]

theorem create_shadow_resources_objects (env : Env) (shadow : PointLightShadow) (gl : GLState) :
    (create_shadow_resources env shadow gl).2.1.objects =
      (gl.created + 2, (gl.created + 1) :: gl.textures, (gl.created + 2) :: gl.framebuffers,
        gl.buffers) := by
  unfold create_shadow_resources
  simp only [GLState.glGenTextures, GLState.glGenFramebuffers]
  split <;> simp [GLState.emit, GLState.emits, GLState.glBindFramebuffer, GLState.objects]

theorem ensure_depth_shader_fields (w : World) (res : World × Outcome Unit)
    (hres : ensure_depth_shader w = res) :
    res.1.shadow.m_point_lights = w.shadow.m_point_lights ∧ res.1.gl = w.gl := by
  subst hres
  unfold ensure_depth_shader
  split
  · exact ⟨rfl, rfl⟩
  · split <;> exact ⟨rfl, rfl⟩

theorem objects_uploads (shader : Shader) (shadow : PointLightShadow) (gl : GLState)
    (res : GLState × Outcome Unit)
    (hres : and_then (upload_shadow_matrices shader shadow (List.finRange 6))
      (and_then (shader.set_float "far_plane" shadow.params.far_plane)
        (shader.set_vec3 "lightPos" shadow.params.position)) gl = res) :
    res.1.objects = gl.objects := by
  subst hres
  exact objects_and_then _ _ (objects_upload_shadow_matrices _ _ _)
    (objects_and_then _ _ (fun gl => objects_set _ _ _ gl) (fun gl => objects_set _ _ _ gl)) gl

theorem render_shadows_for_light_effect (light_name : String) (render_geometry : RenderGeometry)
    (w : World) (shadow : PointLightShadow)
    (h : w.shadow.m_point_lights.lookup light_name = some shadow) :
    (render_shadows_for_light light_name render_geometry w).1.shadow.m_point_lights =
        w.shadow.m_point_lights.replace light_name
          (if shadow.framebuffer = 0 then
            (create_shadow_resources w.env shadow w.gl).1 else shadow) ∧
    (render_shadows_for_light light_name render_geometry w).1.gl.objects =
        (if shadow.framebuffer = 0 then
          (create_shadow_resources w.env shadow w.gl).2.1.objects else w.gl.objects) := by
  unfold render_shadows_for_light
  simp only [h]
  generalize hcr : (if shadow.framebuffer = 0 then create_shadow_resources w.env shadow w.gl
      else (shadow, w.gl, Outcome.ok ())) = res
  have h1 : (if shadow.framebuffer = 0 then (create_shadow_resources w.env shadow w.gl).1
      else shadow) = res.1 := by
    subst hcr; split <;> rfl
  have h2 : (if shadow.framebuffer = 0 then (create_shadow_resources w.env shadow w.gl).2.1.objects
      else w.gl.objects) = res.2.1.objects := by
    subst hcr; split <;> rfl
  rw [h1, h2]
  obtain ⟨sh, gl, out⟩ := res
  cases out with
  | fatal m => exact ⟨rfl, rfl⟩
  | threw m => exact ⟨rfl, rfl⟩
  | ok u =>
    simp only []
    generalize hres : ensure_depth_shader _ = res
    obtain ⟨hf1, hf2⟩ := ensure_depth_shader_fields _ _ hres
    obtain ⟨w1, out1⟩ := res
    simp only [] at hf1 hf2
    cases out1 with
    | fatal m => simp only [hf1, hf2, GLState.objects_emit, GLState.objects_glBindFramebuffer,
        GLState.objects_glViewport, and_self]
    | threw m => simp only [hf1, hf2, GLState.objects_emit, GLState.objects_glBindFramebuffer,
        GLState.objects_glViewport, and_self]
    | ok u =>
      simp only []
      split
      · simp only [hf1, hf2, GLState.objects_emit, GLState.objects_glBindFramebuffer,
          GLState.objects_glViewport, and_self]
      · next depth_shader _ =>
        generalize hup : and_then _ _ _ = up
        have hu := objects_uploads _ _ _ _ hup
        obtain ⟨gl2, out2⟩ := up
        simp only [] at hu
        cases out2 with
        | fatal m =>
          simp only [hf1, hf2, hu, GLState.objects_emit, GLState.objects_glBindFramebuffer,
            GLState.objects_glViewport, and_self]
        | threw m =>
          simp only [hf1, hf2, hu, GLState.objects_emit, GLState.objects_glBindFramebuffer,
            GLState.objects_glViewport, and_self]
        | ok u =>
          simp only []
          have ho := objects_invoke render_geometry gl2
          generalize invoke render_geometry gl2 = inv at ho
          obtain ⟨gl3, out3⟩ := inv
          simp only [] at ho
          cases out3 <;>
            simp only [hf1, hf2, hu, ho, GLState.objects_emit,
              GLState.objects_glBindFramebuffer, GLState.objects_glViewport, and_self]

end ShadowController

namespace UMap

theorem lookup_replace_cases {V : Type} {a c : String} {b v : V} {m : UMap V}
    (h : (m.replace a b).lookup c = some v) :
    (c = a ∧ v = b) ∨ m.lookup c = some v := by
  by_cases hca : c = a
  · subst hca
    rw [lookup_replace_self] at h
    cases hl : m.lookup c with
    | none => rw [hl] at h; cases h
    | some x =>
      rw [hl] at h
      simp only [Option.map_some', Option.some.injEq] at h
      exact Or.inl ⟨rfl, h.symm⟩
  · rw [lookup_replace_ne b hca] at h
    exact Or.inr h

theorem lookup_insert_cases {V : Type} {a c : String} {b v : V} {m : UMap V}
    (h : (m.insert a b).lookup c = some v) :
    (c = a ∧ v = b) ∨ m.lookup c = some v := by
  by_cases hca : c = a
  · subst hca
    rw [AList.lookup_insert] at h
    simp only [Option.some.injEq] at h
    exact Or.inl ⟨rfl, h.symm⟩
  · rw [AList.lookup_insert_ne hca] at h
    exact Or.inr h

theorem lookup_erase_cases {V : Type} {a c : String} {v : V} {m : UMap V}
    (h : (m.erase a).lookup c = some v) : c ≠ a ∧ m.lookup c = some v := by
  by_cases hca : c = a
  · subst hca
    rw [AList.lookup_erase] at h
    cases h
  · rw [AList.lookup_erase_ne hca] at h
    exact ⟨hca, h⟩

end UMap

namespace ShadowController

theorem ofFn_getD {α : Type} (l : List α) (d : α) (n : Nat) (h : l.length = n) :
    List.ofFn (fun i : Fin n => l.getD i.val d) = l := by
  subst h
  apply List.ext_getElem (by simp)
  intro i h1 h2
  simp [List.getD_eq_getElem?_getD, h2]

theorem create_shadow_transforms_length (light_pos : Vec3) (near_plane far_plane : ℚ) :
    (create_shadow_transforms light_pos near_plane far_plane).length = 6 := rfl

theorem ofFn_update_shadow_transforms (shadow : PointLightShadow) :
    List.ofFn (update_shadow_transforms shadow).shadow_transforms =
      create_shadow_transforms shadow.params.position shadow.params.near_plane
        shadow.params.far_plane :=
  ofFn_getD _ 0 6 (create_shadow_transforms_length _ _ _)

theorem ofFn_registered_entry (params : PointLightShadowParams) :
    List.ofFn (registered_entry params).shadow_transforms =
      create_shadow_transforms params.position params.near_plane params.far_plane :=
  ofFn_update_shadow_transforms (PointLightShadow.of_params params)

theorem render_shadows_for_light_unregistered (light_name : String)
    (render_geometry : RenderGeometry) (w : World)
    (h : w.shadow.m_point_lights.lookup light_name = none) :
    render_shadows_for_light light_name render_geometry w =
      (w, Outcome.fatal ("Light '" ++ light_name ++ "' is not registered for shadow mapping")) := by
  unfold render_shadows_for_light
  simp only [h]

theorem transforms_current_register (light_name : String) (params : PointLightShadowParams)
    (w : World) (h : transforms_current w) :
    transforms_current (register_point_light light_name params w).1 := by
  intro n s hs
  cases hl : w.shadow.m_point_lights.lookup light_name with
  | none =>
    rw [register_point_light_of_unregistered _ _ _ hl] at hs
    rcases UMap.lookup_insert_cases hs with ⟨-, rfl⟩ | hold
    · exact ofFn_registered_entry params
    · exact h n s hold
  | some shadow =>
    rw [register_point_light_of_registered _ _ _ _ hl] at hs
    rcases UMap.lookup_replace_cases hs with ⟨-, rfl⟩ | hold
    · exact ofFn_registered_entry params
    · exact h n s hold

theorem transforms_current_update_position (light_name : String) (position : Vec3)
    (w : World) (h : transforms_current w) :
    transforms_current (update_light_position light_name position w).1 := by
  intro n s hs
  unfold update_light_position at hs
  cases hl : w.shadow.m_point_lights.lookup light_name with
  | none => rw [hl] at hs; exact h n s hs
  | some shadow =>
    rw [hl] at hs
    rcases UMap.lookup_replace_cases hs with ⟨-, rfl⟩ | hold
    · exact ofFn_update_shadow_transforms _
    · exact h n s hold

theorem transforms_current_update_far_plane (light_name : String) (far_plane : ℚ)
    (w : World) (h : transforms_current w) :
    transforms_current (update_light_far_plane light_name far_plane w).1 := by
  intro n s hs
  unfold update_light_far_plane at hs
  cases hl : w.shadow.m_point_lights.lookup light_name with
  | none => rw [hl] at hs; exact h n s hs
  | some shadow =>
    rw [hl] at hs
    rcases UMap.lookup_replace_cases hs with ⟨-, rfl⟩ | hold
    · exact ofFn_update_shadow_transforms _
    · exact h n s hold

theorem transforms_current_unregister (light_name : String)
    (w : World) (h : transforms_current w) :
    transforms_current (unregister_point_light light_name w).1 := by
  intro n s hs
  unfold unregister_point_light at hs
  cases hl : w.shadow.m_point_lights.lookup light_name with
  | none => rw [hl] at hs; exact h n s hs
  | some shadow =>
    rw [hl] at hs
    exact h n s (UMap.lookup_erase_cases hs).2

theorem transforms_current_render (light_name : String) (render_geometry : RenderGeometry)
    (w : World) (h : transforms_current w) :
    transforms_current (render_shadows_for_light light_name render_geometry w).1 := by
  intro n s hs
  cases hl : w.shadow.m_point_lights.lookup light_name with
  | none =>
    rw [render_shadows_for_light_unregistered _ _ _ hl] at hs
    exact h n s hs
  | some shadow =>
    rw [(render_shadows_for_light_effect _ render_geometry _ _ hl).1] at hs
    rcases UMap.lookup_replace_cases hs with ⟨-, rfl⟩ | hold
    · have hsh := h light_name shadow hl
      split
      · rw [create_shadow_resources_shadow]
        exact hsh
      · exact hsh
    · exact h n s hold

theorem transforms_current_run (calls : List ShadowCall) (w : World)
    (h : transforms_current w) : transforms_current (run_shadow_calls calls w) := by
  induction calls generalizing w with
  | nil => exact h
  | cons call rest ih =>
    apply ih
    cases call with
    | register_point_light n p => exact transforms_current_register n p w h
    | update_light_position n p => exact transforms_current_update_position n p w h
    | update_light_far_plane n f => exact transforms_current_update_far_plane n f w h
    | unregister_point_light n => exact transforms_current_unregister n w h
    | render_shadows_for_light n cb => exact transforms_current_render n cb w h

end ShadowController

/-! ## The claims -/

/-- C1: in every state reached from freshly constructed controllers by any sequence of
`register_point_light`, `update_light_position`, `update_light_far_plane`,
`unregister_point_light` and `render_shadows_for_light` calls (with any arguments, whether the
calls return or fail), the six stored shadow transforms of every registered light are
`create_shadow_transforms` of that light's current position, near plane and far plane. -/
theorem shadow_transforms_never_stale (gl : GLState) (env : Env) (calls : List ShadowCall) :
    transforms_current (run_shadow_calls calls (World.initial gl env)) := by
  apply ShadowController.transforms_current_run
  intro n s hs
  cases hs

/-- C2: on a name that is not registered, `unregister_point_light`, `update_light_position`
and `update_light_far_plane` return false and leave the whole state (both maps, the OpenGL
objects, the trace of calls) as it was; so do `unregister_instance_group` and
`update_instance_group` on a name that is not a registered group. -/
theorem unknown_name_is_noop (w : World) (name : String) (position : Vec3) (far_plane : ℚ)
    (instance_data : Option InstancedData) :
    (ShadowController.is_light_registered name w = false →
      ShadowController.unregister_point_light name w = (w, Outcome.ok false) ∧
      ShadowController.update_light_position name position w = (w, Outcome.ok false) ∧
      ShadowController.update_light_far_plane name far_plane w = (w, Outcome.ok false)) ∧
    (InstancingController.is_group_registered name w = false →
      InstancingController.unregister_instance_group name w = (w, Outcome.ok false) ∧
      InstancingController.update_instance_group name instance_data w = (w, Outcome.ok false)) := by
  constructor
  · intro h
    have hl : w.shadow.m_point_lights.lookup name = none := by
      simpa [ShadowController.is_light_registered] using h
    simp only [ShadowController.unregister_point_light, ShadowController.update_light_position,
      ShadowController.update_light_far_plane, hl, and_self]
  · intro h
    have hl : w.instancing.m_instance_groups.lookup name = none := by
      simpa [InstancingController.is_group_registered] using h
    simp only [InstancingController.unregister_instance_group,
      InstancingController.update_instance_group, hl, and_self]

/-- Witness of C2: the name "L" in a world without lights and groups. -/
theorem unknown_name_is_noop_witness :
    (ShadowController.unregister_point_light "L" sample_world = (sample_world, Outcome.ok false) ∧
      ShadowController.update_light_position "L" ⟨1, 1, 1⟩ sample_world =
        (sample_world, Outcome.ok false) ∧
      ShadowController.update_light_far_plane "L" 30 sample_world =
        (sample_world, Outcome.ok false)) ∧
    (InstancingController.unregister_instance_group "L" sample_world =
        (sample_world, Outcome.ok false) ∧
      InstancingController.update_instance_group "L" none sample_world =
        (sample_world, Outcome.ok false)) :=
  ⟨(unknown_name_is_noop sample_world "L" ⟨1, 1, 1⟩ 30 none).1 rfl,
   (unknown_name_is_noop sample_world "L" ⟨1, 1, 1⟩ 30 none).2 rfl⟩

/-- C3: on a registered light, `unregister_point_light` returns true; afterwards the name is
not registered, the light count is one less, every other name has the entry it had (params,
transforms and handles), the OpenGL calls issued are exactly the deletion of the entry's depth
cubemap if it was created followed by the deletion of its framebuffer if it was created, these
two objects are no longer live, and every other texture and framebuffer is live exactly if it
was. -/
theorem unregister_registered_light (w : World) (light_name : String)
    (shadow : PointLightShadow)
    (h : w.shadow.m_point_lights.lookup light_name = some shadow) :
    (ShadowController.unregister_point_light light_name w).2 = Outcome.ok true ∧
    ShadowController.is_light_registered light_name
      (ShadowController.unregister_point_light light_name w).1 = false ∧
    ShadowController.get_light_count (ShadowController.unregister_point_light light_name w).1 + 1
      = ShadowController.get_light_count w ∧
    (∀ other : String, other ≠ light_name →
      (ShadowController.unregister_point_light light_name w).1.shadow.m_point_lights.lookup other
        = w.shadow.m_point_lights.lookup other) ∧
    (ShadowController.unregister_point_light light_name w).1.gl.trace =
      w.gl.trace ++
        (if shadow.depth_cubemap ≠ 0 then [Event.glDeleteTextures shadow.depth_cubemap] else []) ++
        (if shadow.framebuffer ≠ 0 then [Event.glDeleteFramebuffers shadow.framebuffer] else []) ∧
    (shadow.depth_cubemap ≠ 0 →
      shadow.depth_cubemap ∉ (ShadowController.unregister_point_light light_name w).1.gl.textures) ∧
    (shadow.framebuffer ≠ 0 →
      shadow.framebuffer ∉
        (ShadowController.unregister_point_light light_name w).1.gl.framebuffers) ∧
    (∀ t : Nat, t ≠ shadow.depth_cubemap →
      (t ∈ (ShadowController.unregister_point_light light_name w).1.gl.textures ↔
        t ∈ w.gl.textures)) ∧
    (∀ f : Nat, f ≠ shadow.framebuffer →
      (f ∈ (ShadowController.unregister_point_light light_name w).1.gl.framebuffers ↔
        f ∈ w.gl.framebuffers)) := by
  have hsome : (w.shadow.m_point_lights.lookup light_name).isSome := by rw [h]; rfl
  simp only [ShadowController.unregister_point_light, h, ShadowController.is_light_registered,
    ShadowController.get_light_count, AList.lookup_erase, Option.isSome_none,
    UMap.size_erase light_name _ hsome, true_and]
  refine ⟨fun other hne => AList.lookup_erase_ne hne, ?_, ?_, ?_, ?_, ?_⟩ <;>
    by_cases h1 : shadow.depth_cubemap = 0 <;> by_cases h2 : shadow.framebuffer = 0 <;>
    simp +contextual [ShadowController.destroy_shadow_resources, h1, h2,
      GLState.glDeleteTextures, GLState.glDeleteFramebuffers, List.mem_filter]

/-- Witness of C3: unregistering the light "L" of the sample world. -/
theorem unregister_registered_light_witness :
    sample_lit_world.shadow.m_point_lights.lookup "L" = some sample_shadow ∧
    (ShadowController.unregister_point_light "L" sample_lit_world).2 = Outcome.ok true ∧
    ShadowController.is_light_registered "L"
      (ShadowController.unregister_point_light "L" sample_lit_world).1 = false :=
  ⟨rfl, (unregister_registered_light sample_lit_world "L" sample_shadow rfl).1,
    (unregister_registered_light sample_lit_world "L" sample_shadow rfl).2.1⟩

/-- C4: on a registered group, `unregister_instance_group` returns true; afterwards the name
is not registered, the number of groups is one less, every other name has the entry it had
(data, buffer_id and needs_update), the only OpenGL call issued is the deletion of the entry's
buffer (none if the entry holds no buffer), that buffer is no longer live, and every other
buffer is live exactly if it was. -/
theorem unregister_registered_group (w : World) (group_name : String) (group : InstanceGroup)
    (h : w.instancing.m_instance_groups.lookup group_name = some group) :
    (InstancingController.unregister_instance_group group_name w).2 = Outcome.ok true ∧
    InstancingController.is_group_registered group_name
      (InstancingController.unregister_instance_group group_name w).1 = false ∧
    (InstancingController.unregister_instance_group group_name w).1.instancing.m_instance_groups.size
      + 1 = w.instancing.m_instance_groups.size ∧
    (∀ other : String, other ≠ group_name →
      (InstancingController.unregister_instance_group group_name
        w).1.instancing.m_instance_groups.lookup other
        = w.instancing.m_instance_groups.lookup other) ∧
    (InstancingController.unregister_instance_group group_name w).1.gl.trace =
      w.gl.trace ++ (if group.buffer_id ≠ 0 then [Event.glDeleteBuffers group.buffer_id] else []) ∧
    (group.buffer_id ≠ 0 →
      group.buffer_id ∉ (InstancingController.unregister_instance_group group_name w).1.gl.buffers) ∧
    (∀ b : Nat, b ≠ group.buffer_id →
      (b ∈ (InstancingController.unregister_instance_group group_name w).1.gl.buffers ↔
        b ∈ w.gl.buffers)) := by
  have hsome : (w.instancing.m_instance_groups.lookup group_name).isSome := by rw [h]; rfl
  simp only [InstancingController.unregister_instance_group, h,
    InstancingController.is_group_registered, AList.lookup_erase, Option.isSome_none,
    UMap.size_erase group_name _ hsome, true_and]
  refine ⟨fun other hne => AList.lookup_erase_ne hne, ?_, ?_, ?_⟩ <;>
    by_cases h1 : group.buffer_id = 0 <;>
    simp +contextual [InstancingController.destroy_instance_buffer, h1, GLState.glDeleteBuffers,
      List.mem_filter]

/-- Witness of C4: unregistering the group "g" of the sample world. -/
theorem unregister_registered_group_witness :
    sample_lit_world.instancing.m_instance_groups.lookup "g" = some sample_group ∧
    (InstancingController.unregister_instance_group "g" sample_lit_world).2 = Outcome.ok true ∧
    InstancingController.is_group_registered "g"
      (InstancingController.unregister_instance_group "g" sample_lit_world).1 = false :=
  ⟨rfl, (unregister_registered_group sample_lit_world "g" sample_group rfl).1,
    (unregister_registered_group sample_lit_world "g" sample_group rfl).2.1⟩

namespace ShadowController

theorem destroy_shadow_resources_registered_entry (params : PointLightShadowParams)
    (gl : GLState) : (destroy_shadow_resources (registered_entry params) gl).2 = gl := by
  simp [destroy_shadow_resources, registered_entry]

theorem register_point_light_lookup (light_name : String) (params : PointLightShadowParams)
    (w : World) :
    (register_point_light light_name params w).1.shadow.m_point_lights.lookup light_name =
      some (registered_entry params) := by
  cases hl : w.shadow.m_point_lights.lookup light_name with
  | none =>
    rw [register_point_light_of_unregistered _ _ _ hl]
    exact AList.lookup_insert _
  | some shadow =>
    rw [register_point_light_of_registered _ _ _ _ hl]
    simp only [UMap.lookup_replace_self, hl, Option.map_some']

theorem register_point_light_twice (light_name : String) (params : PointLightShadowParams)
    (w : World) :
    register_point_light light_name params (register_point_light light_name params w).1 =
      ((register_point_light light_name params w).1, Outcome.ok ()) := by
  rw [register_point_light_of_registered light_name params _ _
    (register_point_light_lookup light_name params w),
    destroy_shadow_resources_registered_entry]
  cases hl : w.shadow.m_point_lights.lookup light_name with
  | none =>
    rw [register_point_light_of_unregistered _ _ _ hl]
    simp only [UMap.insert_replace]
  | some shadow =>
    rw [register_point_light_of_registered _ _ _ _ hl]
    simp only [UMap.replace_replace]

end ShadowController

/-- C10: `register_point_light` always returns; afterwards the entry for the name is
`registered_entry params`, whatever the state was before: its params are `params`, both GPU
handles are zero and its six transforms are `create_shadow_transforms` of `params`;
`get_light_params` returns `params`; the light count is unchanged if the name was registered
and one more otherwise; and registering the same name and params a second time returns and
changes nothing at all. -/
theorem register_point_light_upsert (w : World) (light_name : String)
    (params : PointLightShadowParams) :
    (ShadowController.register_point_light light_name params w).2 = Outcome.ok () ∧
    (ShadowController.register_point_light light_name params w).1.shadow.m_point_lights.lookup
      light_name = some (registered_entry params) ∧
    (registered_entry params).params = params ∧
    (registered_entry params).depth_cubemap = 0 ∧
    (registered_entry params).framebuffer = 0 ∧
    List.ofFn (registered_entry params).shadow_transforms =
      create_shadow_transforms params.position params.near_plane params.far_plane ∧
    ShadowController.get_light_params light_name
      (ShadowController.register_point_light light_name params w).1 = some params ∧
    ShadowController.get_light_count (ShadowController.register_point_light light_name params w).1
      = (if ShadowController.is_light_registered light_name w then
          ShadowController.get_light_count w else ShadowController.get_light_count w + 1) ∧
    ShadowController.register_point_light light_name params
      (ShadowController.register_point_light light_name params w).1 =
      ((ShadowController.register_point_light light_name params w).1, Outcome.ok ()) := by
  refine ⟨?_, ShadowController.register_point_light_lookup _ _ _, rfl, rfl, rfl,
    ShadowController.ofFn_registered_entry params, ?_, ?_,
    ShadowController.register_point_light_twice _ _ _⟩
  · rfl
  · simp only [ShadowController.get_light_params,
      ShadowController.register_point_light_lookup]
    rfl
  · cases hl : w.shadow.m_point_lights.lookup light_name with
    | none =>
      rw [ShadowController.register_point_light_of_unregistered _ _ _ hl]
      simp only [ShadowController.get_light_count, ShadowController.is_light_registered, hl,
        Option.isSome_none, Bool.false_eq_true, if_false]
      exact UMap.size_insert _ _ _ hl
    | some shadow =>
      rw [ShadowController.register_point_light_of_registered _ _ _ _ hl]
      simp only [ShadowController.get_light_count, ShadowController.is_light_registered, hl,
        Option.isSome_some, if_true]
      exact UMap.size_replace _ _ _

namespace InstancingController

theorem destroy_instance_buffer_gl (group : InstanceGroup) (gl : GLState) :
    (destroy_instance_buffer group gl).2.created = gl.created ∧
    (destroy_instance_buffer group gl).2.buffers =
      (if group.buffer_id ≠ 0 then gl.buffers.filter (fun b => b != group.buffer_id)
        else gl.buffers) := by
  unfold destroy_instance_buffer
  split <;> exact ⟨rfl, rfl⟩

theorem register_instance_group_some (group_name : String) (data : InstancedData) (w : World) :
    (register_instance_group group_name (some data) w).2 = Outcome.ok () ∧
    (register_instance_group group_name (some data) w).1.instancing.m_instance_groups.lookup
      group_name =
      some { data := some data, buffer_id := w.gl.created + 1, needs_update := false } ∧
    (register_instance_group group_name (some data) w).1.gl.created = w.gl.created + 1 ∧
    (register_instance_group group_name (some data) w).1.gl.buffers =
      (w.gl.created + 1) ::
        (match w.instancing.m_instance_groups.lookup group_name with
          | some group =>
            if group.buffer_id ≠ 0 then w.gl.buffers.filter (fun b => b != group.buffer_id)
            else w.gl.buffers
          | none => w.gl.buffers) := by
  cases hl : w.instancing.m_instance_groups.lookup group_name with
  | none =>
    have hn : group_name ∉ w.instancing.m_instance_groups := AList.lookup_eq_none.mp hl
    simp only [register_instance_group, hl, UMap.subscript_assign, hn, if_false,
      AList.lookup_insert, create_instance_buffer, InstanceGroup.of_data, GLState.glGenBuffers,
      GLState.glBindBuffer, GLState.glBufferData, GLState.emit, UMap.insert_replace, true_and]
  | some group =>
    have hd := destroy_instance_buffer_gl group w.gl
    simp only [register_instance_group, hl, UMap.lookup_replace_self, Option.map_some',
      create_instance_buffer, InstanceGroup.of_data, GLState.glGenBuffers,
      GLState.glBindBuffer, GLState.glBufferData, GLState.emit, UMap.replace_replace, hd.1, hd.2,
      true_and]

end InstancingController

theorem created_since_filter (c : Nat) (q : Nat → Bool) (l : List Nat) :
    created_since c (l.filter q) = (created_since c l).filter q := by
  simp [created_since, List.filter_filter, Bool.and_comm]

theorem created_since_eq_nil (c : Nat) (l : List Nat) (h : ∀ b ∈ l, b ≤ c) :
    created_since c l = [] := by
  simp only [created_since, List.filter_eq_nil_iff, decide_eq_true_eq, not_lt]
  exact h

theorem created_since_cons_new (c n : Nat) (l : List Nat) (h : c < n) :
    created_since c (n :: l) = n :: created_since c l := by
  simp [created_since, List.filter_cons, h]

namespace InstancingController

/-- After at least one registration under `group_name` since the context had `c` objects: the
entry holds the newest object, and it is the only live buffer created since. -/
theorem register_again (group_name : String) (data : InstancedData) (c : Nat) (w : World)
    (h : ∃ group, w.instancing.m_instance_groups.lookup group_name = some group ∧
      group.buffer_id = w.gl.created ∧ c < w.gl.created ∧
      created_since c w.gl.buffers = [w.gl.created]) :
    ∃ group, (register_instance_group group_name (some data)
        w).1.instancing.m_instance_groups.lookup group_name = some group ∧
      group.data = some data ∧
      group.buffer_id = (register_instance_group group_name (some data) w).1.gl.created ∧
      c < (register_instance_group group_name (some data) w).1.gl.created ∧
      created_since c (register_instance_group group_name (some data) w).1.gl.buffers =
        [(register_instance_group group_name (some data) w).1.gl.created] := by
  obtain ⟨g, hl, hid, hc, hlive⟩ := h
  obtain ⟨-, h2, h3, h4⟩ := register_instance_group_some group_name data w
  refine ⟨_, h2, rfl, h3.symm, by omega, ?_⟩
  have hne : g.buffer_id ≠ 0 := by omega
  rw [h4, h3, hl]
  simp only [hne, ne_eq, not_false_eq_true, if_true]
  rw [created_since_cons_new _ _ _ (by omega), created_since_filter, hlive, hid]
  simp

theorem register_first (group_name : String) (data : InstancedData) (w : World)
    (hfresh : ∀ b ∈ w.gl.buffers, b ≤ w.gl.created) :
    ∃ group, (register_instance_group group_name (some data)
        w).1.instancing.m_instance_groups.lookup group_name = some group ∧
      group.data = some data ∧
      group.buffer_id = (register_instance_group group_name (some data) w).1.gl.created ∧
      w.gl.created < (register_instance_group group_name (some data) w).1.gl.created ∧
      created_since w.gl.created (register_instance_group group_name (some data) w).1.gl.buffers =
        [(register_instance_group group_name (some data) w).1.gl.created] := by
  obtain ⟨-, h2, h3, h4⟩ := register_instance_group_some group_name data w
  refine ⟨_, h2, rfl, h3.symm, by omega, ?_⟩
  rw [h4, h3, created_since_cons_new _ _ _ (by omega)]
  congr 1
  apply created_since_eq_nil
  intro b hb
  split at hb
  · split at hb
    · exact hfresh b (List.mem_filter.mp hb).1
    · exact hfresh b hb
  · exact hfresh b hb

theorem register_repeatedly_again (group_name : String) (c : Nat) (payloads : List InstancedData)
    (w : World) (last : InstancedData)
    (h : ∃ group, w.instancing.m_instance_groups.lookup group_name = some group ∧
      group.data = some last ∧
      group.buffer_id = w.gl.created ∧ c < w.gl.created ∧
      created_since c w.gl.buffers = [w.gl.created]) :
    ∃ group, (register_repeatedly group_name payloads w).instancing.m_instance_groups.lookup
        group_name = some group ∧
      group.data = some ((last :: payloads).getLast (List.cons_ne_nil _ _)) ∧
      group.buffer_id = (register_repeatedly group_name payloads w).gl.created ∧
      c < (register_repeatedly group_name payloads w).gl.created ∧
      created_since c (register_repeatedly group_name payloads w).gl.buffers =
        [(register_repeatedly group_name payloads w).gl.created] ∧
      (register_repeatedly group_name payloads w).gl.created = w.gl.created + payloads.length := by
  induction payloads generalizing w last with
  | nil =>
    obtain ⟨g, h1, h2, h3, h4, h5⟩ := h
    exact ⟨g, h1, h2, h3, h4, h5, rfl⟩
  | cons d rest ih =>
    obtain ⟨g, h1, h2, h3, h4, h5⟩ := h
    have hstep := register_again group_name d c w ⟨g, h1, h3, h4, h5⟩
    obtain ⟨g2, k1, k2, k3, k4, k5, k6⟩ := ih (register_instance_group group_name (some d) w).1 d hstep
    refine ⟨g2, k1, k2, k3, k4, k5, ?_⟩
    have hc := (register_instance_group_some group_name d w).2.2.1
    simp only [register_repeatedly, List.foldl_cons, List.length_cons] at k6 ⊢
    omega

end InstancingController

/-- C5: after `register_instance_group` has been called once for each payload of a non-empty
list, under one name, starting in any state whose live buffers were all created before: every
one of these calls returns, each creates one buffer object (so the objects created by the
calls are the `payloads.length` newest), the entry of the name holds the last payload and a
non-zero `buffer_id`, and among the buffers created by these calls exactly one is live, the
one whose name is stored in the entry; every buffer created by an earlier call of the sequence
has been deleted. -/
theorem reregistration_keeps_one_buffer (w : World) (group_name : String)
    (payloads : List InstancedData) (hne : payloads ≠ [])
    (hfresh : ∀ b ∈ w.gl.buffers, b ≤ w.gl.created) :
    (∀ (data : InstancedData) (w1 : World),
      (InstancingController.register_instance_group group_name (some data) w1).2 = Outcome.ok ()) ∧
    (register_repeatedly group_name payloads w).gl.created = w.gl.created + payloads.length ∧
    ∃ group : InstanceGroup,
      (register_repeatedly group_name payloads w).instancing.m_instance_groups.lookup group_name
        = some group ∧
      group.data = payloads.getLast? ∧
      group.buffer_id ≠ 0 ∧
      group.buffer_id = w.gl.created + payloads.length ∧
      created_since w.gl.created (register_repeatedly group_name payloads w).gl.buffers =
        [group.buffer_id] := by
  refine ⟨fun data w1 => (InstancingController.register_instance_group_some group_name data w1).1,
    ?_⟩
  cases payloads with
  | nil => exact absurd rfl hne
  | cons d rest =>
    have hfirst := InstancingController.register_first group_name d w hfresh
    obtain ⟨g, k1, k2, k3, k4, k5, k6⟩ :=
      InstancingController.register_repeatedly_again group_name w.gl.created rest
        (InstancingController.register_instance_group group_name (some d) w).1 d hfirst
    have hc := (InstancingController.register_instance_group_some group_name d w).2.2.1
    have hrun : register_repeatedly group_name (d :: rest) w =
        register_repeatedly group_name rest
          (InstancingController.register_instance_group group_name (some d) w).1 := rfl
    rw [hrun]
    have hcr : (register_repeatedly group_name rest
        (InstancingController.register_instance_group group_name (some d) w).1).gl.created =
        w.gl.created + (d :: rest).length := by
      simp only [List.length_cons]; omega
    refine ⟨hcr, g, k1, ?_, ?_, ?_, ?_⟩
    · rw [k2, List.getLast?_eq_getLast _ hne]
    · omega
    · omega
    · rw [k5, k3]

/-- Witness of C5: two registrations under "g" in a world without buffers. -/
theorem reregistration_keeps_one_buffer_witness :
    (∀ b ∈ sample_world.gl.buffers, b ≤ sample_world.gl.created) ∧
    (register_repeatedly "g"
      [InstancedData.offsets {}, InstancedData.transforms { transforms := [1] }]
      sample_world).gl.created = sample_world.gl.created + 2 :=
  ⟨by decide,
    (reregistration_keeps_one_buffer sample_world "g"
      [InstancedData.offsets {}, InstancedData.transforms { transforms := [1] }]
      (List.cons_ne_nil _ _) (by decide)).2.1⟩

namespace ShadowController

theorem destroy_shadow_resources_gl (shadow : PointLightShadow) (gl : GLState) :
    (destroy_shadow_resources shadow gl).2.created = gl.created ∧
    (destroy_shadow_resources shadow gl).2.textures =
      (if shadow.depth_cubemap ≠ 0 then gl.textures.filter (fun t => t != shadow.depth_cubemap)
        else gl.textures) ∧
    (destroy_shadow_resources shadow gl).2.framebuffers =
      (if shadow.framebuffer ≠ 0 then gl.framebuffers.filter (fun f => f != shadow.framebuffer)
        else gl.framebuffers) := by
  by_cases h1 : shadow.depth_cubemap = 0 <;> by_cases h2 : shadow.framebuffer = 0 <;>
    simp [destroy_shadow_resources, h1, h2, GLState.glDeleteTextures,
      GLState.glDeleteFramebuffers]

theorem one_resource_set_register (light_name : String) (params : PointLightShadowParams)
    (c : Nat) (rendered : Bool) (w : World) (h : one_resource_set light_name c rendered w) :
    one_resource_set light_name c false (register_point_light light_name params w).1 := by
  obtain ⟨sh, hl, hz, -, htex, hfb, hc, hbt, hbf⟩ := h
  obtain ⟨d1, d2, d3⟩ := destroy_shadow_resources_gl sh w.gl
  rw [one_resource_set, register_point_light_of_registered _ _ _ _ hl]
  refine ⟨registered_entry params, ?_, Iff.rfl, by simp [registered_entry], ?_, ?_, ?_, ?_, ?_⟩
  · simp only [UMap.lookup_replace_self, hl, Option.map_some']
  · simp only [d2, registered_entry, if_true]
    by_cases h1 : sh.depth_cubemap = 0
    · simpa [h1] using htex
    · simp [h1, created_since_filter, htex]
  · simp only [d3, registered_entry, if_true]
    by_cases h2 : sh.framebuffer = 0
    · simpa [h2] using hfb
    · simp [h2, created_since_filter, hfb]
  · simpa only [d1] using hc
  · intro t ht
    simp only [d1, d2] at ht ⊢
    split at ht
    · exact hbt t (List.mem_filter.mp ht).1
    · exact hbt t ht
  · intro f hf
    simp only [d1, d3] at hf ⊢
    split at hf
    · exact hbf f (List.mem_filter.mp hf).1
    · exact hbf f hf

theorem one_resource_set_register_first (light_name : String) (params : PointLightShadowParams)
    (w : World) (hbt : ∀ t ∈ w.gl.textures, t ≤ w.gl.created)
    (hbf : ∀ f ∈ w.gl.framebuffers, f ≤ w.gl.created) :
    one_resource_set light_name w.gl.created false
      (register_point_light light_name params w).1 := by
  cases hl : w.shadow.m_point_lights.lookup light_name with
  | none =>
    rw [one_resource_set, register_point_light_of_unregistered _ _ _ hl]
    refine ⟨registered_entry params, AList.lookup_insert _, Iff.rfl, by simp [registered_entry],
      ?_, ?_, le_refl _, hbt, hbf⟩
    · simpa [registered_entry] using created_since_eq_nil _ _ hbt
    · simpa [registered_entry] using created_since_eq_nil _ _ hbf
  | some sh =>
    obtain ⟨d1, d2, d3⟩ := destroy_shadow_resources_gl sh w.gl
    have hbt2 : ∀ t ∈ (destroy_shadow_resources sh w.gl).2.textures, t ≤ w.gl.created := by
      intro t ht
      rw [d2] at ht
      split at ht
      · exact hbt t (List.mem_filter.mp ht).1
      · exact hbt t ht
    have hbf2 : ∀ f ∈ (destroy_shadow_resources sh w.gl).2.framebuffers, f ≤ w.gl.created := by
      intro f hf
      rw [d3] at hf
      split at hf
      · exact hbf f (List.mem_filter.mp hf).1
      · exact hbf f hf
    rw [one_resource_set, register_point_light_of_registered _ _ _ _ hl]
    refine ⟨registered_entry params, ?_, Iff.rfl, by simp [registered_entry], ?_, ?_, ?_, ?_, ?_⟩
    · simp only [UMap.lookup_replace_self, hl, Option.map_some']
    · simpa [registered_entry] using created_since_eq_nil _ _ hbt2
    · simpa [registered_entry] using created_since_eq_nil _ _ hbf2
    · simp only [d1, le_refl]
    · simpa only [d1] using hbt2
    · simpa only [d1] using hbf2

theorem one_resource_set_render (light_name : String) (render_geometry : RenderGeometry)
    (c : Nat) (rendered : Bool) (w : World) (h : one_resource_set light_name c rendered w) :
    one_resource_set light_name c true
      (render_shadows_for_light light_name render_geometry w).1 := by
  obtain ⟨sh, hl, hz, hr, htex, hfb, hc, hbt, hbf⟩ := h
  obtain ⟨e1, e2⟩ := render_shadows_for_light_effect light_name render_geometry w sh hl
  by_cases h2 : sh.framebuffer = 0
  · have h1 : sh.depth_cubemap = 0 := hz.mpr h2
    rw [if_pos h2, create_shadow_resources_shadow] at e1
    rw [if_pos h2, create_shadow_resources_objects] at e2
    simp only [GLState.objects, Prod.mk.injEq] at e2
    obtain ⟨o1, o2, o3, -⟩ := e2
    refine ⟨{ sh with depth_cubemap := w.gl.created + 1, framebuffer := w.gl.created + 2 },
      by rw [e1, UMap.lookup_replace_self, hl]; rfl, by simp, by simp, ?_, ?_, ?_, ?_, ?_⟩
    · rw [o2, created_since_cons_new _ _ _ (by omega), htex]
      simp [h1]
    · rw [o3, created_since_cons_new _ _ _ (by omega), hfb]
      simp [h2]
    · omega
    · intro t ht
      rw [o2] at ht
      rw [o1]
      rcases List.mem_cons.mp ht with rfl | ht
      · omega
      · have := hbt t ht
        omega
    · intro f hf
      rw [o3] at hf
      rw [o1]
      rcases List.mem_cons.mp hf with rfl | hf
      · omega
      · have := hbf f hf
        omega
  · rw [if_neg h2] at e1 e2
    simp only [GLState.objects, Prod.mk.injEq] at e2
    obtain ⟨o1, o2, o3, -⟩ := e2
    refine ⟨sh, by rw [e1, UMap.lookup_replace_self, hl]; rfl, hz, by simp [h2], ?_, ?_, ?_, ?_, ?_⟩
    · rw [o2]; exact htex
    · rw [o3]; exact hfb
    · rw [o1]; exact hc
    · rw [o1, o2]; exact hbt
    · rw [o1, o3]; exact hbf

theorem one_resource_set_run (light_name : String) (c : Nat) (steps : List LightStep)
    (rendered : Bool) (w : World) (h : one_resource_set light_name c rendered w) :
    one_resource_set light_name c ((steps.map LightStep.is_render).getLastD rendered)
      (run_light_steps light_name steps w) := by
  induction steps generalizing w rendered with
  | nil => exact h
  | cons step rest ih =>
    have hstep : one_resource_set light_name c step.is_render (step.run light_name w) := by
      cases step with
      | register params => exact one_resource_set_register light_name params c rendered w h
      | render cb => exact one_resource_set_render light_name cb c rendered w h
    rw [List.map_cons, List.getLastD_cons]
    exact ih step.is_render (step.run light_name w) hstep

end ShadowController

theorem getLastD_map_is_render (first : LightStep) (steps : List LightStep) :
    (steps.map LightStep.is_render).getLastD first.is_render =
      ((first :: steps).getLast (List.cons_ne_nil _ _)).is_render := by
  induction steps generalizing first with
  | nil => rfl
  | cons step rest ih =>
    rw [List.map_cons, List.getLastD_cons, ih step]
    rfl

/-- C6, the claim as stated, fails: after registering the light "L", rendering its shadows and
registering it again, starting without any GL object, it is not the case that one depth cubemap
and one framebuffer are live: none is, and the entry's two handles are zero. The resource set
exists only once a render has followed the last registration. -/
theorem reregistration_leaves_no_resource_set :
    ¬ ((run_light_steps "L"
        [LightStep.register {}, LightStep.render (fun gl => ⟨[], gl.viewport, 0, 0, none⟩),
          LightStep.register {}] sample_world).gl.textures.length = 1 ∧
      (run_light_steps "L"
        [LightStep.register {}, LightStep.render (fun gl => ⟨[], gl.viewport, 0, 0, none⟩),
          LightStep.register {}] sample_world).gl.framebuffers.length = 1) ∧
    (run_light_steps "L"
      [LightStep.register {}, LightStep.render (fun gl => ⟨[], gl.viewport, 0, 0, none⟩),
        LightStep.register {}] sample_world).gl.textures = [] ∧
    (run_light_steps "L"
      [LightStep.register {}, LightStep.render (fun gl => ⟨[], gl.viewport, 0, 0, none⟩),
        LightStep.register {}] sample_world).gl.framebuffers = [] ∧
    ((run_light_steps "L"
      [LightStep.register {}, LightStep.render (fun gl => ⟨[], gl.viewport, 0, 0, none⟩),
        LightStep.register {}] sample_world).shadow.m_point_lights.lookup "L").map
      (fun shadow => (shadow.depth_cubemap, shadow.framebuffer)) = some (0, 0) := by
  refine ⟨?_, ?_, ?_, ?_⟩ <;> decide

/-- C6, amended: after a registration of a light followed by any sequence of re-registrations
and shadow renders of that light (whether they return or fail), starting in any state whose
live textures and framebuffers were all created before, the light is registered, its two
handles are zero together, and the live textures (framebuffers) created by these calls are
exactly the entry's depth cubemap (framebuffer) if it is non-zero and none otherwise: at most
one resource set is live and no handle created for an earlier registration remains live. The
set exists exactly if the last call is a render. -/
theorem reregistration_keeps_at_most_one_resource_set (w : World) (light_name : String)
    (params : PointLightShadowParams) (steps : List LightStep)
    (hbt : ∀ t ∈ w.gl.textures, t ≤ w.gl.created)
    (hbf : ∀ f ∈ w.gl.framebuffers, f ≤ w.gl.created) :
    ∃ shadow : PointLightShadow,
      (run_light_steps light_name (LightStep.register params :: steps)
        w).shadow.m_point_lights.lookup light_name = some shadow ∧
      (shadow.depth_cubemap = 0 ↔ shadow.framebuffer = 0) ∧
      (shadow.framebuffer ≠ 0 ↔
        ((LightStep.register params :: steps).getLast (List.cons_ne_nil _ _)).is_render = true) ∧
      created_since w.gl.created
          (run_light_steps light_name (LightStep.register params :: steps) w).gl.textures =
        (if shadow.depth_cubemap = 0 then [] else [shadow.depth_cubemap]) ∧
      created_since w.gl.created
          (run_light_steps light_name (LightStep.register params :: steps) w).gl.framebuffers =
        (if shadow.framebuffer = 0 then [] else [shadow.framebuffer]) := by
  have h := ShadowController.one_resource_set_run light_name w.gl.created steps false _
    (ShadowController.one_resource_set_register_first light_name params w hbt hbf)
  obtain ⟨sh, h1, h2, h3, h4, h5, -⟩ := h
  refine ⟨sh, h1, h2, ?_, h4, h5⟩
  rw [h3]
  exact Eq.to_iff (congrArg (fun b => b = true)
    (getLastD_map_is_render (LightStep.register params) steps))

/-- Witness of C6 as amended: a registration of "L" followed by one render. -/
theorem reregistration_keeps_at_most_one_resource_set_witness :
    (∀ t ∈ sample_world.gl.textures, t ≤ sample_world.gl.created) ∧
    (∀ f ∈ sample_world.gl.framebuffers, f ≤ sample_world.gl.created) ∧
    ∃ shadow : PointLightShadow,
      (run_light_steps "L"
        [LightStep.register {}, LightStep.render (fun gl => ⟨[], gl.viewport, 0, 0, none⟩)]
        sample_world).shadow.m_point_lights.lookup "L" = some shadow ∧
      (shadow.depth_cubemap = 0 ↔ shadow.framebuffer = 0) ∧
      (shadow.framebuffer ≠ 0 ↔ true = true) ∧
      created_since sample_world.gl.created
          (run_light_steps "L"
            [LightStep.register {}, LightStep.render (fun gl => ⟨[], gl.viewport, 0, 0, none⟩)]
            sample_world).gl.textures =
        (if shadow.depth_cubemap = 0 then [] else [shadow.depth_cubemap]) ∧
      created_since sample_world.gl.created
          (run_light_steps "L"
            [LightStep.register {}, LightStep.render (fun gl => ⟨[], gl.viewport, 0, 0, none⟩)]
            sample_world).gl.framebuffers =
        (if shadow.framebuffer = 0 then [] else [shadow.framebuffer]) :=
  ⟨by decide, by decide,
    reregistration_keeps_at_most_one_resource_set sample_world "L" {}
      [LightStep.render (fun gl => ⟨[], gl.viewport, 0, 0, none⟩)] (by decide) (by decide)⟩

namespace InstancingController

theorem get_instance_count_eq (group_name : String) (w : World) :
    get_instance_count group_name w =
      ((w.instancing.m_instance_groups.lookup group_name).map
        (fun group => element_count group.data)).getD 0 := by
  unfold get_instance_count
  cases w.instancing.m_instance_groups.lookup group_name with
  | none => rfl
  | some group =>
    simp only [Option.map_some', Option.getD_some]
    cases hd : group.data with
    | none => rfl
    | some data => cases data <;> rfl

theorem create_instance_buffer_data (group : InstanceGroup) (gl : GLState) :
    (create_instance_buffer group gl).1.data = group.data := by
  unfold create_instance_buffer
  cases hd : group.data with
  | none => simp only [hd]
  | some data => simp only []

theorem update_instance_buffer_data (group : InstanceGroup) (gl : GLState) :
    (update_instance_buffer group gl).1.data = group.data := by
  unfold update_instance_buffer
  split
  · rfl
  · cases hd : group.data with
    | none => simp only [hd]
    | some data => simp only []

theorem register_instance_group_groups (group_name : String) (data : Option InstancedData)
    (w : World) :
    ∃ group : InstanceGroup, group.data = data ∧
      (register_instance_group group_name data w).1.instancing.m_instance_groups =
        (if group_name ∈ w.instancing.m_instance_groups then
          w.instancing.m_instance_groups.replace group_name group
        else w.instancing.m_instance_groups.insert group_name group) := by
  cases hl : w.instancing.m_instance_groups.lookup group_name with
  | none =>
    have hn : group_name ∉ w.instancing.m_instance_groups := AList.lookup_eq_none.mp hl
    refine ⟨(create_instance_buffer (InstanceGroup.of_data data) w.gl).1,
      create_instance_buffer_data _ _, ?_⟩
    simp only [register_instance_group, hl, UMap.subscript_assign, hn, if_false,
      AList.lookup_insert, UMap.insert_replace]
  | some group =>
    have hn : group_name ∈ w.instancing.m_instance_groups :=
      AList.lookup_isSome.mp (by rw [hl]; rfl)
    refine ⟨(create_instance_buffer (InstanceGroup.of_data data)
      (destroy_instance_buffer group w.gl).2).1, create_instance_buffer_data _ _, ?_⟩
    simp only [register_instance_group, hl, UMap.lookup_replace_self, Option.map_some',
      UMap.replace_replace, hn, if_true]

theorem held_count_step (group_name : String) (call : InstancingCall) (w : World) :
    held_count group_name (call.run w) =
      expected_count_step group_name (held_count group_name w) call := by
  cases call with
  | register_instance_group name data =>
    obtain ⟨g, hg, hm⟩ := register_instance_group_groups name data w
    simp only [InstancingCall.run, held_count, expected_count_step, hm]
    by_cases hn : name = group_name
    · subst hn
      simp only [if_true]
      split
      · next hmem =>
        obtain ⟨old, hold⟩ := Option.isSome_iff_exists.mp (AList.lookup_isSome.mpr hmem)
        simp only [UMap.lookup_replace_self, hold, Option.map_some', hg]
      · simp only [AList.lookup_insert, Option.map_some', hg]
    · have hne : group_name ≠ name := fun h => hn h.symm
      simp only [hn, if_false]
      split
      · rw [UMap.lookup_replace_ne _ hne]
      · rw [AList.lookup_insert_ne hne]
  | update_instance_group name data =>
    simp only [InstancingCall.run, held_count, expected_count_step, update_instance_group]
    cases hl : w.instancing.m_instance_groups.lookup name with
    | none =>
      by_cases hn : name = group_name
      · subst hn
        simp only [hl, if_true, Option.map_none']
      · simp only [hn, if_false]
    | some group =>
      have hrun : ∀ (out : Outcome Unit) (w1 : World),
          (match out with
            | Outcome.ok _ => (w1, Outcome.ok true)
            | Outcome.fatal message => (w1, Outcome.fatal message)
            | Outcome.threw what => (w1, (Outcome.threw what : Outcome Bool))).1 = w1 := by
        intro out w1
        cases out <;> rfl
      simp only [hrun]
      by_cases hn : name = group_name
      · subst hn
        simp only [if_true, UMap.lookup_replace_self, hl, Option.map_some',
          update_instance_buffer_data]
      · have hne : group_name ≠ name := fun h => hn h.symm
        simp only [hn, if_false]
        rw [UMap.lookup_replace_ne _ hne]
  | unregister_instance_group name =>
    simp only [InstancingCall.run, held_count, expected_count_step, unregister_instance_group]
    cases hl : w.instancing.m_instance_groups.lookup name with
    | none =>
      by_cases hn : name = group_name
      · subst hn
        simp only [hl, if_true, Option.map_none']
      · simp only [hn, if_false]
    | some group =>
      by_cases hn : name = group_name
      · subst hn
        simp only [if_true, AList.lookup_erase, Option.map_none']
      · have hne : group_name ≠ name := fun h => hn h.symm
        simp only [hn, if_false]
        rw [AList.lookup_erase_ne hne]

theorem held_count_run (group_name : String) (calls : List InstancingCall) (w : World) :
    held_count group_name (run_instancing_calls calls w) =
      expected_count group_name calls (held_count group_name w) := by
  induction calls generalizing w with
  | nil => rfl
  | cons call rest ih =>
    simp only [run_instancing_calls, expected_count, List.foldl_cons] at ih ⊢
    rw [ih, held_count_step]

end InstancingController

/-- C7: in the state reached from any state by any sequence of `register_instance_group`,
`update_instance_group` and `unregister_instance_group` calls (on any names, with any payloads,
null included, whether the calls return or fail), `get_instance_count` of a name is the count
the specification expects: the number of matrices or 2D offsets of the payload last passed to
a registration, or to an update made while the name was registered, and 0 if the name is not
registered or that payload is null or of neither kind. In particular registering three
transforms gives 3 and then updating with five gives 5. -/
theorem get_instance_count_tracks_last_payload (w : World) (group_name : String)
    (calls : List InstancingCall) :
    InstancingController.get_instance_count group_name (run_instancing_calls calls w) =
      (expected_count group_name calls (held_count group_name w)).getD 0 ∧
    (InstancingController.is_group_registered group_name w = false →
      InstancingController.get_instance_count group_name w = 0) ∧
    (∀ (size stride : Nat),
      InstancingController.get_instance_count group_name
        (InstancingController.register_instance_group group_name
          (some (InstancedData.other size stride)) w).1 = 0) ∧
    InstancingController.get_instance_count "g"
      (run_instancing_calls
        [InstancingCall.register_instance_group "g"
          (some (InstancedData.transforms { transforms := [1, 1, 1] }))] w) = 3 ∧
    InstancingController.get_instance_count "g"
      (run_instancing_calls
        [InstancingCall.register_instance_group "g"
          (some (InstancedData.transforms { transforms := [1, 1, 1] })),
         InstancingCall.update_instance_group "g"
          (some (InstancedData.transforms { transforms := [1, 1, 1, 1, 1] }))] w) = 5 := by
  have key : ∀ (name : String) (cs : List InstancingCall),
      InstancingController.get_instance_count name (run_instancing_calls cs w) =
        (expected_count name cs (held_count name w)).getD 0 := by
    intro name cs
    rw [InstancingController.get_instance_count_eq, ← InstancingController.held_count_run]
    rfl
  refine ⟨key _ _, ?_, ?_, ?_, ?_⟩
  · intro h
    have hl : w.instancing.m_instance_groups.lookup group_name = none := by
      simpa [InstancingController.is_group_registered] using h
    simp only [InstancingController.get_instance_count, hl]
  · intro size stride
    have := key group_name [InstancingCall.register_instance_group group_name
      (some (InstancedData.other size stride))]
    simpa [run_instancing_calls, InstancingCall.run, expected_count, expected_count_step,
      element_count] using this
  · rw [key]
    simp [expected_count, expected_count_step, element_count]
  · rw [key]
    simp [expected_count, expected_count_step, element_count]

/-- Witness of C7: the group "g" is not registered in the sample world. -/
theorem get_instance_count_tracks_last_payload_witness :
    InstancingController.is_group_registered "g" sample_world = false ∧
    InstancingController.get_instance_count "g" sample_world = 0 :=
  ⟨rfl, (get_instance_count_tracks_last_payload sample_world "g" []).2.1 rfl⟩

namespace InstancingController

theorem foldl_add_offset {α : Type} (f : α → Vec2) (l : List α) (acc : InstancedOffsets) :
    l.foldl (fun offsets x => offsets.add_offset (f x)) acc =
      { offsets := acc.offsets ++ l.map f } := by
  induction l generalizing acc with
  | nil => simp
  | cons hd tl ih =>
    rw [List.foldl_cons, ih]
    simp only [InstancedOffsets.add_offset, List.map_cons, List.append_assoc,
      List.singleton_append]

theorem foldl_rows {α : Type} (row : α → List Vec2) (l : List α) (acc : InstancedOffsets) :
    l.foldl (fun offsets y => ({ offsets := offsets.offsets ++ row y } : InstancedOffsets)) acc =
      { offsets := acc.offsets ++ l.flatMap row } := by
  induction l generalizing acc with
  | nil => simp
  | cons hd tl ih => simp [ih]

theorem create_grid_offsets_eq (width height : Nat) (spacing : ℚ) (center_offset : Vec2) :
    create_grid_offsets width height spacing center_offset =
      { offsets := (List.range height).flatMap (fun y =>
          (List.range width).map (fun x => grid_offset width height spacing center_offset x y)) } := by
  unfold create_grid_offsets
  simp only [foldl_add_offset, foldl_rows, List.nil_append]
  congr 1
  simp only [grid_offset, mul_one_div]

theorem grid_length_and_index {α : Type} (g : Nat → Nat → α) (width height : Nat) :
    ((List.range height).flatMap (fun y => (List.range width).map (g y))).length = height * width ∧
    ∀ x y, x < width → y < height →
      ((List.range height).flatMap (fun y => (List.range width).map (g y)))[y * width + x]? =
        some (g y x) := by
  induction height with
  | zero => exact ⟨by simp, fun x y _ hy => absurd hy (Nat.not_lt_zero y)⟩
  | succ h ih =>
    obtain ⟨ihlen, ihidx⟩ := ih
    rw [List.range_succ, List.flatMap_append]
    simp only [List.flatMap_cons, List.flatMap_nil, List.append_nil]
    refine ⟨by simp [ihlen, Nat.succ_mul], ?_⟩
    intro x y hx hy
    rcases Nat.lt_succ_iff_lt_or_eq.mp hy with hlt | rfl
    · have hbound : y * width + x < h * width := by
        calc y * width + x < y * width + width := by omega
          _ = (y + 1) * width := by rw [Nat.succ_mul]
          _ ≤ h * width := Nat.mul_le_mul_right _ hlt
      rw [List.getElem?_append_left (by rw [ihlen]; exact hbound)]
      exact ihidx x y hx hlt
    · rw [List.getElem?_append_right (by rw [ihlen]; omega), ihlen]
      simp [hx]

end InstancingController

namespace InstancingController

theorem foldl_add_float_offset {F α : Type} (f : α → FloatVec2 F) (l : List α)
    (acc : FloatOffsets F) :
    l.foldl (fun offsets x => offsets.add_offset (f x)) acc =
      { offsets := acc.offsets ++ l.map f } := by
  induction l generalizing acc with
  | nil => simp
  | cons hd tl ih =>
    rw [List.foldl_cons, ih]
    simp only [FloatOffsets.add_offset, List.map_cons, List.append_assoc,
      List.singleton_append]

theorem foldl_float_rows {F α : Type} (row : α → List (FloatVec2 F)) (l : List α)
    (acc : FloatOffsets F) :
    l.foldl (fun offsets y => ({ offsets := offsets.offsets ++ row y } : FloatOffsets F)) acc =
      { offsets := acc.offsets ++ l.flatMap row } := by
  induction l generalizing acc with
  | nil => simp
  | cons hd tl ih => simp [ih]

theorem create_grid_offsets_float_eq {F : Type} (float : FloatArithmetic F)
    (width height : Nat) (spacing : F) (center_offset : FloatVec2 F) :
    create_grid_offsets_float float width height spacing center_offset =
      { offsets := (List.range height).flatMap (fun y =>
          (List.range width).map (fun x =>
            float_grid_offset float width height spacing center_offset x y)) } := by
  unfold create_grid_offsets_float
  simp only [foldl_add_float_offset, foldl_float_rows, List.nil_append]
  rfl

/-- In exact arithmetic `create_grid_offsets_float` is `create_grid_offsets`. -/
theorem create_grid_offsets_float_exact (width height : Nat) (spacing : ℚ)
    (center_offset : Vec2) :
    (create_grid_offsets_float exact_arithmetic width height spacing
        ⟨center_offset.x, center_offset.y⟩).offsets.map
      (fun offset => ({ x := offset.x, y := offset.y } : Vec2)) =
      (create_grid_offsets width height spacing center_offset).offsets := by
  rw [create_grid_offsets_float_eq, create_grid_offsets_eq]
  simp only [List.map_flatMap, List.map_map]
  congr 1
  funext y
  congr 1
  funext x
  simp only [Function.comp, float_grid_offset, exact_arithmetic, grid_offset, mul_one_div]

end InstancingController

/-- C8: in every arithmetic of `float`, that of the code with its rounding included,
`create_grid_offsets` returns exactly `width * height` offsets; the offset at index
`y * width + x` (row `y`, column `x`: the `y` loop is the outer one) is
`((x - width * 0.5f) * spacing + center_offset.x, (y - height * 0.5f) * spacing +
center_offset.y)` computed in that arithmetic, a function of the arguments and of `x` and `y`
only; the result is empty when `width` or `height` is 0; and `create_grid_offsets(3, 2, ...)`
has exactly 6 offsets, whatever the spacing and the centre. In exact arithmetic the offsets are
`((x - width/2) * spacing + center_offset.x, (y - height/2) * spacing + center_offset.y)`. -/
theorem create_grid_offsets_row_major {F : Type} (float : FloatArithmetic F)
    (width height : Nat) (spacing : F) (center_offset : FloatVec2 F) :
    (InstancingController.create_grid_offsets_float float width height spacing
      center_offset).count = width * height ∧
    (∀ x y : Nat, x < width → y < height →
      (InstancingController.create_grid_offsets_float float width height spacing
          center_offset).offsets[y * width + x]? =
        some { x := float.add
                 (float.mul
                   (float.sub (float.of_uint32 x) (float.mul (float.of_uint32 width) float.half))
                   spacing)
                 center_offset.x,
               y := float.add
                 (float.mul
                   (float.sub (float.of_uint32 y)
                     (float.mul (float.of_uint32 height) float.half))
                   spacing)
                 center_offset.y }) ∧
    (width = 0 ∨ height = 0 →
      (InstancingController.create_grid_offsets_float float width height spacing
        center_offset).offsets = []) ∧
    (InstancingController.create_grid_offsets_float float 3 2 spacing center_offset).count = 6 ∧
    (∀ (exact_spacing : ℚ) (exact_center : Vec2) (x y : Nat), x < width → y < height →
      ((InstancingController.create_grid_offsets_float exact_arithmetic width height
          exact_spacing ⟨exact_center.x, exact_center.y⟩).offsets[y * width + x]?).map
        (fun offset => (offset.x, offset.y)) =
        some (((x : ℚ) - (width : ℚ) / 2) * exact_spacing + exact_center.x,
          ((y : ℚ) - (height : ℚ) / 2) * exact_spacing + exact_center.y)) := by
  have hlen : ∀ (G : Type) (a : FloatArithmetic G) (w h : Nat) (s : G) (c : FloatVec2 G),
      (InstancingController.create_grid_offsets_float a w h s c).count = w * h := by
    intro G a w h s c
    rw [InstancingController.create_grid_offsets_float_eq, FloatOffsets.count,
      (InstancingController.grid_length_and_index _ w h).1, Nat.mul_comm]
  have hidx : ∀ (G : Type) (a : FloatArithmetic G) (s : G) (c : FloatVec2 G) (x y : Nat),
      x < width → y < height →
      (InstancingController.create_grid_offsets_float a width height s c).offsets[y * width + x]? =
        some (float_grid_offset a width height s c x y) := by
    intro G a s c x y hx hy
    rw [InstancingController.create_grid_offsets_float_eq]
    exact (InstancingController.grid_length_and_index
      (fun y x => float_grid_offset a width height s c x y) width height).2 x y hx hy
  refine ⟨hlen _ _ _ _ _ _, fun x y hx hy => hidx _ _ _ _ x y hx hy, ?_, hlen _ _ 3 2 _ _, ?_⟩
  · intro h0
    have hc := hlen F float width height spacing center_offset
    have hz : width * height = 0 := by
      rcases h0 with h | h <;> simp [h]
    rw [hz] at hc
    exact List.length_eq_zero.mp hc
  · intro s c x y hx hy
    rw [hidx _ _ _ _ x y hx hy]
    simp only [Option.map_some', float_grid_offset, exact_arithmetic, mul_one_div]

/-- Witness of C8: the offset in row 1 and column 1 of a 3 by 2 grid of spacing 1 around
(0, 0), in exact arithmetic. -/
theorem create_grid_offsets_row_major_witness :
    (1 < 3 ∧ 1 < 2) ∧
    ((InstancingController.create_grid_offsets_float exact_arithmetic 3 2 1
        ⟨0, 0⟩).offsets[1 * 3 + 1]?).map (fun offset => (offset.x, offset.y)) =
      some ((((1 : Nat) : ℚ) - ((3 : Nat) : ℚ) / 2) * 1 + 0,
        (((1 : Nat) : ℚ) - ((2 : Nat) : ℚ) / 2) * 1 + 0) :=
  ⟨⟨by decide, by decide⟩,
    (create_grid_offsets_row_major exact_arithmetic 3 2 1 ⟨0, 0⟩).2.2.2.2 1 ⟨0, 0⟩ 1 1
      (by decide) (by decide)⟩

theorem glm_sub_add (p d : Vec3) : glm.sub (glm.add p d) p = d := by
  cases p; cases d
  simp [glm.sub, glm.add]

theorem rat_sqrt_one : Rat.sqrt 1 = 1 := by decide

/-- The entries in rows 0, 1 and 3 of the last column of the six shadow transforms: they do not
depend on the planes, and each is a coordinate of the light position up to sign. -/
theorem shadow_transform_column (light_pos : Vec3) (near_plane far_plane : ℚ) (i : Fin 6) :
    (((create_shadow_transforms light_pos near_plane far_plane).getD i.val 0) 0 3,
     ((create_shadow_transforms light_pos near_plane far_plane).getD i.val 0) 1 3,
     ((create_shadow_transforms light_pos near_plane far_plane).getD i.val 0) 3 3) =
    [(light_pos.z, light_pos.y, -light_pos.x),
     (-light_pos.z, light_pos.y, light_pos.x),
     (-light_pos.x, -light_pos.z, -light_pos.y),
     (-light_pos.x, light_pos.z, light_pos.y),
     (-light_pos.x, light_pos.y, -light_pos.z),
     (light_pos.x, light_pos.y, light_pos.z)].getD i.val (0, 0, 0) := by
  fin_cases i <;>
    simp [create_shadow_transforms, glm.lookAt, glm_sub_add, glm.normalize, glm.dot, glm.cross,
      glm.perspective, rat_sqrt_one, Matrix.mul_apply, Fin.sum_univ_four]

theorem shadow_transform_injective (p q : Vec3) (near_plane far_plane : ℚ) (i : Fin 6)
    (h : (create_shadow_transforms p near_plane far_plane).getD i.val 0 =
      (create_shadow_transforms q near_plane far_plane).getD i.val 0) : p = q := by
  have hp := shadow_transform_column p near_plane far_plane i
  have hq := shadow_transform_column q near_plane far_plane i
  rw [h, hq] at hp
  cases p; cases q
  fin_cases i <;> simp_all

theorem ofFn_eq_getD {α : Type} {n : Nat} {f : Fin n → α} {l : List α} (h : List.ofFn f = l)
    (d : α) (i : Fin n) : f i = l.getD i.val d := by
  subst h
  simp [List.getD_eq_getElem?_getD]

namespace ShadowController

theorem transforms_current_api_call (call : ShadowApiCall) (w : World)
    (h : transforms_current w) : transforms_current (call.run w) := by
  cases call with
  | light call => exact transforms_current_run [call] w h
  | begin_shadow_pass => exact fun n s hs => h n s hs
  | end_shadow_pass => exact fun n s hs => h n s hs
  | bind_shadow_maps shader shadow_strength =>
    cases shader with
    | none => exact fun n s hs => h n s hs
    | some shader => exact fun n s hs => h n s hs
  | terminate =>
    intro n s hs
    cases hs

theorem transforms_current_api_run (calls : List ShadowApiCall) (w : World)
    (h : transforms_current w) : transforms_current (run_shadow_api_calls calls w) := by
  induction calls generalizing w with
  | nil => exact h
  | cons call rest ih => exact ih (call.run w) (transforms_current_api_call call w h)

end ShadowController

/-- C11: in every state reached from freshly constructed controllers by calls of the public
interface of `ShadowController`, for a registered light and any position `p` different from
the light's position, `update_light_position(name, p)` returns true, makes
`get_light_params(name)->position` equal to `p`, and every one of the six stored shadow
transforms differs from its prior value. The planes play no part, so the condition
0 < near_plane < far_plane is not needed: rows 0, 1 and 3 of the last column of each transform
are the coordinates of the position up to sign. Stated over exact arithmetic. -/
theorem update_light_position_changes_transforms (gl : GLState) (env : Env)
    (calls : List ShadowApiCall) (light_name : String) (shadow : PointLightShadow)
    (position : Vec3)
    (h : (run_shadow_api_calls calls (World.initial gl env)).shadow.m_point_lights.lookup
      light_name = some shadow)
    (hne : position ≠ shadow.params.position) :
    (ShadowController.update_light_position light_name position
      (run_shadow_api_calls calls (World.initial gl env))).2 = Outcome.ok true ∧
    (ShadowController.get_light_params light_name
      (ShadowController.update_light_position light_name position
        (run_shadow_api_calls calls (World.initial gl env))).1).map
        (fun params => params.position) = some position ∧
    ∃ updated : PointLightShadow,
      (ShadowController.update_light_position light_name position
        (run_shadow_api_calls calls (World.initial gl env))).1.shadow.m_point_lights.lookup
          light_name = some updated ∧
      ∀ i : Fin 6, updated.shadow_transforms i ≠ shadow.shadow_transforms i := by
  have hcur := ShadowController.transforms_current_api_run calls (World.initial gl env)
    (fun n s hs => by cases hs) light_name shadow h
  simp only [ShadowController.update_light_position, h, ShadowController.get_light_params,
    UMap.lookup_replace_self, Option.map_some', true_and]
  refine ⟨rfl, _, rfl, ?_⟩
  intro i heq
  rw [ofFn_eq_getD hcur 0 i] at heq
  exact hne (shadow_transform_injective _ _ _ _ i heq)

/-- Witness of C11: the light "L" registered at (0,0,5) with far plane 25 is moved to
(1,1,1). -/
theorem update_light_position_changes_transforms_witness :
    (run_shadow_api_calls
      [ShadowApiCall.light (ShadowCall.register_point_light "L" sample_light_params)]
      (World.initial sample_world.gl sample_world.env)).shadow.m_point_lights.lookup "L" =
      some (registered_entry sample_light_params) ∧
    (⟨1, 1, 1⟩ : Vec3) ≠ (registered_entry sample_light_params).params.position ∧
    (ShadowController.get_light_params "L"
      (ShadowController.update_light_position "L" ⟨1, 1, 1⟩
        (run_shadow_api_calls
          [ShadowApiCall.light (ShadowCall.register_point_light "L" sample_light_params)]
          (World.initial sample_world.gl sample_world.env))).1).map
        (fun params => params.position) = some ⟨1, 1, 1⟩ ∧
    ∃ updated : PointLightShadow,
      (ShadowController.update_light_position "L" ⟨1, 1, 1⟩
        (run_shadow_api_calls
          [ShadowApiCall.light (ShadowCall.register_point_light "L" sample_light_params)]
          (World.initial sample_world.gl sample_world.env))).1.shadow.m_point_lights.lookup "L" =
        some updated ∧
      ∀ i : Fin 6, updated.shadow_transforms i ≠
        (registered_entry sample_light_params).shadow_transforms i :=
  ⟨ShadowController.register_point_light_lookup "L" sample_light_params _,
    by simp [registered_entry, sample_light_params],
    (update_light_position_changes_transforms sample_world.gl sample_world.env
      [ShadowApiCall.light (ShadowCall.register_point_light "L" sample_light_params)] "L"
      (registered_entry sample_light_params) ⟨1, 1, 1⟩
      (ShadowController.register_point_light_lookup "L" sample_light_params _)
      (by simp [registered_entry, sample_light_params])).2⟩

/-- C12: on a registered name, `update_light_position` returns true and changes only that
light's position and shadow transforms, and `update_light_far_plane` returns true and changes
only its far plane and shadow transforms: the other parameters and both GPU handles of the
light, every other light, the light count, the other members of the controller, the other
controller and the whole OpenGL context (objects, bindings and the trace of calls, so no call
is issued and no resource is created or destroyed) are as before. -/
theorem light_updates_change_one_field (w : World) (light_name : String)
    (shadow : PointLightShadow) (position : Vec3) (far_plane : ℚ)
    (h : w.shadow.m_point_lights.lookup light_name = some shadow) :
    ((ShadowController.update_light_position light_name position w).2 = Outcome.ok true ∧
      (∃ updated : PointLightShadow,
        (ShadowController.update_light_position light_name position
          w).1.shadow.m_point_lights.lookup light_name = some updated ∧
        updated.params = { shadow.params with position := position } ∧
        updated.depth_cubemap = shadow.depth_cubemap ∧
        updated.framebuffer = shadow.framebuffer) ∧
      (∀ other : String, other ≠ light_name →
        (ShadowController.update_light_position light_name position
          w).1.shadow.m_point_lights.lookup other = w.shadow.m_point_lights.lookup other) ∧
      ShadowController.get_light_count
        (ShadowController.update_light_position light_name position w).1 =
        ShadowController.get_light_count w ∧
      (ShadowController.update_light_position light_name position w).1.gl = w.gl ∧
      (ShadowController.update_light_position light_name position w).1.instancing =
        w.instancing ∧
      (ShadowController.update_light_position light_name position w).1.shadow.m_depth_shader =
        w.shadow.m_depth_shader ∧
      (ShadowController.update_light_position light_name position w).1.shadow.m_state_backup =
        w.shadow.m_state_backup ∧
      (ShadowController.update_light_position light_name position
        w).1.shadow.m_current_rendering_light = w.shadow.m_current_rendering_light) ∧
    ((ShadowController.update_light_far_plane light_name far_plane w).2 = Outcome.ok true ∧
      (∃ updated : PointLightShadow,
        (ShadowController.update_light_far_plane light_name far_plane
          w).1.shadow.m_point_lights.lookup light_name = some updated ∧
        updated.params = { shadow.params with far_plane := far_plane } ∧
        updated.depth_cubemap = shadow.depth_cubemap ∧
        updated.framebuffer = shadow.framebuffer) ∧
      (∀ other : String, other ≠ light_name →
        (ShadowController.update_light_far_plane light_name far_plane
          w).1.shadow.m_point_lights.lookup other = w.shadow.m_point_lights.lookup other) ∧
      ShadowController.get_light_count
        (ShadowController.update_light_far_plane light_name far_plane w).1 =
        ShadowController.get_light_count w ∧
      (ShadowController.update_light_far_plane light_name far_plane w).1.gl = w.gl ∧
      (ShadowController.update_light_far_plane light_name far_plane w).1.instancing =
        w.instancing ∧
      (ShadowController.update_light_far_plane light_name far_plane w).1.shadow.m_depth_shader =
        w.shadow.m_depth_shader ∧
      (ShadowController.update_light_far_plane light_name far_plane w).1.shadow.m_state_backup =
        w.shadow.m_state_backup ∧
      (ShadowController.update_light_far_plane light_name far_plane
        w).1.shadow.m_current_rendering_light = w.shadow.m_current_rendering_light) := by
  constructor
  · simp only [ShadowController.update_light_position, h, ShadowController.get_light_count,
      UMap.lookup_replace_self, Option.map_some', UMap.size_replace, true_and, and_true]
    exact ⟨⟨_, rfl, rfl, rfl, rfl⟩, fun other hne => UMap.lookup_replace_ne _ hne _⟩
  · simp only [ShadowController.update_light_far_plane, h, ShadowController.get_light_count,
      UMap.lookup_replace_self, Option.map_some', UMap.size_replace, true_and, and_true]
    exact ⟨⟨_, rfl, rfl, rfl, rfl⟩, fun other hne => UMap.lookup_replace_ne _ hne _⟩

/-- Witness of C12: updating the light "L" of the sample world. -/
theorem light_updates_change_one_field_witness :
    sample_lit_world.shadow.m_point_lights.lookup "L" = some sample_shadow ∧
    (ShadowController.update_light_position "L" ⟨1, 1, 1⟩ sample_lit_world).1.gl =
      sample_lit_world.gl ∧
    (ShadowController.update_light_far_plane "L" 30 sample_lit_world).1.gl =
      sample_lit_world.gl :=
  ⟨rfl,
    (light_updates_change_one_field sample_lit_world "L" sample_shadow ⟨1, 1, 1⟩ 30
      rfl).1.2.2.2.2.1,
    (light_updates_change_one_field sample_lit_world "L" sample_shadow ⟨1, 1, 1⟩ 30
      rfl).2.2.2.2.2.1⟩

/-- C13: on a name that is not a registered light, `render_shadows_for_light` fails with the
fatal guarantee and leaves the whole state exactly as it was: the trace of calls is unchanged
(the callback is not invoked, no OpenGL call is issued), no object is created, the viewport and
the framebuffer binding are unchanged, and the current-rendering marker is not set. -/
theorem render_unregistered_light_is_fatal (w : World) (light_name : String)
    (render_geometry : RenderGeometry)
    (h : ShadowController.is_light_registered light_name w = false) :
    ShadowController.render_shadows_for_light light_name render_geometry w =
      (w, Outcome.fatal ("Light '" ++ light_name ++ "' is not registered for shadow mapping")) ∧
    (ShadowController.render_shadows_for_light light_name render_geometry w).1.gl.trace =
      w.gl.trace ∧
    (ShadowController.render_shadows_for_light light_name render_geometry w).1.gl.objects =
      w.gl.objects ∧
    (ShadowController.render_shadows_for_light light_name render_geometry w).1.gl.viewport =
      w.gl.viewport ∧
    (ShadowController.render_shadows_for_light light_name render_geometry
      w).1.gl.framebuffer_binding = w.gl.framebuffer_binding ∧
    (ShadowController.render_shadows_for_light light_name render_geometry
      w).1.shadow.m_current_rendering_light = w.shadow.m_current_rendering_light := by
  have hl : w.shadow.m_point_lights.lookup light_name = none := by
    simpa [ShadowController.is_light_registered] using h
  rw [ShadowController.render_shadows_for_light_unregistered _ _ _ hl]
  exact ⟨rfl, rfl, rfl, rfl, rfl, rfl⟩

/-- Witness of C13: rendering the shadows of "L" in a world without lights. -/
theorem render_unregistered_light_is_fatal_witness :
    ShadowController.is_light_registered "L" sample_world = false ∧
    ShadowController.render_shadows_for_light "L" (fun gl => ⟨[], gl.viewport, 0, 0, none⟩)
      sample_world =
      (sample_world, Outcome.fatal ("Light '" ++ "L" ++ "' is not registered for shadow mapping")) :=
  ⟨rfl, (render_unregistered_light_is_fatal sample_world "L"
    (fun gl => ⟨[], gl.viewport, 0, 0, none⟩) rfl).1⟩

namespace ShadowController

theorem ensure_depth_shader_backup (w : World) (res : World × Outcome Unit)
    (hres : ensure_depth_shader w = res) :
    res.1.shadow.m_state_backup = w.shadow.m_state_backup := by
  subst hres
  unfold ensure_depth_shader
  split
  · rfl
  · split <;> rfl

theorem render_shadows_for_light_backup (light_name : String) (render_geometry : RenderGeometry)
    (w : World) :
    (render_shadows_for_light light_name render_geometry w).1.shadow.m_state_backup =
      w.shadow.m_state_backup := by
  unfold render_shadows_for_light
  cases hl : w.shadow.m_point_lights.lookup light_name with
  | none => rfl
  | some shadow =>
    simp only []
    generalize (if shadow.framebuffer = 0 then create_shadow_resources w.env shadow w.gl
      else (shadow, w.gl, Outcome.ok ())) = res
    obtain ⟨sh, gl, out⟩ := res
    cases out with
    | fatal m => rfl
    | threw m => rfl
    | ok u =>
      simp only []
      generalize hres : ensure_depth_shader _ = res
      have hb := ensure_depth_shader_backup _ _ hres
      obtain ⟨w1, out1⟩ := res
      simp only [] at hb
      cases out1 with
      | fatal m => exact hb
      | threw m => exact hb
      | ok u =>
        simp only []
        split
        · exact hb
        · generalize and_then _ _ _ = up
          obtain ⟨gl2, out2⟩ := up
          cases out2 with
          | fatal m => exact hb
          | threw m => exact hb
          | ok u =>
            simp only []
            generalize invoke render_geometry gl2 = inv
            obtain ⟨gl3, out3⟩ := inv
            cases out3 <;> exact hb

theorem shadow_call_backup (call : ShadowCall) (w : World) :
    (call.run w).shadow.m_state_backup = w.shadow.m_state_backup := by
  cases call with
  | register_point_light n p =>
    cases hl : w.shadow.m_point_lights.lookup n with
    | none => simp only [ShadowCall.run, register_point_light_of_unregistered _ _ _ hl]
    | some shadow => simp only [ShadowCall.run, register_point_light_of_registered _ _ _ _ hl]
  | update_light_position n p =>
    simp only [ShadowCall.run, update_light_position]
    split <;> rfl
  | update_light_far_plane n f =>
    simp only [ShadowCall.run, update_light_far_plane]
    split <;> rfl
  | unregister_point_light n =>
    simp only [ShadowCall.run, unregister_point_light]
    split <;> rfl
  | render_shadows_for_light n cb => exact render_shadows_for_light_backup n cb w

theorem run_shadow_calls_backup (calls : List ShadowCall) (w : World) :
    (run_shadow_calls calls w).shadow.m_state_backup = w.shadow.m_state_backup := by
  induction calls generalizing w with
  | nil => rfl
  | cons call rest ih =>
    simp only [run_shadow_calls, List.foldl_cons] at ih ⊢
    rw [ih, shadow_call_backup]

end ShadowController

/-- C14: whatever viewport and framebuffer binding are in effect when `begin_shadow_pass` is
called, and whatever sequence of `render_shadows_for_light` calls (with any callbacks, on any
names, whether they return or fail) and of light registrations, updates and unregistrations is
made afterwards, `end_shadow_pass` leaves the viewport and the framebuffer binding equal to the
values in effect at `begin_shadow_pass` and clears the current-rendering marker. A callback
cannot reach the controller in this embedding, so none calls `begin_shadow_pass`. -/
theorem shadow_pass_restores_render_state (w : World) (calls : List ShadowCall) :
    (ShadowController.end_shadow_pass
      (run_shadow_calls calls (ShadowController.begin_shadow_pass w))).gl.viewport =
      w.gl.viewport ∧
    (ShadowController.end_shadow_pass
      (run_shadow_calls calls (ShadowController.begin_shadow_pass w))).gl.framebuffer_binding =
      w.gl.framebuffer_binding ∧
    (ShadowController.end_shadow_pass
      (run_shadow_calls calls
        (ShadowController.begin_shadow_pass w))).shadow.m_current_rendering_light = "" := by
  have hb := ShadowController.run_shadow_calls_backup calls (ShadowController.begin_shadow_pass w)
  refine ⟨?_, ?_, rfl⟩
  · simp only [ShadowController.end_shadow_pass, GLState.glViewport,
      GLState.glBindFramebuffer, hb]
    rfl
  · simp only [ShadowController.end_shadow_pass, GLState.glViewport,
      GLState.glBindFramebuffer, hb]
    rfl

/-- C15: `setup_instanced_mesh`, `draw_instanced` and `draw_instanced_with_textures` fail with
the fatal guarantee when the mesh is null, whatever the other arguments are;
`draw_instanced_with_textures` also when the shader is null; and all three when the name is not
a registered group, whatever the mesh and the shader are. In each of these cases the state
returned is the state the call started in: no OpenGL call is issued and neither controller is
changed. -/
theorem instanced_calls_reject_bad_arguments (w : World) (group_name : String)
    (mesh : Option Mesh) (shader : Option Shader) (attribute_start : Nat) :
    (∃ message, InstancingController.setup_instanced_mesh group_name none attribute_start w =
      (w, Outcome.fatal message)) ∧
    (∃ message, InstancingController.draw_instanced group_name none w =
      (w, Outcome.fatal message)) ∧
    (∃ message, InstancingController.draw_instanced_with_textures group_name none shader w =
      (w, Outcome.fatal message)) ∧
    (∃ message, InstancingController.draw_instanced_with_textures group_name mesh none w =
      (w, Outcome.fatal message)) ∧
    (InstancingController.is_group_registered group_name w = false →
      (∃ message, InstancingController.setup_instanced_mesh group_name mesh attribute_start w =
        (w, Outcome.fatal message)) ∧
      (∃ message, InstancingController.draw_instanced group_name mesh w =
        (w, Outcome.fatal message)) ∧
      (∃ message, InstancingController.draw_instanced_with_textures group_name mesh shader w =
        (w, Outcome.fatal message))) := by
  refine ⟨⟨_, rfl⟩, ⟨_, rfl⟩, ⟨_, rfl⟩, ?_, ?_⟩
  · cases mesh <;> exact ⟨_, rfl⟩
  · intro h
    have hl : w.instancing.m_instance_groups.lookup group_name = none := by
      simpa [InstancingController.is_group_registered] using h
    refine ⟨?_, ?_, ?_⟩
    · cases mesh with
      | none => exact ⟨_, rfl⟩
      | some m =>
        simp only [InstancingController.setup_instanced_mesh, hl]
        exact ⟨_, rfl⟩
    · cases mesh with
      | none => exact ⟨_, rfl⟩
      | some m =>
        simp only [InstancingController.draw_instanced, hl]
        exact ⟨_, rfl⟩
    · cases mesh with
      | none => exact ⟨_, rfl⟩
      | some m =>
        cases shader with
        | none => exact ⟨_, rfl⟩
        | some s =>
          simp only [InstancingController.draw_instanced_with_textures, hl]
          exact ⟨_, rfl⟩

/-- Witness of C15: the three calls on the unregistered name "g" with a mesh and a shader. -/
theorem instanced_calls_reject_bad_arguments_witness :
    InstancingController.is_group_registered "g" sample_world = false ∧
    (∃ message, InstancingController.setup_instanced_mesh "g"
        (some { vao := 7, num_indices := 6 }) 5 sample_world =
      (sample_world, Outcome.fatal message)) ∧
    (∃ message, InstancingController.draw_instanced "g"
        (some { vao := 7, num_indices := 6 }) sample_world =
      (sample_world, Outcome.fatal message)) ∧
    (∃ message, InstancingController.draw_instanced_with_textures "g"
        (some { vao := 7, num_indices := 6 }) (some { id := 1, uniforms := [] }) sample_world =
      (sample_world, Outcome.fatal message)) :=
  ⟨rfl, (instanced_calls_reject_bad_arguments sample_world "g"
    (some { vao := 7, num_indices := 6 }) (some { id := 1, uniforms := [] }) 5).2.2.2.2 rfl⟩

namespace ShadowController

theorem try_set_effect (shader : Shader) (name : String) (e : Event) (message : String)
    (gl : GLState) (he : e.is_bind_or_upload = true) :
    (try_set (shader.set name e) message gl).objects = gl.objects ∧
    binds_and_uploads (try_set (shader.set name e) message gl).trace =
      binds_and_uploads gl.trace ++ (if name ∈ shader.uniforms then [e] else []) := by
  unfold try_set Shader.set
  by_cases h : name ∈ shader.uniforms
  · simp [h, GLState.emit, binds_and_uploads, List.filter_append, he, GLState.objects]
  · simp [h, GLState.emit, binds_and_uploads, List.filter_append, GLState.objects,
      Event.is_bind_or_upload]

theorem bind_shadow_map_effect (shader : Shader) (shadow_strength : ℚ)
    (shadow : PointLightShadow) (gl : GLState) :
    (bind_shadow_map shader shadow_strength shadow gl).objects = gl.objects ∧
    binds_and_uploads (bind_shadow_map shader shadow_strength shadow gl).trace =
      binds_and_uploads gl.trace ++
        (Event.glActiveTexture 1 :: Event.glBindTextureCubeMap shadow.depth_cubemap ::
          shadow_map_uploads shader shadow_strength shadow) := by
  unfold bind_shadow_map shadow_map_uploads Shader.set_int Shader.set_vec3 Shader.set_float
  have e1 := fun gl => try_set_effect shader "depthMap" (Event.set_int shader.id "depthMap" 1)
    "ShadowController: Failed to set depthMap uniform: " gl rfl
  have e2 := fun gl => try_set_effect shader "lightPos"
    (Event.set_vec3 shader.id "lightPos" shadow.params.position)
    "ShadowController: Failed to set lightPos uniform: " gl rfl
  have e3 := fun gl => try_set_effect shader "far_plane"
    (Event.set_float shader.id "far_plane" shadow.params.far_plane)
    "ShadowController: Failed to set far_plane uniform: " gl rfl
  have e4 := fun gl => try_set_effect shader "shadowStrength"
    (Event.set_float shader.id "shadowStrength" shadow_strength)
    "ShadowController: Failed to set shadowStrength uniform: " gl rfl
  simp only [e1, e2, e3, e4, GLState.objects_emit, true_and]
  simp [GLState.emit, binds_and_uploads, List.filter_append, Event.is_bind_or_upload]

theorem bind_shadow_maps_loop_effect (shader : Shader) (shadow_strength : ℚ)
    (entries : List (Sigma fun _ : String => PointLightShadow)) (gl : GLState) :
    (bind_shadow_maps_loop shader shadow_strength entries gl).objects = gl.objects ∧
    binds_and_uploads (bind_shadow_maps_loop shader shadow_strength entries gl).trace =
      binds_and_uploads gl.trace ++
        (match entries.find? (fun entry => entry.2.depth_cubemap != 0) with
          | none => []
          | some entry =>
            Event.glActiveTexture 1 :: Event.glBindTextureCubeMap entry.2.depth_cubemap ::
              shadow_map_uploads shader shadow_strength entry.2) := by
  induction entries generalizing gl with
  | nil => simp [bind_shadow_maps_loop]
  | cons entry rest ih =>
    obtain ⟨light_name, shadow⟩ := entry
    by_cases h0 : shadow.depth_cubemap = 0
    · simp only [bind_shadow_maps_loop, h0, if_true, List.find?_cons, bne_self_eq_false]
      obtain ⟨i1, i2⟩ := ih (gl.emit (Event.spdlog LogLevel.warn
        ("ShadowController: Shadow resources not created for light '" ++ light_name ++ "'")))
      refine ⟨by rw [i1]; rfl, ?_⟩
      rw [i2]
      simp [GLState.emit, binds_and_uploads, List.filter_append, Event.is_bind_or_upload]
    · have hb : (shadow.depth_cubemap != 0) = true := by simpa using h0
      simp only [bind_shadow_maps_loop, h0, if_false, List.find?_cons, hb]
      exact bind_shadow_map_effect shader shadow_strength shadow gl

end ShadowController

/-- C16: for a non-null shader, `bind_shadow_maps` returns, changes neither controller and no
OpenGL object, and the texture binds and uniform uploads it adds to the trace are: nothing, if
no registered light has a non-zero depth cubemap (in particular if no light is registered);
otherwise, for the first light in the iteration order of the map whose depth cubemap is
non-zero (lights before it are skipped with a warning), the selection of texture unit 1, one
bind of that light's depth cubemap, and the uploads of depthMap, lightPos, far_plane and
shadowStrength, taken from that light, that exist in the shader. So at most one cubemap is
bound and at most one set of uniforms is uploaded. -/
theorem bind_shadow_maps_uses_first_ready_light (w : World) (shader : Shader)
    (shadow_strength : ℚ) :
    (ShadowController.bind_shadow_maps (some shader) shadow_strength w).2 = Outcome.ok () ∧
    (ShadowController.bind_shadow_maps (some shader) shadow_strength w).1.shadow = w.shadow ∧
    (ShadowController.bind_shadow_maps (some shader) shadow_strength w).1.instancing =
      w.instancing ∧
    (ShadowController.bind_shadow_maps (some shader) shadow_strength w).1.gl.objects =
      w.gl.objects ∧
    binds_and_uploads
        (ShadowController.bind_shadow_maps (some shader) shadow_strength w).1.gl.trace =
      binds_and_uploads w.gl.trace ++
        (match first_ready_light w with
          | none => []
          | some entry =>
            Event.glActiveTexture 1 :: Event.glBindTextureCubeMap entry.2.depth_cubemap ::
              shadow_map_uploads shader shadow_strength entry.2) ∧
    (∀ entry, first_ready_light w = some entry →
      w.shadow.m_point_lights.lookup entry.1 = some entry.2 ∧ entry.2.depth_cubemap ≠ 0) ∧
    ((∀ (light_name : String) (shadow : PointLightShadow),
        w.shadow.m_point_lights.lookup light_name = some shadow → shadow.depth_cubemap = 0) →
      binds_and_uploads
          (ShadowController.bind_shadow_maps (some shader) shadow_strength w).1.gl.trace =
        binds_and_uploads w.gl.trace) := by
  obtain ⟨h1, h2⟩ := ShadowController.bind_shadow_maps_loop_effect shader shadow_strength
    w.shadow.m_point_lights.entries w.gl
  have hready : ∀ entry, first_ready_light w = some entry →
      w.shadow.m_point_lights.lookup entry.1 = some entry.2 ∧ entry.2.depth_cubemap ≠ 0 := by
    intro entry hfind
    obtain ⟨light_name, shadow⟩ := entry
    have hmem := List.mem_of_find?_eq_some hfind
    have hp := List.find?_some hfind
    exact ⟨AList.mem_lookup_iff.mpr hmem, by simpa using hp⟩
  refine ⟨rfl, rfl, rfl, h1, h2, hready, ?_⟩
  intro hall
  have hnone : first_ready_light w = none := by
    cases hf : first_ready_light w with
    | none => rfl
    | some entry =>
      obtain ⟨hl, hne⟩ := hready entry hf
      exact absurd (hall _ _ hl) hne
  simp only [ShadowController.bind_shadow_maps, h2]
  simp only [first_ready_light] at hnone
  simp [hnone]

/-- Witness of C16: with no light registered nothing is bound and nothing is uploaded. -/
theorem bind_shadow_maps_uses_first_ready_light_witness :
    (∀ (light_name : String) (shadow : PointLightShadow),
      sample_world.shadow.m_point_lights.lookup light_name = some shadow →
        shadow.depth_cubemap = 0) ∧
    binds_and_uploads
        (ShadowController.bind_shadow_maps (some { id := 1, uniforms := ["depthMap"] }) 1
          sample_world).1.gl.trace =
      binds_and_uploads sample_world.gl.trace :=
  ⟨fun _ _ h => Option.noConfusion h,
    (bind_shadow_maps_uses_first_ready_light sample_world { id := 1, uniforms := ["depthMap"] }
      1).2.2.2.2.2.2 (fun _ _ h => Option.noConfusion h)⟩

/-! ## Facts about the teardown -/

namespace ShadowController

theorem foldl_destroy_shadow_resources (entries : List (Sigma fun _ : String => PointLightShadow))
    (gl : GLState) :
    (entries.foldl (fun gl entry => (destroy_shadow_resources entry.2 gl).2) gl).created =
      gl.created ∧
    (entries.foldl (fun gl entry => (destroy_shadow_resources entry.2 gl).2) gl).buffers =
      gl.buffers ∧
    (∀ t, t ∈ (entries.foldl (fun gl entry => (destroy_shadow_resources entry.2 gl).2)
        gl).textures ↔
      t ∈ gl.textures ∧ ∀ entry ∈ entries, entry.2.depth_cubemap ≠ 0 → t ≠ entry.2.depth_cubemap) ∧
    (∀ f, f ∈ (entries.foldl (fun gl entry => (destroy_shadow_resources entry.2 gl).2)
        gl).framebuffers ↔
      f ∈ gl.framebuffers ∧ ∀ entry ∈ entries, entry.2.framebuffer ≠ 0 → f ≠ entry.2.framebuffer) := by
  induction entries generalizing gl with
  | nil => simp
  | cons entry rest ih =>
    obtain ⟨i1, i2, i3, i4⟩ := ih (destroy_shadow_resources entry.2 gl).2
    obtain ⟨d1, d2, d3⟩ := destroy_shadow_resources_gl entry.2 gl
    have d4 : (destroy_shadow_resources entry.2 gl).2.buffers = gl.buffers := by
      by_cases h1 : entry.2.depth_cubemap = 0 <;> by_cases h2 : entry.2.framebuffer = 0 <;>
        simp [destroy_shadow_resources, h1, h2, GLState.glDeleteTextures,
          GLState.glDeleteFramebuffers]
    simp only [List.foldl_cons, List.mem_cons, forall_eq_or_imp]
    refine ⟨by rw [i1, d1], by rw [i2, d4], ?_, ?_⟩
    · intro t
      rw [i3, d2]
      by_cases h : entry.2.depth_cubemap = 0
      · simp [h]
      · simp only [h, ne_eq, not_false_eq_true, if_true, List.mem_filter, bne_iff_ne,
          true_implies]
        tauto
    · intro f
      rw [i4, d3]
      by_cases h : entry.2.framebuffer = 0
      · simp [h]
      · simp only [h, ne_eq, not_false_eq_true, if_true, List.mem_filter, bne_iff_ne,
          true_implies]
        tauto

end ShadowController

namespace InstancingController

theorem foldl_destroy_instance_buffer (entries : List (Sigma fun _ : String => InstanceGroup))
    (gl : GLState) :
    (entries.foldl (fun gl entry => (destroy_instance_buffer entry.2 gl).2) gl).created =
      gl.created ∧
    (entries.foldl (fun gl entry => (destroy_instance_buffer entry.2 gl).2) gl).textures =
      gl.textures ∧
    (entries.foldl (fun gl entry => (destroy_instance_buffer entry.2 gl).2) gl).framebuffers =
      gl.framebuffers ∧
    (∀ b, b ∈ (entries.foldl (fun gl entry => (destroy_instance_buffer entry.2 gl).2)
        gl).buffers ↔
      b ∈ gl.buffers ∧ ∀ entry ∈ entries, entry.2.buffer_id ≠ 0 → b ≠ entry.2.buffer_id) := by
  induction entries generalizing gl with
  | nil => simp
  | cons entry rest ih =>
    obtain ⟨i1, i2, i3, i4⟩ := ih (destroy_instance_buffer entry.2 gl).2
    obtain ⟨d1, d2⟩ := destroy_instance_buffer_gl entry.2 gl
    have d3 : (destroy_instance_buffer entry.2 gl).2.textures = gl.textures ∧
        (destroy_instance_buffer entry.2 gl).2.framebuffers = gl.framebuffers := by
      unfold destroy_instance_buffer
      split <;> exact ⟨rfl, rfl⟩
    simp only [List.foldl_cons, List.mem_cons, forall_eq_or_imp]
    refine ⟨by rw [i1, d1], by rw [i2, d3.1], by rw [i3, d3.2], ?_⟩
    intro b
    rw [i4, d2]
    by_cases h : entry.2.buffer_id = 0
    · simp [h]
    · simp only [h, ne_eq, not_false_eq_true, if_true, List.mem_filter, bne_iff_ne,
        true_implies]
      tauto

end InstancingController

/-! ## The resource discipline of the shadow controller -/

namespace ShadowController

theorem mem_destroy_shadow_resources (shadow : PointLightShadow) (gl : GLState) :
    (∀ t, t ∈ (destroy_shadow_resources shadow gl).2.textures ↔
      t ∈ gl.textures ∧ (shadow.depth_cubemap ≠ 0 → t ≠ shadow.depth_cubemap)) ∧
    (∀ f, f ∈ (destroy_shadow_resources shadow gl).2.framebuffers ↔
      f ∈ gl.framebuffers ∧ (shadow.framebuffer ≠ 0 → f ≠ shadow.framebuffer)) := by
  obtain ⟨-, -, h3, h4⟩ := foldl_destroy_shadow_resources [⟨"", shadow⟩] gl
  simp only [List.foldl_cons, List.foldl_nil, List.mem_singleton, forall_eq] at h3 h4
  exact ⟨h3, h4⟩

/-- Removing the entry of `light_name` (by erasing it or by replacing it with an entry without
resources) after destroying its resources keeps the discipline. -/
theorem held_after_destroy (c : Nat) (w : World) (light_name : String)
    (shadow : PointLightShadow) (lights : UMap PointLightShadow)
    (h : shadow_resources_held c w)
    (hl : w.shadow.m_point_lights.lookup light_name = some shadow)
    (hother : ∀ other, other ≠ light_name →
      lights.lookup other = w.shadow.m_point_lights.lookup other)
    (hself : ∀ s, lights.lookup light_name = some s → s.depth_cubemap = 0 ∧ s.framebuffer = 0) :
    shadow_resources_held c
      { w with shadow := { w.shadow with m_point_lights := lights },
               gl := (destroy_shadow_resources shadow w.gl).2 } := by
  obtain ⟨hz, ht, hf⟩ := h
  obtain ⟨mt, mf⟩ := mem_destroy_shadow_resources shadow w.gl
  refine ⟨?_, ?_, ?_⟩
  · intro n s hs
    by_cases hn : n = light_name
    · subst hn
      obtain ⟨z1, z2⟩ := hself s hs
      simp [z1, z2]
    · exact hz n s (by rw [← hother n hn]; exact hs)
  · intro t htm hct
    obtain ⟨htm1, htm2⟩ := (mt t).mp htm
    obtain ⟨n, s, hs, hdc⟩ := ht t htm1 hct
    by_cases hn : n = light_name
    · subst hn
      rw [hl] at hs
      cases hs
      exact absurd hdc.symm (htm2 (by omega))
    · exact ⟨n, s, by rw [← hother n hn] at hs; exact hs, hdc⟩
  · intro f hfm hcf
    obtain ⟨hfm1, hfm2⟩ := (mf f).mp hfm
    obtain ⟨n, s, hs, hfb⟩ := hf f hfm1 hcf
    by_cases hn : n = light_name
    · subst hn
      rw [hl] at hs
      cases hs
      exact absurd hfb.symm (hfm2 (by omega))
    · exact ⟨n, s, by rw [← hother n hn] at hs; exact hs, hfb⟩

/-- Replacing or inserting an entry with the same handles as before (or a new entry without
resources) and leaving the context alone keeps the discipline. -/
theorem held_after_update (c : Nat) (w : World) (light_name : String)
    (lights : UMap PointLightShadow) (gl : GLState)
    (h : shadow_resources_held c w)
    (hgl : gl.textures = w.gl.textures ∧ gl.framebuffers = w.gl.framebuffers)
    (hother : ∀ other, other ≠ light_name →
      lights.lookup other = w.shadow.m_point_lights.lookup other)
    (hself : ∀ s, lights.lookup light_name = some s →
      s.depth_cubemap = 0 ∧ s.framebuffer = 0 ∧ w.shadow.m_point_lights.lookup light_name = none ∨
      ∃ old, w.shadow.m_point_lights.lookup light_name = some old ∧
        s.depth_cubemap = old.depth_cubemap ∧ s.framebuffer = old.framebuffer)
    (hkeep : ∀ old, w.shadow.m_point_lights.lookup light_name = some old →
      ∃ s, lights.lookup light_name = some s) :
    shadow_resources_held c
      { w with shadow := { w.shadow with m_point_lights := lights }, gl := gl } := by
  obtain ⟨hz, ht, hf⟩ := h
  refine ⟨?_, ?_, ?_⟩
  · intro n s hs
    by_cases hn : n = light_name
    · subst hn
      rcases hself s hs with ⟨z1, z2, -⟩ | ⟨old, ho, e1, e2⟩
      · simp [z1, z2]
      · rw [e1, e2]
        exact hz n old ho
    · exact hz n s (by rw [← hother n hn]; exact hs)
  · intro t htm hct
    simp only [hgl.1] at htm
    obtain ⟨n, s, hs, hdc⟩ := ht t htm hct
    by_cases hn : n = light_name
    · subst hn
      obtain ⟨s2, hs2⟩ := hkeep s hs
      rcases hself s2 hs2 with ⟨-, -, hnone⟩ | ⟨old, ho, e1, -⟩
      · rw [hnone] at hs
        cases hs
      · rw [hs] at ho
        cases ho
        exact ⟨n, s2, hs2, by rw [e1, hdc]⟩
    · exact ⟨n, s, by rw [← hother n hn] at hs; exact hs, hdc⟩
  · intro f hfm hcf
    simp only [hgl.2] at hfm
    obtain ⟨n, s, hs, hfb⟩ := hf f hfm hcf
    by_cases hn : n = light_name
    · subst hn
      obtain ⟨s2, hs2⟩ := hkeep s hs
      rcases hself s2 hs2 with ⟨-, -, hnone⟩ | ⟨old, ho, -, e2⟩
      · rw [hnone] at hs
        cases hs
      · rw [hs] at ho
        cases ho
        exact ⟨n, s2, hs2, by rw [e2, hfb]⟩
    · exact ⟨n, s, by rw [← hother n hn] at hs; exact hs, hfb⟩

end ShadowController

namespace ShadowController

theorem held_congr (c : Nat) (w w1 : World) (h : shadow_resources_held c w)
    (hm : w1.shadow.m_point_lights = w.shadow.m_point_lights)
    (ht : w1.gl.textures = w.gl.textures) (hf : w1.gl.framebuffers = w.gl.framebuffers) :
    shadow_resources_held c w1 := by
  unfold shadow_resources_held
  rw [hm, ht, hf]
  exact h

theorem held_after_create (c : Nat) (w w1 : World) (light_name : String)
    (shadow : PointLightShadow) (h : shadow_resources_held c w)
    (hl : w.shadow.m_point_lights.lookup light_name = some shadow)
    (h0 : shadow.framebuffer = 0)
    (hm : w1.shadow.m_point_lights = w.shadow.m_point_lights.replace light_name
      { shadow with depth_cubemap := w.gl.created + 1, framebuffer := w.gl.created + 2 })
    (ht : w1.gl.textures = (w.gl.created + 1) :: w.gl.textures)
    (hf : w1.gl.framebuffers = (w.gl.created + 2) :: w.gl.framebuffers) :
    shadow_resources_held c w1 := by
  obtain ⟨hz, htex, hfb⟩ := h
  have hd0 : shadow.depth_cubemap = 0 := (hz _ _ hl).mpr h0
  have hself : w1.shadow.m_point_lights.lookup light_name =
      some { shadow with depth_cubemap := w.gl.created + 1, framebuffer := w.gl.created + 2 } := by
    rw [hm, UMap.lookup_replace_self, hl]
    rfl
  have hother : ∀ other, other ≠ light_name →
      w1.shadow.m_point_lights.lookup other = w.shadow.m_point_lights.lookup other := by
    intro other hne
    rw [hm, UMap.lookup_replace_ne _ hne]
  refine ⟨?_, ?_, ?_⟩
  · intro n s hs
    by_cases hn : n = light_name
    · subst hn
      rw [hself] at hs
      cases hs
      simp
    · exact hz n s (by rw [← hother n hn]; exact hs)
  · intro t htm hct
    rw [ht] at htm
    rcases List.mem_cons.mp htm with rfl | hold
    · exact ⟨light_name, _, hself, rfl⟩
    · obtain ⟨n, s, hs, hdc⟩ := htex t hold hct
      by_cases hn : n = light_name
      · subst hn
        rw [hl] at hs
        cases hs
        omega
      · exact ⟨n, s, by rw [hother n hn]; exact hs, hdc⟩
  · intro f hfm hcf
    rw [hf] at hfm
    rcases List.mem_cons.mp hfm with rfl | hold
    · exact ⟨light_name, _, hself, rfl⟩
    · obtain ⟨n, s, hs, hfbs⟩ := hfb f hold hcf
      by_cases hn : n = light_name
      · subst hn
        rw [hl] at hs
        cases hs
        omega
      · exact ⟨n, s, by rw [hother n hn]; exact hs, hfbs⟩

theorem held_register (c : Nat) (light_name : String) (params : PointLightShadowParams)
    (w : World) (h : shadow_resources_held c w) :
    shadow_resources_held c (register_point_light light_name params w).1 := by
  cases hl : w.shadow.m_point_lights.lookup light_name with
  | none =>
    rw [register_point_light_of_unregistered _ _ _ hl]
    apply held_after_update c w light_name _ w.gl h ⟨rfl, rfl⟩
    · intro other hne
      exact AList.lookup_insert_ne hne
    · intro s hs
      rw [AList.lookup_insert] at hs
      cases hs
      exact Or.inl ⟨rfl, rfl, hl⟩
    · intro old ho
      rw [hl] at ho
      cases ho
  | some shadow =>
    rw [register_point_light_of_registered _ _ _ _ hl]
    apply held_after_destroy c w light_name shadow _ h hl
    · intro other hne
      exact UMap.lookup_replace_ne _ hne _
    · intro s hs
      rw [UMap.lookup_replace_self, hl] at hs
      cases hs
      exact ⟨rfl, rfl⟩

theorem held_unregister (c : Nat) (light_name : String) (w : World)
    (h : shadow_resources_held c w) :
    shadow_resources_held c (unregister_point_light light_name w).1 := by
  unfold unregister_point_light
  cases hl : w.shadow.m_point_lights.lookup light_name with
  | none => exact h
  | some shadow =>
    apply held_after_destroy c w light_name shadow _ h hl
    · intro other hne
      exact AList.lookup_erase_ne hne
    · intro s hs
      rw [AList.lookup_erase] at hs
      cases hs

theorem held_update_position (c : Nat) (light_name : String) (position : Vec3) (w : World)
    (h : shadow_resources_held c w) :
    shadow_resources_held c (update_light_position light_name position w).1 := by
  unfold update_light_position
  cases hl : w.shadow.m_point_lights.lookup light_name with
  | none => exact h
  | some shadow =>
    apply held_after_update c w light_name _ w.gl h ⟨rfl, rfl⟩
    · intro other hne
      exact UMap.lookup_replace_ne _ hne _
    · intro s hs
      rw [UMap.lookup_replace_self, hl] at hs
      cases hs
      exact Or.inr ⟨shadow, hl, rfl, rfl⟩
    · intro old _
      exact ⟨_, by rw [UMap.lookup_replace_self, hl]; rfl⟩

theorem held_update_far_plane (c : Nat) (light_name : String) (far_plane : ℚ) (w : World)
    (h : shadow_resources_held c w) :
    shadow_resources_held c (update_light_far_plane light_name far_plane w).1 := by
  unfold update_light_far_plane
  cases hl : w.shadow.m_point_lights.lookup light_name with
  | none => exact h
  | some shadow =>
    apply held_after_update c w light_name _ w.gl h ⟨rfl, rfl⟩
    · intro other hne
      exact UMap.lookup_replace_ne _ hne _
    · intro s hs
      rw [UMap.lookup_replace_self, hl] at hs
      cases hs
      exact Or.inr ⟨shadow, hl, rfl, rfl⟩
    · intro old _
      exact ⟨_, by rw [UMap.lookup_replace_self, hl]; rfl⟩

theorem replace_same {V : Type} (m : UMap V) (key : String) (value : V)
    (h : m.lookup key = some value) : m.replace key value = m := by
  apply AList.ext
  exact List.kreplace_self m.nodupKeys (AList.mem_lookup_iff.mp h)

theorem held_render (c : Nat) (light_name : String) (render_geometry : RenderGeometry)
    (w : World) (h : shadow_resources_held c w) :
    shadow_resources_held c (render_shadows_for_light light_name render_geometry w).1 := by
  cases hl : w.shadow.m_point_lights.lookup light_name with
  | none =>
    rw [render_shadows_for_light_unregistered _ _ _ hl]
    exact h
  | some shadow =>
    obtain ⟨e1, e2⟩ := render_shadows_for_light_effect light_name render_geometry w shadow hl
    by_cases h0 : shadow.framebuffer = 0
    · rw [if_pos h0, create_shadow_resources_shadow] at e1
      rw [if_pos h0, create_shadow_resources_objects] at e2
      simp only [GLState.objects, Prod.mk.injEq] at e2
      exact held_after_create c w _ light_name shadow h hl h0 e1 e2.2.1 e2.2.2.1
    · rw [if_neg h0] at e1 e2
      simp only [GLState.objects, Prod.mk.injEq] at e2
      rw [replace_same _ _ _ hl] at e1
      exact held_congr c w _ h e1 e2.2.1 e2.2.2.1

theorem held_terminate (c : Nat) (w : World) (h : shadow_resources_held c w) :
    created_since c (terminate w).gl.textures = [] ∧
    created_since c (terminate w).gl.framebuffers = [] ∧
    shadow_resources_held c (terminate w) := by
  obtain ⟨hz, htex, hfb⟩ := h
  obtain ⟨-, -, f3, f4⟩ := foldl_destroy_shadow_resources w.shadow.m_point_lights.entries
    (w.gl.emit (Event.spdlog LogLevel.info "ShadowController::terminate"))
  have ht : ∀ t ∈ (terminate w).gl.textures, ¬ c < t := by
    intro t htm hct
    obtain ⟨m1, m2⟩ := (f3 t).mp htm
    obtain ⟨n, s, hs, hdc⟩ := htex t m1 hct
    exact m2 ⟨n, s⟩ (AList.mem_lookup_iff.mp hs) (by simp only; omega) hdc.symm
  have hf : ∀ f ∈ (terminate w).gl.framebuffers, ¬ c < f := by
    intro f hfm hcf
    obtain ⟨m1, m2⟩ := (f4 f).mp hfm
    obtain ⟨n, s, hs, hfbs⟩ := hfb f m1 hcf
    exact m2 ⟨n, s⟩ (AList.mem_lookup_iff.mp hs) (by simp only; omega) hfbs.symm
  refine ⟨created_since_eq_nil _ _ (fun t htm => Nat.le_of_not_lt (ht t htm)),
    created_since_eq_nil _ _ (fun f hfm => Nat.le_of_not_lt (hf f hfm)), ?_, ?_, ?_⟩
  · intro n s hs
    cases hs
  · intro t htm hct
    exact absurd hct (ht t htm)
  · intro f hfm hcf
    exact absurd hcf (hf f hfm)

end ShadowController

namespace ShadowController

theorem bind_shadow_maps_frame (shader : Option Shader) (shadow_strength : ℚ) (w : World) :
    (bind_shadow_maps shader shadow_strength w).1.shadow = w.shadow ∧
    (bind_shadow_maps shader shadow_strength w).1.gl.objects = w.gl.objects := by
  cases shader with
  | none => exact ⟨rfl, rfl⟩
  | some shader =>
    exact ⟨rfl, (bind_shadow_maps_loop_effect shader shadow_strength
      w.shadow.m_point_lights.entries w.gl).1⟩

theorem held_shadow_call (c : Nat) (call : ShadowCall) (w : World)
    (h : shadow_resources_held c w) : shadow_resources_held c (call.run w) := by
  cases call with
  | register_point_light n p => exact held_register c n p w h
  | update_light_position n p => exact held_update_position c n p w h
  | update_light_far_plane n f => exact held_update_far_plane c n f w h
  | unregister_point_light n => exact held_unregister c n w h
  | render_shadows_for_light n cb => exact held_render c n cb w h

theorem held_api_call (c : Nat) (call : ShadowApiCall) (w : World)
    (h : shadow_resources_held c w) : shadow_resources_held c (call.run w) := by
  cases call with
  | light call => exact held_shadow_call c call w h
  | begin_shadow_pass => exact held_congr c w _ h rfl rfl rfl
  | end_shadow_pass => exact held_congr c w _ h rfl rfl rfl
  | bind_shadow_maps shader shadow_strength =>
    obtain ⟨b1, b2⟩ := bind_shadow_maps_frame shader shadow_strength w
    simp only [GLState.objects, Prod.mk.injEq] at b2
    exact held_congr c w _ h (by rw [ShadowApiCall.run, b1]) b2.2.1 b2.2.2.1
  | terminate => exact (held_terminate c w h).2.2

theorem held_run (c : Nat) (calls : List ShadowApiCall) (w : World)
    (h : shadow_resources_held c w) :
    shadow_resources_held c (run_shadow_api_calls calls w) := by
  induction calls generalizing w with
  | nil => exact h
  | cons call rest ih => exact ih (call.run w) (held_api_call c call w h)

theorem held_initial (gl : GLState) (env : Env) (c : Nat)
    (ht : ∀ t ∈ gl.textures, t ≤ c) (hf : ∀ f ∈ gl.framebuffers, f ≤ c) :
    shadow_resources_held c (World.initial gl env) := by
  refine ⟨?_, ?_, ?_⟩
  · intro n s hs
    cases hs
  · intro t htm hct
    have := ht t htm
    omega
  · intro f hfm hcf
    have := hf f hfm
    omega

theorem exists_bound (l : List Nat) : ∃ c, ∀ n ∈ l, n ≤ c := by
  induction l with
  | nil => exact ⟨0, fun n hn => by cases hn⟩
  | cons hd tl ih =>
    obtain ⟨c, hc⟩ := ih
    refine ⟨max hd c, fun n hn => ?_⟩
    rcases List.mem_cons.mp hn with rfl | htl
    · exact le_max_left _ _
    · exact le_trans (hc n htl) (le_max_right _ _)

/-- A call that is not a render of `light_name` leaves a registered light without resources
without resources, if it leaves it registered. -/
theorem zero_handles_stay (call : ShadowApiCall) (w : World) (light_name : String)
    (shadow after : PointLightShadow)
    (hl : w.shadow.m_point_lights.lookup light_name = some shadow)
    (hd : shadow.depth_cubemap = 0) (hf : shadow.framebuffer = 0)
    (hcall : call.renders light_name = false)
    (ha : (call.run w).shadow.m_point_lights.lookup light_name = some after) :
    after.depth_cubemap = 0 ∧ after.framebuffer = 0 := by
  have same : ∀ w1 : World, w1.shadow.m_point_lights.lookup light_name = some after →
      w1.shadow.m_point_lights.lookup light_name = w.shadow.m_point_lights.lookup light_name →
      after.depth_cubemap = 0 ∧ after.framebuffer = 0 := by
    intro w1 h1 h2
    rw [h2, hl] at h1
    cases h1
    exact ⟨hd, hf⟩
  cases call with
  | light call =>
    cases call with
    | register_point_light n p =>
      simp only [ShadowApiCall.run, ShadowCall.run] at ha
      by_cases hn : n = light_name
      · subst hn
        rw [register_point_light_lookup] at ha
        cases ha
        exact ⟨rfl, rfl⟩
      · have hne : light_name ≠ n := fun e => hn e.symm
        apply same _ ha
        cases hln : w.shadow.m_point_lights.lookup n with
        | none =>
          rw [register_point_light_of_unregistered _ _ _ hln]
          exact AList.lookup_insert_ne hne
        | some s =>
          rw [register_point_light_of_registered _ _ _ _ hln]
          exact UMap.lookup_replace_ne _ hne _
    | update_light_position n p =>
      simp only [ShadowApiCall.run, ShadowCall.run, update_light_position] at ha
      cases hln : w.shadow.m_point_lights.lookup n with
      | none => rw [hln] at ha; exact same w ha rfl
      | some s =>
        rw [hln] at ha
        by_cases hn : n = light_name
        · subst hn
          rw [UMap.lookup_replace_self, hln] at ha
          rw [hl] at hln
          cases hln
          cases ha
          exact ⟨hd, hf⟩
        · have hne : light_name ≠ n := fun e => hn e.symm
          rw [UMap.lookup_replace_ne _ hne] at ha
          exact same w ha rfl
    | update_light_far_plane n p =>
      simp only [ShadowApiCall.run, ShadowCall.run, update_light_far_plane] at ha
      cases hln : w.shadow.m_point_lights.lookup n with
      | none => rw [hln] at ha; exact same w ha rfl
      | some s =>
        rw [hln] at ha
        by_cases hn : n = light_name
        · subst hn
          rw [UMap.lookup_replace_self, hln] at ha
          rw [hl] at hln
          cases hln
          cases ha
          exact ⟨hd, hf⟩
        · have hne : light_name ≠ n := fun e => hn e.symm
          rw [UMap.lookup_replace_ne _ hne] at ha
          exact same w ha rfl
    | unregister_point_light n =>
      simp only [ShadowApiCall.run, ShadowCall.run, unregister_point_light] at ha
      cases hln : w.shadow.m_point_lights.lookup n with
      | none => rw [hln] at ha; exact same w ha rfl
      | some s =>
        rw [hln] at ha
        exact same w (UMap.lookup_erase_cases ha).2 rfl
    | render_shadows_for_light n cb =>
      have hn : n ≠ light_name := by
        simpa [ShadowApiCall.renders] using hcall
      have hne : light_name ≠ n := fun e => hn e.symm
      simp only [ShadowApiCall.run, ShadowCall.run] at ha
      cases hln : w.shadow.m_point_lights.lookup n with
      | none =>
        rw [render_shadows_for_light_unregistered _ _ _ hln] at ha
        exact same w ha rfl
      | some s =>
        rw [(render_shadows_for_light_effect n cb w s hln).1, UMap.lookup_replace_ne _ hne] at ha
        exact same w ha rfl
  | begin_shadow_pass => exact same w ha rfl
  | end_shadow_pass => exact same w ha rfl
  | bind_shadow_maps shader shadow_strength =>
    simp only [ShadowApiCall.run, (bind_shadow_maps_frame shader shadow_strength w).1] at ha
    exact same w ha rfl
  | terminate => cases ha

end ShadowController

/-- C19: in every state reached from freshly constructed controllers by any sequence of calls
of the public interface of `ShadowController` (registrations, updates, unregistrations,
renders with any callbacks, `begin_shadow_pass`, `end_shadow_pass`, `bind_shadow_maps`,
`terminate`, whether they return or fail), the depth cubemap and the framebuffer of every
registered light are both zero or both non-zero. Both are zero right after a (re-)registration,
and they stay zero under every call that is not a render of that light and leaves it
registered. A render of a light whose handles are zero creates exactly one texture and one
framebuffer, whose names become the two handles; a render of a light whose framebuffer is
non-zero creates no object and leaves the entry as it is. -/
theorem handles_created_together (gl : GLState) (env : Env) (calls : List ShadowApiCall)
    (w : World) (light_name : String) (shadow : PointLightShadow)
    (params : PointLightShadowParams) (call : ShadowApiCall)
    (render_geometry : RenderGeometry) :
    (∀ (name : String) (registered : PointLightShadow),
      (run_shadow_api_calls calls (World.initial gl env)).shadow.m_point_lights.lookup name =
        some registered →
      (registered.depth_cubemap = 0 ↔ registered.framebuffer = 0)) ∧
    (∃ entry : PointLightShadow,
      (ShadowController.register_point_light light_name params w).1.shadow.m_point_lights.lookup
        light_name = some entry ∧ entry.depth_cubemap = 0 ∧ entry.framebuffer = 0) ∧
    (w.shadow.m_point_lights.lookup light_name = some shadow →
      shadow.depth_cubemap = 0 → shadow.framebuffer = 0 →
      call.renders light_name = false →
      ∀ after : PointLightShadow,
        (call.run w).shadow.m_point_lights.lookup light_name = some after →
        after.depth_cubemap = 0 ∧ after.framebuffer = 0) ∧
    (w.shadow.m_point_lights.lookup light_name = some shadow →
      shadow.depth_cubemap = 0 → shadow.framebuffer = 0 →
      (ShadowController.render_shadows_for_light light_name render_geometry w).1.gl.objects =
        (w.gl.created + 2, (w.gl.created + 1) :: w.gl.textures,
          (w.gl.created + 2) :: w.gl.framebuffers, w.gl.buffers) ∧
      (ShadowController.render_shadows_for_light light_name render_geometry
        w).1.shadow.m_point_lights.lookup light_name =
        some { shadow with depth_cubemap := w.gl.created + 1,
                           framebuffer := w.gl.created + 2 }) ∧
    (w.shadow.m_point_lights.lookup light_name = some shadow →
      shadow.framebuffer ≠ 0 →
      (ShadowController.render_shadows_for_light light_name render_geometry w).1.gl.objects =
        w.gl.objects ∧
      (ShadowController.render_shadows_for_light light_name render_geometry
        w).1.shadow.m_point_lights.lookup light_name = some shadow) := by
  refine ⟨?_, ⟨_, ShadowController.register_point_light_lookup _ _ _, rfl, rfl⟩, ?_, ?_, ?_⟩
  · obtain ⟨c, hc⟩ := ShadowController.exists_bound (gl.textures ++ gl.framebuffers)
    have hinit := ShadowController.held_initial gl env c
      (fun t ht => hc t (List.mem_append_left _ ht))
      (fun f hf => hc f (List.mem_append_right _ hf))
    exact (ShadowController.held_run c calls _ hinit).1
  · intro hl hd hf hcall after ha
    exact ShadowController.zero_handles_stay call w light_name shadow after hl hd hf hcall ha
  · intro hl _ hf
    obtain ⟨e1, e2⟩ :=
      ShadowController.render_shadows_for_light_effect light_name render_geometry w shadow hl
    rw [if_pos hf, ShadowController.create_shadow_resources_shadow] at e1
    rw [if_pos hf, ShadowController.create_shadow_resources_objects] at e2
    refine ⟨e2, ?_⟩
    rw [e1, UMap.lookup_replace_self, hl]
    rfl
  · intro hl hf
    obtain ⟨e1, e2⟩ :=
      ShadowController.render_shadows_for_light_effect light_name render_geometry w shadow hl
    rw [if_neg hf] at e1 e2
    refine ⟨e2, ?_⟩
    rw [e1, UMap.lookup_replace_self, hl]
    rfl

/-- Witness of C19: the first render of the light "L" registered in the sample world creates
texture 1 and framebuffer 2. -/
theorem handles_created_together_witness :
    sample_registered_world.shadow.m_point_lights.lookup "L" =
      some (registered_entry sample_light_params) ∧
    (registered_entry sample_light_params).depth_cubemap = 0 ∧
    (registered_entry sample_light_params).framebuffer = 0 ∧
    (ShadowController.render_shadows_for_light "L" (fun gl => ⟨[], gl.viewport, 0, 0, none⟩)
      sample_registered_world).1.gl.objects =
      (sample_registered_world.gl.created + 2,
        (sample_registered_world.gl.created + 1) :: sample_registered_world.gl.textures,
        (sample_registered_world.gl.created + 2) :: sample_registered_world.gl.framebuffers,
        sample_registered_world.gl.buffers) :=
  ⟨ShadowController.register_point_light_lookup "L" sample_light_params sample_world, rfl, rfl,
    ((handles_created_together sample_world.gl sample_world.env [] sample_registered_world "L"
      (registered_entry sample_light_params) sample_light_params ShadowApiCall.terminate
      (fun gl => ⟨[], gl.viewport, 0, 0, none⟩)).2.2.2.1
      (ShadowController.register_point_light_lookup "L" sample_light_params sample_world)
      rfl rfl).1⟩

/-! ## The resource discipline of the instancing controller -/

namespace InstancingController

theorem create_instance_buffer_effect (group : InstanceGroup) (gl : GLState) :
    (group.data = none →
      (create_instance_buffer group gl).1 = group ∧ (create_instance_buffer group gl).2.1 = gl) ∧
    (group.data ≠ none →
      (create_instance_buffer group gl).1.buffer_id = gl.created + 1 ∧
      (create_instance_buffer group gl).2.1.objects =
        (gl.created + 1, gl.textures, gl.framebuffers, (gl.created + 1) :: gl.buffers)) := by
  unfold create_instance_buffer
  cases hd : group.data with
  | none => simp
  | some data =>
    simp [GLState.glGenBuffers, GLState.glBindBuffer, GLState.glBufferData, GLState.emit,
      GLState.objects]

theorem update_instance_buffer_effect (group : InstanceGroup) (gl : GLState) :
    (update_instance_buffer group gl).1.buffer_id = group.buffer_id ∧
    (update_instance_buffer group gl).2.1.objects = gl.objects := by
  unfold update_instance_buffer
  split
  · exact ⟨rfl, rfl⟩
  · cases hd : group.data with
    | none => exact ⟨rfl, rfl⟩
    | some data => exact ⟨rfl, rfl⟩

theorem mem_destroy_instance_buffer (group : InstanceGroup) (gl : GLState) (b : Nat) :
    b ∈ (destroy_instance_buffer group gl).2.buffers ↔
      b ∈ gl.buffers ∧ (group.buffer_id ≠ 0 → b ≠ group.buffer_id) := by
  rw [(destroy_instance_buffer_gl group gl).2]
  by_cases h : group.buffer_id = 0
  · simp [h]
  · simp [h, List.mem_filter]

/-- The general step of the discipline: the map changes at most at `group_name`, where the new
entry holds either the buffer the old entry held or a buffer that has just been created, and
every buffer that was live and is not held by the old entry of `group_name` is live or not as
before. -/
theorem buffers_held_step (c : Nat) (w w1 : World) (group_name : String)
    (h : instance_buffers_held c w)
    (hother : ∀ other, other ≠ group_name →
      w1.instancing.m_instance_groups.lookup other = w.instancing.m_instance_groups.lookup other)
    (hbuf : ∀ b ∈ w1.gl.buffers, 0 < b →
      (b ∈ w.gl.buffers ∧
        ∀ old, w.instancing.m_instance_groups.lookup group_name = some old →
          old.buffer_id = b →
          ∃ g, w1.instancing.m_instance_groups.lookup group_name = some g ∧ g.buffer_id = b) ∨
      ∃ g, w1.instancing.m_instance_groups.lookup group_name = some g ∧ g.buffer_id = b) :
    instance_buffers_held c w1 := by
  intro b hb hcb
  rcases hbuf b hb (by omega) with ⟨hold, hkeep⟩ | ⟨g, hg, hgb⟩
  · obtain ⟨n, g, hg, hgb⟩ := h b hold hcb
    by_cases hn : n = group_name
    · subst hn
      obtain ⟨g2, hg2, hgb2⟩ := hkeep g hg hgb
      exact ⟨n, g2, hg2, hgb2⟩
    · exact ⟨n, g, by rw [hother n hn]; exact hg, hgb⟩
  · exact ⟨group_name, g, hg, hgb⟩

theorem register_instance_group_none (group_name : String) (w : World) :
    (register_instance_group group_name none w).1.gl.buffers =
      (match w.instancing.m_instance_groups.lookup group_name with
        | some group => (destroy_instance_buffer group w.gl).2.buffers
        | none => w.gl.buffers) := by
  cases hl : w.instancing.m_instance_groups.lookup group_name with
  | none =>
    have hn : group_name ∉ w.instancing.m_instance_groups := AList.lookup_eq_none.mp hl
    simp only [register_instance_group, hl, UMap.subscript_assign, hn, if_false,
      AList.lookup_insert, create_instance_buffer, InstanceGroup.of_data]
  | some group =>
    simp only [register_instance_group, hl, UMap.lookup_replace_self, Option.map_some',
      create_instance_buffer, InstanceGroup.of_data]

theorem buffers_held_register (c : Nat) (group_name : String) (data : Option InstancedData)
    (w : World) (h : instance_buffers_held c w) :
    instance_buffers_held c (register_instance_group group_name data w).1 := by
  apply buffers_held_step c w _ group_name h
  · intro other hne
    obtain ⟨g, -, hm⟩ := register_instance_group_groups group_name data w
    rw [hm]
    split
    · exact UMap.lookup_replace_ne _ hne _
    · exact AList.lookup_insert_ne hne
  · intro b hb hpos
    have old_gone : ∀ g, w.instancing.m_instance_groups.lookup group_name = some g →
        b ∈ (destroy_instance_buffer g w.gl).2.buffers →
        b ∈ w.gl.buffers ∧
          ∀ old, some g = some old → old.buffer_id = b →
            ∃ g1, (register_instance_group group_name data
              w).1.instancing.m_instance_groups.lookup group_name = some g1 ∧
              g1.buffer_id = b := by
      intro g _ hmem
      have hm := (mem_destroy_instance_buffer g w.gl b).mp hmem
      refine ⟨hm.1, fun old ho hob => ?_⟩
      cases ho
      exact absurd hob.symm (hm.2 (by omega))
    cases data with
    | some d =>
      obtain ⟨-, h2, -, h4⟩ := register_instance_group_some group_name d w
      rw [h4] at hb
      rcases List.mem_cons.mp hb with rfl | hold
      · exact Or.inr ⟨_, h2, rfl⟩
      · left
        cases hl : w.instancing.m_instance_groups.lookup group_name with
        | none =>
          rw [hl] at hold
          exact ⟨hold, fun old ho => by cases ho⟩
        | some g =>
          rw [hl] at hold
          exact old_gone g hl (by rw [(destroy_instance_buffer_gl g w.gl).2]; exact hold)
    | none =>
      rw [register_instance_group_none] at hb
      left
      cases hl : w.instancing.m_instance_groups.lookup group_name with
      | none =>
        rw [hl] at hb
        exact ⟨hb, fun old ho => by cases ho⟩
      | some g =>
        rw [hl] at hb
        exact old_gone g hl hb

end InstancingController

namespace InstancingController

theorem buffers_held_congr (c : Nat) (w w1 : World) (h : instance_buffers_held c w)
    (hm : w1.instancing.m_instance_groups = w.instancing.m_instance_groups)
    (hb : w1.gl.buffers = w.gl.buffers) : instance_buffers_held c w1 := by
  unfold instance_buffers_held
  rw [hm, hb]
  exact h

theorem update_instance_buffer_result (group : InstanceGroup) (gl : GLState)
    (res : InstanceGroup × GLState × Outcome Unit) (h : update_instance_buffer group gl = res) :
    res.1.buffer_id = group.buffer_id ∧ res.2.1.objects = gl.objects := by
  subst h
  exact update_instance_buffer_effect group gl

theorem objects_set_int (shader : Shader) (name : String) (value : Int) (gl : GLState)
    (res : GLState × Outcome Unit) (h : shader.set_int name value gl = res) :
    res.1.objects = gl.objects := by
  subst h
  exact objects_set shader _ _ gl

theorem buffers_held_update (c : Nat) (group_name : String) (data : Option InstancedData)
    (w : World) (h : instance_buffers_held c w) :
    instance_buffers_held c (update_instance_group group_name data w).1 := by
  unfold update_instance_group
  cases hl : w.instancing.m_instance_groups.lookup group_name with
  | none => exact h
  | some group =>
    simp only []
    generalize hup : update_instance_buffer _ w.gl = res
    have he := update_instance_buffer_result _ _ _ hup
    obtain ⟨g2, gl2, out⟩ := res
    simp only [GLState.objects, Prod.mk.injEq] at he
    have hw : ∀ r : World × Outcome Bool,
        r.1 = { w with
          instancing := { w.instancing with
            m_instance_groups := w.instancing.m_instance_groups.replace group_name g2 },
          gl := gl2 } → instance_buffers_held c r.1 := by
      intro r hr
      rw [hr]
      apply buffers_held_step c w _ group_name h
      · intro other hne
        exact UMap.lookup_replace_ne _ hne _
      · intro b hb _
        left
        refine ⟨by rw [← he.2.2.2.2]; exact hb, fun old ho hob => ?_⟩
        rw [hl] at ho
        cases ho
        exact ⟨g2, by simp only [UMap.lookup_replace_self, hl, Option.map_some'],
          by rw [he.1]; exact hob⟩
    cases out <;> exact hw _ rfl

theorem buffers_held_unregister (c : Nat) (group_name : String) (w : World)
    (h : instance_buffers_held c w) :
    instance_buffers_held c (unregister_instance_group group_name w).1 := by
  unfold unregister_instance_group
  cases hl : w.instancing.m_instance_groups.lookup group_name with
  | none => exact h
  | some group =>
    apply buffers_held_step c w _ group_name h
    · intro other hne
      exact AList.lookup_erase_ne hne
    · intro b hb hpos
      left
      have hm := (mem_destroy_instance_buffer group w.gl b).mp hb
      refine ⟨hm.1, fun old ho hob => ?_⟩
      rw [hl] at ho
      cases ho
      exact absurd hob.symm (hm.2 (by omega))

theorem draw_instanced_frame (group_name : String) (mesh : Option Mesh) (w : World) :
    (draw_instanced group_name mesh w).1.instancing = w.instancing ∧
    (draw_instanced group_name mesh w).1.gl.objects = w.gl.objects := by
  unfold draw_instanced
  cases mesh with
  | none => exact ⟨rfl, rfl⟩
  | some mesh =>
    simp only []
    split
    · exact ⟨rfl, rfl⟩
    · split
      · exact ⟨rfl, rfl⟩
      · split <;> exact ⟨rfl, rfl⟩

theorem objects_bind_mesh_textures (shader : Shader) (textures : List Texture) (i : Nat)
    (counts : String → Nat) (gl : GLState) :
    (bind_mesh_textures shader textures i counts gl).1.objects = gl.objects := by
  induction textures generalizing i counts gl with
  | nil => rfl
  | cons texture rest ih =>
    unfold bind_mesh_textures
    simp only []
    generalize hset : shader.set_int _ _ _ = res
    have hs := objects_set_int _ _ _ _ _ hset
    obtain ⟨gl2, out⟩ := res
    cases out with
    | ok u =>
      simp only [] at hs ⊢
      rw [ih, GLState.objects_emit, hs, GLState.objects_emit]
    | fatal m => simpa using hs
    | threw m => simpa using hs

theorem draw_instanced_with_textures_frame (group_name : String) (mesh : Option Mesh)
    (shader : Option Shader) (w : World) :
    (draw_instanced_with_textures group_name mesh shader w).1.instancing = w.instancing ∧
    (draw_instanced_with_textures group_name mesh shader w).1.gl.objects = w.gl.objects := by
  unfold draw_instanced_with_textures
  cases mesh with
  | none => exact ⟨rfl, rfl⟩
  | some mesh =>
    cases shader with
    | none => exact ⟨rfl, rfl⟩
    | some shader =>
      simp only []
      split
      · exact ⟨rfl, rfl⟩
      · split
        · exact ⟨rfl, rfl⟩
        · generalize hb : bind_mesh_textures shader mesh.textures 0 (fun _ => 0) w.gl = res
          have ho := objects_bind_mesh_textures shader mesh.textures 0 (fun _ => 0) w.gl
          rw [hb] at ho
          obtain ⟨gl2, out⟩ := res
          cases out with
          | fatal m => exact ⟨rfl, ho⟩
          | threw m => exact ⟨rfl, ho⟩
          | ok u =>
            dsimp only at ho ⊢
            split <;> exact ⟨rfl, ho⟩

end InstancingController

theorem objects_foldl {α : Type} (f : GLState → α → GLState)
    (hf : ∀ gl a, (f gl a).objects = gl.objects) (l : List α) (gl : GLState) :
    (l.foldl f gl).objects = gl.objects := by
  induction l generalizing gl with
  | nil => rfl
  | cons hd tl ih => rw [List.foldl_cons, ih, hf]

namespace InstancingController

theorem objects_setup_matrix_attributes (attribute_start buffer_id : Nat) (gl : GLState) :
    (setup_matrix_attributes attribute_start buffer_id gl).objects = gl.objects := by
  unfold setup_matrix_attributes
  rw [GLState.objects_glBindBuffer, objects_foldl, GLState.objects_glBindBuffer]
  intro gl1 i
  simp only [GLState.objects_emit]

theorem objects_setup_offset_attributes (attribute_start buffer_id : Nat) (gl : GLState) :
    (setup_offset_attributes attribute_start buffer_id gl).objects = gl.objects := rfl

theorem setup_instanced_mesh_effect (group_name : String) (mesh : Option Mesh)
    (attribute_start : Nat) (w : World) (group : InstanceGroup)
    (h : w.instancing.m_instance_groups.lookup group_name = some group) :
    (setup_instanced_mesh group_name mesh attribute_start w).1.instancing.m_instance_groups =
        (match mesh with
          | none => w.instancing.m_instance_groups
          | some _ => w.instancing.m_instance_groups.replace group_name
            (if group.buffer_id = 0 then create_instance_buffer group w.gl
              else if group.needs_update then update_instance_buffer group w.gl
              else (group, w.gl, Outcome.ok ())).1) ∧
    (setup_instanced_mesh group_name mesh attribute_start w).1.gl.objects =
        (match mesh with
          | none => w.gl.objects
          | some _ =>
            (if group.buffer_id = 0 then create_instance_buffer group w.gl
              else if group.needs_update then update_instance_buffer group w.gl
              else (group, w.gl, Outcome.ok ())).2.1.objects) := by
  unfold setup_instanced_mesh
  cases mesh with
  | none => exact ⟨rfl, rfl⟩
  | some mesh =>
    simp only [h]
    generalize (if group.buffer_id = 0 then create_instance_buffer group w.gl
      else if group.needs_update then update_instance_buffer group w.gl
      else (group, w.gl, Outcome.ok ())) = res
    obtain ⟨g2, gl2, out⟩ := res
    cases out with
    | fatal m => exact ⟨rfl, rfl⟩
    | threw m => exact ⟨rfl, rfl⟩
    | ok u =>
      dsimp only
      split
      · exact ⟨rfl, by
          simp only [GLState.objects_emit, objects_setup_matrix_attributes]⟩
      · exact ⟨rfl, by
          simp only [GLState.objects_emit, objects_setup_offset_attributes]⟩
      · exact ⟨rfl, rfl⟩

theorem buffers_held_setup (c : Nat) (group_name : String) (mesh : Option Mesh)
    (attribute_start : Nat) (w : World) (h : instance_buffers_held c w) :
    instance_buffers_held c (setup_instanced_mesh group_name mesh attribute_start w).1 := by
  cases hl : w.instancing.m_instance_groups.lookup group_name with
  | none =>
    have : (setup_instanced_mesh group_name mesh attribute_start w).1 = w := by
      unfold setup_instanced_mesh
      cases mesh with
      | none => rfl
      | some mesh => simp only [hl]
    rw [this]
    exact h
  | some group =>
    obtain ⟨e1, e2⟩ := setup_instanced_mesh_effect group_name mesh attribute_start w group hl
    cases mesh with
    | none =>
      simp only [GLState.objects, Prod.mk.injEq] at e2
      exact buffers_held_congr c w _ h e1 e2.2.2.2
    | some mesh =>
      simp only [] at e1 e2
      obtain ⟨c1, c2⟩ := create_instance_buffer_effect group w.gl
      obtain ⟨u1, u2⟩ := update_instance_buffer_effect group w.gl
      apply buffers_held_step c w _ group_name h
      · intro other hne
        rw [e1]
        exact UMap.lookup_replace_ne _ hne _
      · intro b hb hpos
        have hlook : ∀ g, (setup_instanced_mesh group_name (some mesh) attribute_start
            w).1.instancing.m_instance_groups.lookup group_name = some g ↔
            (if group.buffer_id = 0 then create_instance_buffer group w.gl
              else if group.needs_update then update_instance_buffer group w.gl
              else (group, w.gl, Outcome.ok ())).1 = g := by
          intro g
          rw [e1, UMap.lookup_replace_self, hl]
          simp
        by_cases hz : group.buffer_id = 0
        · rw [if_pos hz] at e2 hlook
          by_cases hd : group.data = none
          · obtain ⟨k1, k2⟩ := c1 hd
            rw [k2] at e2
            rw [k1] at hlook
            simp only [GLState.objects, Prod.mk.injEq] at e2
            left
            refine ⟨by rw [← e2.2.2.2]; exact hb, fun old ho hob => ?_⟩
            rw [hl] at ho
            cases ho
            exact ⟨group, (hlook group).mpr rfl, hob⟩
          · obtain ⟨k1, k2⟩ := c2 hd
            rw [k2] at e2
            simp only [GLState.objects, Prod.mk.injEq] at e2
            rw [e2.2.2.2] at hb
            rcases List.mem_cons.mp hb with rfl | hold
            · exact Or.inr ⟨_, (hlook _).mpr rfl, k1⟩
            · left
              refine ⟨hold, fun old ho hob => ?_⟩
              rw [hl] at ho
              cases ho
              omega
        · rw [if_neg hz] at e2 hlook
          have hsame : (if group.needs_update then update_instance_buffer group w.gl
              else (group, w.gl, Outcome.ok ())).1.buffer_id = group.buffer_id ∧
              (if group.needs_update then update_instance_buffer group w.gl
              else (group, w.gl, Outcome.ok ())).2.1.objects = w.gl.objects := by
            split
            · exact ⟨u1, u2⟩
            · exact ⟨rfl, rfl⟩
          rw [hsame.2] at e2
          simp only [GLState.objects, Prod.mk.injEq] at e2
          left
          refine ⟨by rw [← e2.2.2.2]; exact hb, fun old ho hob => ?_⟩
          rw [hl] at ho
          cases ho
          exact ⟨_, (hlook _).mpr rfl, by rw [hsame.1]; exact hob⟩

theorem buffers_held_terminate (c : Nat) (w : World) (h : instance_buffers_held c w) :
    created_since c (terminate w).gl.buffers = [] ∧ instance_buffers_held c (terminate w) := by
  obtain ⟨-, -, -, f4⟩ := foldl_destroy_instance_buffer w.instancing.m_instance_groups.entries
    (w.gl.emit (Event.spdlog LogLevel.info "InstancingController::terminate"))
  have hb : ∀ b ∈ (terminate w).gl.buffers, ¬ c < b := by
    intro b hbm hcb
    obtain ⟨m1, m2⟩ := (f4 b).mp hbm
    obtain ⟨n, g, hg, hgb⟩ := h b m1 hcb
    exact m2 ⟨n, g⟩ (AList.mem_lookup_iff.mp hg) (by simp only; omega) hgb.symm
  exact ⟨created_since_eq_nil _ _ (fun b hbm => Nat.le_of_not_lt (hb b hbm)),
    fun b hbm hcb => absurd hcb (hb b hbm)⟩

theorem buffers_held_api_call (c : Nat) (call : InstancingApiCall) (w : World)
    (h : instance_buffers_held c w) : instance_buffers_held c (call.run w) := by
  cases call with
  | group call =>
    cases call with
    | register_instance_group n d => exact buffers_held_register c n d w h
    | update_instance_group n d => exact buffers_held_update c n d w h
    | unregister_instance_group n => exact buffers_held_unregister c n w h
  | setup_instanced_mesh n mesh a => exact buffers_held_setup c n mesh a w h
  | draw_instanced n mesh =>
    obtain ⟨f1, f2⟩ := draw_instanced_frame n mesh w
    simp only [GLState.objects, Prod.mk.injEq] at f2
    exact buffers_held_congr c w _ h (by rw [InstancingApiCall.run, f1]) f2.2.2.2
  | draw_instanced_with_textures n mesh shader =>
    obtain ⟨f1, f2⟩ := draw_instanced_with_textures_frame n mesh shader w
    simp only [GLState.objects, Prod.mk.injEq] at f2
    exact buffers_held_congr c w _ h (by rw [InstancingApiCall.run, f1]) f2.2.2.2
  | terminate => exact (buffers_held_terminate c w h).2

theorem buffers_held_run (c : Nat) (calls : List InstancingApiCall) (w : World)
    (h : instance_buffers_held c w) :
    instance_buffers_held c (run_instancing_api_calls calls w) := by
  induction calls generalizing w with
  | nil => exact h
  | cons call rest ih => exact ih (call.run w) (buffers_held_api_call c call w h)

end InstancingController

/-- C17: after `terminate()` of `ShadowController` the light count is 0 and no name is a
registered light, and after `terminate()` of `InstancingController` no name is a registered
group; the non-zero depth cubemap and framebuffer of every light that was registered, and the
non-zero buffer of every group that was registered, are no longer live. Over whole runs: start
with freshly constructed controllers in a context whose live objects were all created before,
make any sequence of calls of the public interface of the controller (whether they return or
fail) and then call its `terminate()`: no texture, framebuffer or buffer created since the
start is live, so everything the controller created and had not already deleted has been
deleted. -/
theorem terminate_releases_everything (w : World) (gl : GLState) (env : Env)
    (shadow_calls : List ShadowApiCall) (instancing_calls : List InstancingApiCall) :
    ShadowController.get_light_count (ShadowController.terminate w) = 0 ∧
    (∀ name : String,
      ShadowController.is_light_registered name (ShadowController.terminate w) = false) ∧
    (∀ name : String,
      InstancingController.is_group_registered name (InstancingController.terminate w) = false) ∧
    (∀ (name : String) (shadow : PointLightShadow),
      w.shadow.m_point_lights.lookup name = some shadow →
      (shadow.depth_cubemap ≠ 0 →
        shadow.depth_cubemap ∉ (ShadowController.terminate w).gl.textures) ∧
      (shadow.framebuffer ≠ 0 →
        shadow.framebuffer ∉ (ShadowController.terminate w).gl.framebuffers)) ∧
    (∀ (name : String) (group : InstanceGroup),
      w.instancing.m_instance_groups.lookup name = some group →
      group.buffer_id ≠ 0 →
        group.buffer_id ∉ (InstancingController.terminate w).gl.buffers) ∧
    ((∀ t ∈ gl.textures, t ≤ gl.created) → (∀ f ∈ gl.framebuffers, f ≤ gl.created) →
      created_since gl.created
        (ShadowController.terminate
          (run_shadow_api_calls shadow_calls (World.initial gl env))).gl.textures = [] ∧
      created_since gl.created
        (ShadowController.terminate
          (run_shadow_api_calls shadow_calls (World.initial gl env))).gl.framebuffers = []) ∧
    ((∀ b ∈ gl.buffers, b ≤ gl.created) →
      created_since gl.created
        (InstancingController.terminate
          (run_instancing_api_calls instancing_calls (World.initial gl env))).gl.buffers = []) := by
  obtain ⟨-, -, f3, f4⟩ :=
    ShadowController.foldl_destroy_shadow_resources w.shadow.m_point_lights.entries
      (w.gl.emit (Event.spdlog LogLevel.info "ShadowController::terminate"))
  obtain ⟨-, -, -, g4⟩ :=
    InstancingController.foldl_destroy_instance_buffer w.instancing.m_instance_groups.entries
      (w.gl.emit (Event.spdlog LogLevel.info "InstancingController::terminate"))
  refine ⟨rfl, fun _ => rfl, fun _ => rfl, ?_, ?_, ?_, ?_⟩
  · intro name shadow hl
    have hmem := AList.mem_lookup_iff.mp hl
    exact ⟨fun hne hin => ((f3 _).mp hin).2 ⟨name, shadow⟩ hmem hne rfl,
      fun hne hin => ((f4 _).mp hin).2 ⟨name, shadow⟩ hmem hne rfl⟩
  · intro name group hl hne hin
    exact ((g4 _).mp hin).2 ⟨name, group⟩ (AList.mem_lookup_iff.mp hl) hne rfl
  · intro ht hf
    have hrun := ShadowController.held_run gl.created shadow_calls _
      (ShadowController.held_initial gl env gl.created ht hf)
    obtain ⟨t1, t2, -⟩ := ShadowController.held_terminate gl.created _ hrun
    exact ⟨t1, t2⟩
  · intro hb
    have hinit : instance_buffers_held gl.created (World.initial gl env) := by
      intro b hbm hcb
      have := hb b hbm
      omega
    exact (InstancingController.buffers_held_terminate gl.created _
      (InstancingController.buffers_held_run gl.created instancing_calls _ hinit)).1

/-- Witness of C17: after the teardown of the sample world its texture 1, framebuffer 2 and
buffer 3 are no longer live. -/
theorem terminate_releases_everything_witness :
    (sample_lit_world.shadow.m_point_lights.lookup "L" = some sample_shadow ∧
      sample_shadow.depth_cubemap ≠ 0 ∧ sample_shadow.framebuffer ≠ 0) ∧
    (sample_lit_world.instancing.m_instance_groups.lookup "g" = some sample_group ∧
      sample_group.buffer_id ≠ 0) ∧
    (∀ t ∈ sample_world.gl.textures, t ≤ sample_world.gl.created) ∧
    (∀ f ∈ sample_world.gl.framebuffers, f ≤ sample_world.gl.created) ∧
    (∀ b ∈ sample_world.gl.buffers, b ≤ sample_world.gl.created) ∧
    sample_shadow.depth_cubemap ∉ (ShadowController.terminate sample_lit_world).gl.textures ∧
    sample_shadow.framebuffer ∉ (ShadowController.terminate sample_lit_world).gl.framebuffers ∧
    sample_group.buffer_id ∉ (InstancingController.terminate sample_lit_world).gl.buffers ∧
    created_since sample_world.gl.created
      (ShadowController.terminate
        (run_shadow_api_calls
          [ShadowApiCall.light (ShadowCall.register_point_light "L" {}),
           ShadowApiCall.light
            (ShadowCall.render_shadows_for_light "L" (fun gl => ⟨[], gl.viewport, 0, 0, none⟩))]
          (World.initial sample_world.gl sample_world.env))).gl.textures = [] ∧
    created_since sample_world.gl.created
      (InstancingController.terminate
        (run_instancing_api_calls
          [InstancingApiCall.group
            (InstancingCall.register_instance_group "g" (some (InstancedData.offsets {})))]
          (World.initial sample_world.gl sample_world.env))).gl.buffers = [] :=
  ⟨⟨rfl, by decide, by decide⟩, ⟨rfl, by decide⟩, by decide, by decide, by decide,
    ((terminate_releases_everything sample_lit_world sample_world.gl sample_world.env [] []).2.2.2.1
      "L" sample_shadow rfl).1 (by decide),
    ((terminate_releases_everything sample_lit_world sample_world.gl sample_world.env [] []).2.2.2.1
      "L" sample_shadow rfl).2 (by decide),
    (terminate_releases_everything sample_lit_world sample_world.gl sample_world.env [] []).2.2.2.2.1
      "g" sample_group rfl (by decide),
    ((terminate_releases_everything sample_lit_world sample_world.gl sample_world.env
      [ShadowApiCall.light (ShadowCall.register_point_light "L" {}),
       ShadowApiCall.light
        (ShadowCall.render_shadows_for_light "L" (fun gl => ⟨[], gl.viewport, 0, 0, none⟩))]
      []).2.2.2.2.2.1 (by decide) (by decide)).1,
    (terminate_releases_everything sample_lit_world sample_world.gl sample_world.env []
      [InstancingApiCall.group
        (InstancingCall.register_instance_group "g" (some (InstancedData.offsets {})))]).2.2.2.2.2.2
      (by decide)⟩

/-! ## Facts about the paths through a shadow render -/

theorem emits_emit (es : List Event) (e : Event) (gl : GLState) :
    (gl.emits es).emit e = gl.emits (es ++ [e]) := by
  simp [GLState.emits, GLState.emit]

theorem emits_emits (es fs : List Event) (gl : GLState) :
    (gl.emits es).emits fs = gl.emits (es ++ fs) := by
  simp [GLState.emits]

theorem emit_eq_emits (e : Event) (gl : GLState) : gl.emit e = gl.emits [e] := rfl

theorem set_present (shader : Shader) (name : String) (e : Event) (gl : GLState)
    (h : name ∈ shader.uniforms) : shader.set name e gl = (gl.emit e, Outcome.ok ()) := by
  simp [Shader.set, h]

namespace ShadowController

theorem upload_shadow_matrices_present (shader : Shader) (shadow : PointLightShadow)
    (indices : List (Fin 6)) (gl : GLState)
    (h : ∀ i ∈ indices, ("shadowMatrices[" ++ toString i.val ++ "]") ∈ shader.uniforms) :
    upload_shadow_matrices shader shadow indices gl =
      (gl.emits (indices.map (fun i =>
        Event.set_mat4 shader.id ("shadowMatrices[" ++ toString i.val ++ "]")
          (shadow.shadow_transforms i))), Outcome.ok ()) := by
  induction indices generalizing gl with
  | nil => simp [upload_shadow_matrices, GLState.emits]
  | cons i rest ih =>
    have hi := h i (List.mem_cons_self _ _)
    have hrest := fun j hj => h j (List.mem_cons_of_mem _ hj)
    simp only [upload_shadow_matrices, and_then, Shader.set_mat4, set_present _ _ _ _ hi,
      ih _ hrest, emit_eq_emits, emits_emits, List.map_cons, List.singleton_append]

theorem uploads_present (shader : Shader) (shadow : PointLightShadow) (gl : GLState)
    (hm : ∀ i : Fin 6, ("shadowMatrices[" ++ toString i.val ++ "]") ∈ shader.uniforms)
    (hfar : "far_plane" ∈ shader.uniforms) (hpos : "lightPos" ∈ shader.uniforms) :
    and_then (upload_shadow_matrices shader shadow (List.finRange 6))
      (and_then (shader.set_float "far_plane" shadow.params.far_plane)
        (shader.set_vec3 "lightPos" shadow.params.position)) (gl.emit (Event.use shader.id)) =
      (gl.emits (shadow_pass_upload_events shader shadow), Outcome.ok ()) := by
  simp only [and_then, upload_shadow_matrices_present shader shadow _ _ (fun i _ => hm i),
    Shader.set_float, Shader.set_vec3, set_present _ _ _ _ hfar, set_present _ _ _ _ hpos,
    emit_eq_emits, emits_emits, shadow_pass_upload_events, List.append_assoc]
  rfl

theorem create_shadow_resources_trace (env : Env) (shadow : PointLightShadow) (gl : GLState) :
    (create_shadow_resources env shadow gl).2.1.trace =
      gl.trace ++ create_shadow_resources_events shadow.params.resolution gl.created ++
        (if env.framebuffer_complete (gl.created + 2) then
          [Event.glBindFramebuffer 0, Event.glBindTextureCubeMap 0] else []) ∧
    (create_shadow_resources env shadow gl).2.1.viewport = gl.viewport ∧
    (create_shadow_resources env shadow gl).2.1.framebuffer_binding =
      (if env.framebuffer_complete (gl.created + 2) then 0 else gl.created + 2) ∧
    (create_shadow_resources env shadow gl).2.2 =
      (if env.framebuffer_complete (gl.created + 2) then Outcome.ok ()
        else Outcome.fatal "Shadow framebuffer is not complete") := by
  unfold create_shadow_resources
  simp only [GLState.glGenTextures, GLState.glGenFramebuffers]
  by_cases h : env.framebuffer_complete (gl.created + 2) = true
  · simp [h, GLState.emit, GLState.emits, GLState.glBindFramebuffer,
      create_shadow_resources_events]
  · simp [h, GLState.emit, GLState.emits, GLState.glBindFramebuffer,
      create_shadow_resources_events]

end ShadowController

namespace ShadowController

/-- The lazy creation step of `render_shadows_for_light` when it succeeds: the entry, the
context and the outcome it yields. -/
theorem lazy_creation_result (w : World) (shadow : PointLightShadow)
    (hfb : shadow.framebuffer ≠ 0 ∨ w.env.framebuffer_complete (w.gl.created + 2) = true)
    (res : PointLightShadow × GLState × Outcome Unit)
    (hres : (if shadow.framebuffer = 0 then create_shadow_resources w.env shadow w.gl
      else (shadow, w.gl, Outcome.ok ())) = res) :
    res.1 = with_resources shadow w.gl.created ∧
    res.2.1.trace = w.gl.trace ++ lazy_creation_events shadow w.gl.created ∧
    res.2.2 = Outcome.ok () := by
  subst hres
  by_cases h0 : shadow.framebuffer = 0
  · have hc : w.env.framebuffer_complete (w.gl.created + 2) = true := by
      rcases hfb with h | h
      · exact absurd h0 h
      · exact h
    obtain ⟨t1, -, -, t4⟩ := create_shadow_resources_trace w.env shadow w.gl
    simp only [h0, if_true, with_resources, lazy_creation_events,
      create_shadow_resources_shadow, t1, t4, hc, List.append_assoc, and_self]
  · simp [h0, with_resources, lazy_creation_events]

end ShadowController

theorem to_GLsizei_of_lt (n : Nat) (h : n < 2 ^ 31) : to_GLsizei n = (n : Int) := by
  have h1 : n % 2 ^ 32 = n := Nat.mod_eq_of_lt (by omega)
  unfold to_GLsizei
  rw [h1, if_pos h]

/-- C20, the claim as stated, fails for the registered light "L" when the controller holds no
depth shader. If the resource lookup throws, the call does not log an error and return: it
fails with the fatal guarantee of `ensure_depth_shader`, and no error message is logged. If
the lookup yields null but the driver reports the new framebuffer incomplete, the call fails
with the fatal guarantee of `create_shadow_resources` before the shader is looked up, logs
nothing and leaves the viewport as it was. If the lookup yields null and the light's
resolution is 2^31, the call logs the error and returns, but the size it has passed to
`glViewport` is -2^31, so that the viewport is not at the light's resolution. -/
theorem render_with_throwing_lookup_is_fatal :
    ((ShadowController.render_shadows_for_light "L" (fun gl => ⟨[], gl.viewport, 0, 0, none⟩)
        { sample_registered_world with
          env := { framebuffer_complete := fun _ => true,
                   shader := fun _ => ShaderLookup.throws "missing" } }).2 =
        Outcome.fatal "Failed to load shadow depth shader: missing" ∧
      ((ShadowController.render_shadows_for_light "L" (fun gl => ⟨[], gl.viewport, 0, 0, none⟩)
        { sample_registered_world with
          env := { framebuffer_complete := fun _ => true,
                   shader := fun _ => ShaderLookup.throws "missing" } }).1.gl.trace.filter
        Event.is_error_log) = []) ∧
    ((ShadowController.render_shadows_for_light "L" (fun gl => ⟨[], gl.viewport, 0, 0, none⟩)
        { sample_registered_world with
          env := { framebuffer_complete := fun _ => false,
                   shader := fun _ => ShaderLookup.null } }).2 =
        Outcome.fatal "Shadow framebuffer is not complete" ∧
      ((ShadowController.render_shadows_for_light "L" (fun gl => ⟨[], gl.viewport, 0, 0, none⟩)
        { sample_registered_world with
          env := { framebuffer_complete := fun _ => false,
                   shader := fun _ => ShaderLookup.null } }).1.gl.trace.filter
        Event.is_error_log) = [] ∧
      (ShadowController.render_shadows_for_light "L" (fun gl => ⟨[], gl.viewport, 0, 0, none⟩)
        { sample_registered_world with
          env := { framebuffer_complete := fun _ => false,
                   shader := fun _ => ShaderLookup.null } }).1.gl.viewport = (0, 0, 800, 600)) ∧
    (sample_wide_world.shadow.m_point_lights.lookup "L" =
        some (registered_entry sample_wide_light_params) ∧
      sample_wide_world.env.shader "shadow_depth" = ShaderLookup.null ∧
      (ShadowController.render_shadows_for_light "L" (fun gl => ⟨[], gl.viewport, 0, 0, none⟩)
        sample_wide_world).2 = Outcome.ok () ∧
      Event.glViewport 0 0 (-2147483648) (-2147483648) ∈
        (ShadowController.render_shadows_for_light "L" (fun gl => ⟨[], gl.viewport, 0, 0, none⟩)
          sample_wide_world).1.gl.trace ∧
      (ShadowController.render_shadows_for_light "L" (fun gl => ⟨[], gl.viewport, 0, 0, none⟩)
        sample_wide_world).1.gl.viewport ≠ (0, 0, 2147483648, 2147483648)) := by
  refine ⟨⟨?_, ?_⟩, ⟨?_, ?_, ?_⟩,
    ⟨ShadowController.register_point_light_lookup "L" sample_wide_light_params sample_world,
      ?_, ?_, ?_, ?_⟩⟩ <;> decide

theorem no_callback_in_setup (shadow : PointLightShadow) (created : Nat) :
    (lazy_creation_events shadow created).filter Event.is_render_geometry = [] ∧
    (shadow_pass_setup_events (with_resources shadow created)).filter
      Event.is_render_geometry = [] := by
  constructor
  · unfold lazy_creation_events
    split
    · simp [create_shadow_resources_events, List.filter_eq_nil_iff, Event.is_render_geometry]
    · rfl
  · rfl

theorem no_error_log_in_setup (shadow : PointLightShadow) (created : Nat) :
    (lazy_creation_events shadow created).filter Event.is_error_log = [] ∧
    (shadow_pass_setup_events (with_resources shadow created)).filter
      Event.is_error_log = [] := by
  constructor
  · unfold lazy_creation_events
    split
    · simp [create_shadow_resources_events, List.filter_eq_nil_iff, Event.is_error_log]
    · rfl
  · rfl

/-- C20, amended: on a registered light whose resolution is below 2^31 and whose resources
exist or are created complete by the call, when the controller holds no depth shader: if the
resource lookup yields null, the call logs the error "Depth shader is null" and returns; if
the lookup throws, the call fails with the fatal guarantee of `ensure_depth_shader` and logs
no error. In both cases the calls issued are the lazy creation of the resources, the viewport,
the framebuffer bind and the depth clear, the callback is not invoked, and the viewport stays
at the light's resolution and the light's framebuffer stays bound. -/
theorem render_without_depth_shader (w : World) (light_name : String)
    (render_geometry : RenderGeometry) (shadow : PointLightShadow)
    (hl : w.shadow.m_point_lights.lookup light_name = some shadow)
    (hsize : shadow.params.resolution < 2 ^ 31)
    (hfb : shadow.framebuffer ≠ 0 ∨ w.env.framebuffer_complete (w.gl.created + 2) = true)
    (hnone : w.shadow.m_depth_shader = none) :
    (w.env.shader "shadow_depth" = ShaderLookup.null →
      (ShadowController.render_shadows_for_light light_name render_geometry w).2 =
        Outcome.ok () ∧
      (ShadowController.render_shadows_for_light light_name render_geometry w).1.gl.trace =
        w.gl.trace ++ lazy_creation_events shadow w.gl.created ++
          shadow_pass_setup_events (with_resources shadow w.gl.created) ++
          [Event.spdlog LogLevel.error "ShadowController: Depth shader is null!"] ∧
      (ShadowController.render_shadows_for_light light_name render_geometry
        w).1.gl.trace.filter Event.is_error_log =
        w.gl.trace.filter Event.is_error_log ++
          [Event.spdlog LogLevel.error "ShadowController: Depth shader is null!"]) ∧
    (∀ what : String, w.env.shader "shadow_depth" = ShaderLookup.throws what →
      (ShadowController.render_shadows_for_light light_name render_geometry w).2 =
        Outcome.fatal ("Failed to load shadow depth shader: " ++ what) ∧
      (ShadowController.render_shadows_for_light light_name render_geometry w).1.gl.trace =
        w.gl.trace ++ lazy_creation_events shadow w.gl.created ++
          shadow_pass_setup_events (with_resources shadow w.gl.created) ∧
      (ShadowController.render_shadows_for_light light_name render_geometry
        w).1.gl.trace.filter Event.is_error_log = w.gl.trace.filter Event.is_error_log) ∧
    (w.env.shader "shadow_depth" = ShaderLookup.null ∨
        (∃ what : String, w.env.shader "shadow_depth" = ShaderLookup.throws what) →
      (ShadowController.render_shadows_for_light light_name render_geometry
        w).1.gl.trace.filter Event.is_render_geometry =
        w.gl.trace.filter Event.is_render_geometry ∧
      (ShadowController.render_shadows_for_light light_name render_geometry w).1.gl.viewport =
        (0, 0, (shadow.params.resolution : Int), (shadow.params.resolution : Int)) ∧
      (ShadowController.render_shadows_for_light light_name render_geometry
        w).1.gl.framebuffer_binding = (with_resources shadow w.gl.created).framebuffer) ∧
    shadow_pass_setup_events (with_resources shadow w.gl.created) =
      [Event.glViewport 0 0 (shadow.params.resolution : Int) (shadow.params.resolution : Int),
        Event.glBindFramebuffer (with_resources shadow w.gl.created).framebuffer,
        Event.glClear] := by
  have hres : (with_resources shadow w.gl.created).params = shadow.params := by
    unfold with_resources
    split <;> rfl
  have hsz := to_GLsizei_of_lt shadow.params.resolution hsize
  obtain ⟨n1, n2⟩ := no_callback_in_setup shadow w.gl.created
  obtain ⟨m1, m2⟩ := no_error_log_in_setup shadow w.gl.created
  have hnull : w.env.shader "shadow_depth" = ShaderLookup.null →
      (ShadowController.render_shadows_for_light light_name render_geometry w).2 =
        Outcome.ok () ∧
      (ShadowController.render_shadows_for_light light_name render_geometry w).1.gl.trace =
        w.gl.trace ++ lazy_creation_events shadow w.gl.created ++
          shadow_pass_setup_events (with_resources shadow w.gl.created) ++
          [Event.spdlog LogLevel.error "ShadowController: Depth shader is null!"] := by
    intro hnull
    unfold ShadowController.render_shadows_for_light
    simp only [hl]
    generalize hcr : (if shadow.framebuffer = 0 then
      ShadowController.create_shadow_resources w.env shadow w.gl
        else (shadow, w.gl, Outcome.ok ())) = res
    obtain ⟨r1, r2, r3⟩ := ShadowController.lazy_creation_result w shadow hfb res hcr
    obtain ⟨sh2, gl2, out⟩ := res
    simp only at r1 r2 r3
    subst r1 r3
    simp [ShadowController.ensure_depth_shader, hnone, hnull, GLState.glViewport,
      GLState.glBindFramebuffer, GLState.emit, r2, shadow_pass_setup_events, hres]
  have hthrows : ∀ what : String, w.env.shader "shadow_depth" = ShaderLookup.throws what →
      (ShadowController.render_shadows_for_light light_name render_geometry w).2 =
        Outcome.fatal ("Failed to load shadow depth shader: " ++ what) ∧
      (ShadowController.render_shadows_for_light light_name render_geometry w).1.gl.trace =
        w.gl.trace ++ lazy_creation_events shadow w.gl.created ++
          shadow_pass_setup_events (with_resources shadow w.gl.created) := by
    intro what hthrows
    unfold ShadowController.render_shadows_for_light
    simp only [hl]
    generalize hcr : (if shadow.framebuffer = 0 then
      ShadowController.create_shadow_resources w.env shadow w.gl
        else (shadow, w.gl, Outcome.ok ())) = res
    obtain ⟨r1, r2, r3⟩ := ShadowController.lazy_creation_result w shadow hfb res hcr
    obtain ⟨sh2, gl2, out⟩ := res
    simp only at r1 r2 r3
    subst r1 r3
    simp [ShadowController.ensure_depth_shader, hnone, hthrows, GLState.glViewport,
      GLState.glBindFramebuffer, GLState.emit, r2, shadow_pass_setup_events, hres]
  refine ⟨?_, ?_, ?_, ?_⟩
  · intro h
    refine ⟨(hnull h).1, (hnull h).2, ?_⟩
    rw [(hnull h).2]
    simp only [List.filter_append, m1, m2, List.append_nil]
    rfl
  · intro what h
    refine ⟨(hthrows what h).1, (hthrows what h).2, ?_⟩
    rw [(hthrows what h).2]
    simp only [List.filter_append, m1, m2, List.append_nil]
  · intro hcase
    unfold ShadowController.render_shadows_for_light
    simp only [hl]
    generalize hcr : (if shadow.framebuffer = 0 then
      ShadowController.create_shadow_resources w.env shadow w.gl
        else (shadow, w.gl, Outcome.ok ())) = res
    obtain ⟨r1, r2, r3⟩ := ShadowController.lazy_creation_result w shadow hfb res hcr
    obtain ⟨sh2, gl2, out⟩ := res
    simp only at r1 r2 r3
    subst r1 r3
    rcases hcase with hnull | ⟨what, hthrows⟩
    · simp [ShadowController.ensure_depth_shader, hnone, hnull, GLState.glViewport,
        GLState.glBindFramebuffer, GLState.emit, r2, hres, hsz, List.filter_append, n1,
        Event.is_render_geometry]
    · simp [ShadowController.ensure_depth_shader, hnone, hthrows, GLState.glViewport,
        GLState.glBindFramebuffer, GLState.emit, r2, hres, hsz, List.filter_append, n1,
        Event.is_render_geometry]
  · simp only [shadow_pass_setup_events, hres, hsz]

/-- Witness of C20 as amended: the light "L" of the sample world, where the lookup yields
null. -/
theorem render_without_depth_shader_witness :
    sample_registered_world.shadow.m_point_lights.lookup "L" =
      some (registered_entry sample_light_params) ∧
    (registered_entry sample_light_params).params.resolution < 2 ^ 31 ∧
    sample_registered_world.env.framebuffer_complete (sample_registered_world.gl.created + 2) =
      true ∧
    sample_registered_world.shadow.m_depth_shader = none ∧
    sample_registered_world.env.shader "shadow_depth" = ShaderLookup.null ∧
    (ShadowController.render_shadows_for_light "L" (fun gl => ⟨[], gl.viewport, 0, 0, none⟩)
      sample_registered_world).2 = Outcome.ok () :=
  ⟨ShadowController.register_point_light_lookup "L" sample_light_params sample_world,
    by decide, rfl, rfl, rfl,
    ((render_without_depth_shader sample_registered_world "L"
      (fun gl => ⟨[], gl.viewport, 0, 0, none⟩) (registered_entry sample_light_params)
      (ShadowController.register_point_light_lookup "L" sample_light_params sample_world)
      (by decide) (Or.inr rfl) rfl).1 rfl).1⟩

/-- C18, the claim as stated, fails in four ways although the light "L" is registered and the
depth shader can be obtained. If the driver reports the new framebuffer incomplete, the call
fails with the fatal guarantee of `create_shadow_resources` before the viewport is set, and
the callback is not invoked. If the depth shader lacks the uniforms, the first setter throws,
the exception escapes before the callback, and the framebuffer binding is not reset to 0. If
the callback throws, as an empty `std::function` does, the exception escapes, no call
follows that of the callback, and the framebuffer binding is not reset to 0. If the light's
resolution is 2^31, the call returns, but the size it has passed to `glViewport` is -2^31,
and no call has set the viewport to the resolution. -/
theorem render_can_fail_before_the_callback :
    ((ShadowController.render_shadows_for_light "L" (fun gl => ⟨[], gl.viewport, 0, 0, none⟩)
        { sample_render_world with
          env := { framebuffer_complete := fun _ => false,
                   shader := fun _ => ShaderLookup.found sample_depth_shader } }).2 =
        Outcome.fatal "Shadow framebuffer is not complete" ∧
      (ShadowController.render_shadows_for_light "L" (fun gl => ⟨[], gl.viewport, 0, 0, none⟩)
        { sample_render_world with
          env := { framebuffer_complete := fun _ => false,
                   shader := fun _ => ShaderLookup.found sample_depth_shader } }).1.gl.viewport =
        (0, 0, 800, 600) ∧
      (ShadowController.render_shadows_for_light "L" (fun gl => ⟨[], gl.viewport, 0, 0, none⟩)
        { sample_render_world with
          env := { framebuffer_complete := fun _ => false,
                   shader := fun _ => ShaderLookup.found sample_depth_shader }
          }).1.gl.trace.filter Event.is_render_geometry = []) ∧
    ((ShadowController.render_shadows_for_light "L" (fun gl => ⟨[], gl.viewport, 0, 0, none⟩)
        { sample_render_world with
          env := { framebuffer_complete := fun _ => true,
                   shader := fun _ => ShaderLookup.found { id := 9, uniforms := [] } } }).2 =
        Outcome.threw "no uniform named shadowMatrices[0]" ∧
      (ShadowController.render_shadows_for_light "L" (fun gl => ⟨[], gl.viewport, 0, 0, none⟩)
        { sample_render_world with
          env := { framebuffer_complete := fun _ => true,
                   shader := fun _ => ShaderLookup.found { id := 9, uniforms := [] } }
          }).1.gl.framebuffer_binding = 2 ∧
      (ShadowController.render_shadows_for_light "L" (fun gl => ⟨[], gl.viewport, 0, 0, none⟩)
        { sample_render_world with
          env := { framebuffer_complete := fun _ => true,
                   shader := fun _ => ShaderLookup.found { id := 9, uniforms := [] } }
          }).1.gl.trace.filter Event.is_render_geometry = []) ∧
    ((ShadowController.render_shadows_for_light "L"
        (fun gl => ⟨[], gl.viewport, gl.framebuffer_binding, gl.array_buffer_binding,
          some "bad_function_call"⟩) sample_render_world).2 =
        Outcome.threw "bad_function_call" ∧
      (ShadowController.render_shadows_for_light "L"
        (fun gl => ⟨[], gl.viewport, gl.framebuffer_binding, gl.array_buffer_binding,
          some "bad_function_call"⟩) sample_render_world).1.gl.framebuffer_binding = 2 ∧
      (ShadowController.render_shadows_for_light "L"
        (fun gl => ⟨[], gl.viewport, gl.framebuffer_binding, gl.array_buffer_binding,
          some "bad_function_call"⟩) sample_render_world).1.gl.trace.getLast? =
        some Event.render_geometry) ∧
    ((ShadowController.render_shadows_for_light "L" (fun gl => ⟨[], gl.viewport, 0, 0, none⟩)
        { sample_wide_world with
          env := { framebuffer_complete := fun _ => true,
                   shader := fun _ => ShaderLookup.found sample_depth_shader } }).2 =
        Outcome.ok () ∧
      Event.glViewport 0 0 (-2147483648) (-2147483648) ∈
        (ShadowController.render_shadows_for_light "L" (fun gl => ⟨[], gl.viewport, 0, 0, none⟩)
          { sample_wide_world with
            env := { framebuffer_complete := fun _ => true,
                     shader := fun _ => ShaderLookup.found sample_depth_shader } }).1.gl.trace ∧
      Event.glViewport 0 0 2147483648 2147483648 ∉
        (ShadowController.render_shadows_for_light "L" (fun gl => ⟨[], gl.viewport, 0, 0, none⟩)
          { sample_wide_world with
            env := { framebuffer_complete := fun _ => true,
                     shader := fun _ => ShaderLookup.found sample_depth_shader } }).1.gl.trace) := by
  refine ⟨⟨?_, ?_, ?_⟩, ⟨?_, ?_, ?_⟩, ⟨?_, ?_, ?_⟩, ⟨?_, ?_, ?_⟩⟩ <;> decide

theorem no_callback_in_uploads (shader : Shader) (shadow : PointLightShadow) :
    (shadow_pass_upload_events shader shadow).filter Event.is_render_geometry = [] := by
  simp [shadow_pass_upload_events, List.filter_eq_nil_iff, Event.is_render_geometry]

/-- C18, amended: on a registered light whose resolution is below 2^31 and whose resources
exist or are created complete by the call, with a depth shader that the controller holds or
can obtain and that has the uniforms shadowMatrices[0..5], far_plane and lightPos, and with a
callback that returns, `render_shadows_for_light` returns, and after the lazy creation of the
resources it performs, in this order: the viewport set to (0, 0, resolution, resolution), the
light's framebuffer bound and the depth buffer cleared; `use()` and the uploads of
shadowMatrices[0..5] equal to the six stored transforms, of far_plane and of lightPos equal to
the light's parameters; the callback, invoked exactly once, in a context with that viewport
and framebuffer binding, after all the uploads; and `glBindFramebuffer(0)`, so that the
framebuffer binding is 0 on return. -/
theorem render_shadows_for_light_sequence (w : World) (light_name : String)
    (render_geometry : RenderGeometry) (shadow : PointLightShadow) (depth_shader : Shader)
    (hl : w.shadow.m_point_lights.lookup light_name = some shadow)
    (hsize : shadow.params.resolution < 2 ^ 31)
    (hfb : shadow.framebuffer ≠ 0 ∨ w.env.framebuffer_complete (w.gl.created + 2) = true)
    (hds : w.shadow.m_depth_shader = some depth_shader ∨
      (w.shadow.m_depth_shader = none ∧
        w.env.shader "shadow_depth" = ShaderLookup.found depth_shader))
    (hm : ∀ i : Fin 6, ("shadowMatrices[" ++ toString i.val ++ "]") ∈ depth_shader.uniforms)
    (hfar : "far_plane" ∈ depth_shader.uniforms) (hpos : "lightPos" ∈ depth_shader.uniforms)
    (hret : ∀ gl : GLState, (render_geometry gl).threw = none) :
    (ShadowController.render_shadows_for_light light_name render_geometry w).2 =
      Outcome.ok () ∧
    (with_resources shadow w.gl.created).shadow_transforms = shadow.shadow_transforms ∧
    (with_resources shadow w.gl.created).params = shadow.params ∧
    shadow_pass_setup_events (with_resources shadow w.gl.created) =
      [Event.glViewport 0 0 (shadow.params.resolution : Int) (shadow.params.resolution : Int),
        Event.glBindFramebuffer (with_resources shadow w.gl.created).framebuffer,
        Event.glClear] ∧
    (lazy_creation_events shadow w.gl.created ++
      shadow_pass_setup_events (with_resources shadow w.gl.created) ++
      shadow_pass_upload_events depth_shader (with_resources shadow w.gl.created)).filter
        Event.is_render_geometry = [] ∧
    ∃ before_callback : GLState,
      before_callback.trace =
        w.gl.trace ++ lazy_creation_events shadow w.gl.created ++
          shadow_pass_setup_events (with_resources shadow w.gl.created) ++
          shadow_pass_upload_events depth_shader (with_resources shadow w.gl.created) ∧
      before_callback.viewport =
        (0, 0, (shadow.params.resolution : Int), (shadow.params.resolution : Int)) ∧
      before_callback.framebuffer_binding = (with_resources shadow w.gl.created).framebuffer ∧
      (ShadowController.render_shadows_for_light light_name render_geometry w).1.gl.trace =
        before_callback.trace ++ Event.render_geometry ::
          (render_geometry before_callback).events ++ [Event.glBindFramebuffer 0] ∧
      (ShadowController.render_shadows_for_light light_name render_geometry
        w).1.gl.framebuffer_binding = 0 := by
  have hres : (with_resources shadow w.gl.created).params = shadow.params := by
    unfold with_resources
    split <;> rfl
  have htr : (with_resources shadow w.gl.created).shadow_transforms =
      shadow.shadow_transforms := by
    unfold with_resources
    split <;> rfl
  have hsz := to_GLsizei_of_lt shadow.params.resolution hsize
  obtain ⟨n1, n2⟩ := no_callback_in_setup shadow w.gl.created
  have n3 := no_callback_in_uploads depth_shader (with_resources shadow w.gl.created)
  refine ⟨?_, htr, hres, by simp only [shadow_pass_setup_events, hres, hsz],
    by simp only [List.filter_append, n1, n2, n3, List.append_nil], ?_⟩
  · unfold ShadowController.render_shadows_for_light
    simp only [hl]
    generalize hcr : (if shadow.framebuffer = 0 then
      ShadowController.create_shadow_resources w.env shadow w.gl
        else (shadow, w.gl, Outcome.ok ())) = res
    obtain ⟨r1, r2, r3⟩ := ShadowController.lazy_creation_result w shadow hfb res hcr
    obtain ⟨sh2, gl2, out⟩ := res
    simp only at r1 r2 r3
    subst r1 r3
    rcases hds with hheld | ⟨hnone, hfound⟩
    · simp only [ShadowController.ensure_depth_shader, hheld,
        ShadowController.uploads_present _ _ _ hm hfar hpos, invoke, hret]
    · simp only [ShadowController.ensure_depth_shader, hnone, hfound,
        ShadowController.uploads_present _ _ _ hm hfar hpos, invoke, hret]
  · unfold ShadowController.render_shadows_for_light
    simp only [hl]
    generalize hcr : (if shadow.framebuffer = 0 then
      ShadowController.create_shadow_resources w.env shadow w.gl
        else (shadow, w.gl, Outcome.ok ())) = res
    obtain ⟨r1, r2, r3⟩ := ShadowController.lazy_creation_result w shadow hfb res hcr
    obtain ⟨sh2, gl2, out⟩ := res
    simp only at r1 r2 r3
    subst r1 r3
    rcases hds with hheld | ⟨hnone, hfound⟩
    · simp only [ShadowController.ensure_depth_shader, hheld,
        ShadowController.uploads_present _ _ _ hm hfar hpos, invoke, hret]
      refine ⟨_, ?_, ?_, ?_, rfl, rfl⟩
      · simp [GLState.emits, GLState.emit, GLState.glViewport, GLState.glBindFramebuffer, r2,
          shadow_pass_setup_events, hres]
      · simp [GLState.emits, GLState.emit, GLState.glViewport, GLState.glBindFramebuffer, hres,
          hsz]
      · simp [GLState.emits, GLState.emit, GLState.glViewport, GLState.glBindFramebuffer]
    · simp only [ShadowController.ensure_depth_shader, hnone, hfound,
        ShadowController.uploads_present _ _ _ hm hfar hpos, invoke, hret]
      refine ⟨_, ?_, ?_, ?_, rfl, rfl⟩
      · simp [GLState.emits, GLState.emit, GLState.glViewport, GLState.glBindFramebuffer, r2,
          shadow_pass_setup_events, hres]
      · simp [GLState.emits, GLState.emit, GLState.glViewport, GLState.glBindFramebuffer, hres,
          hsz]
      · simp [GLState.emits, GLState.emit, GLState.glViewport, GLState.glBindFramebuffer]

/-- Witness of C18 as amended: the first render of the light "L" with the sample depth
shader and a callback that returns. -/
theorem render_shadows_for_light_sequence_witness :
    sample_render_world.shadow.m_point_lights.lookup "L" =
      some (registered_entry sample_light_params) ∧
    (registered_entry sample_light_params).params.resolution < 2 ^ 31 ∧
    sample_render_world.env.framebuffer_complete (sample_render_world.gl.created + 2) = true ∧
    (sample_render_world.shadow.m_depth_shader = none ∧
      sample_render_world.env.shader "shadow_depth" = ShaderLookup.found sample_depth_shader) ∧
    (∀ i : Fin 6, ("shadowMatrices[" ++ toString i.val ++ "]") ∈ sample_depth_shader.uniforms) ∧
    "far_plane" ∈ sample_depth_shader.uniforms ∧
    "lightPos" ∈ sample_depth_shader.uniforms ∧
    (ShadowController.render_shadows_for_light "L" (fun gl => ⟨[], gl.viewport, 0, 0, none⟩)
      sample_render_world).2 = Outcome.ok () :=
  ⟨ShadowController.register_point_light_lookup "L" sample_light_params sample_world,
    by decide, rfl, ⟨rfl, rfl⟩, by decide, by decide, by decide,
    (render_shadows_for_light_sequence sample_render_world "L"
      (fun gl => ⟨[], gl.viewport, 0, 0, none⟩) (registered_entry sample_light_params)
      sample_depth_shader
      (ShadowController.register_point_light_lookup "L" sample_light_params sample_world)
      (by decide) (Or.inr rfl) (Or.inr ⟨rfl, rfl⟩) (by decide) (by decide) (by decide)
      (fun _ => rfl)).1⟩


/-! ## Facts about the guarded uploads of `bind_shadow_maps` -/

namespace ShadowController

theorem try_set_trace (shader : Shader) (name : String) (e : Event) (message : String)
    (gl : GLState) :
    try_set (shader.set name e) message gl = gl.emits [guarded_upload shader name e message] := by
  unfold try_set Shader.set guarded_upload
  by_cases h : name ∈ shader.uniforms
  · simp [h, GLState.emit, GLState.emits]
  · simp [h, GLState.emit, GLState.emits]

theorem bind_shadow_map_trace (shader : Shader) (shadow_strength : ℚ)
    (shadow : PointLightShadow) (gl : GLState) :
    bind_shadow_map shader shadow_strength shadow gl =
      gl.emits (Event.glActiveTexture 1 :: Event.glBindTextureCubeMap shadow.depth_cubemap ::
        shadow_map_attempts shader shadow_strength shadow) := by
  unfold bind_shadow_map shadow_map_attempts Shader.set_int Shader.set_vec3 Shader.set_float
  simp only [try_set_trace, emit_eq_emits, emits_emits]
  rfl

theorem bind_shadow_maps_loop_trace (shader : Shader) (shadow_strength : ℚ)
    (entries : List (Sigma fun _ : String => PointLightShadow)) (gl : GLState) :
    bind_shadow_maps_loop shader shadow_strength entries gl =
      gl.emits (skipped_light_warnings entries ++
        (match entries.find? (fun entry => entry.2.depth_cubemap != 0) with
          | none => []
          | some entry =>
            Event.glActiveTexture 1 :: Event.glBindTextureCubeMap entry.2.depth_cubemap ::
              shadow_map_attempts shader shadow_strength entry.2)) := by
  induction entries generalizing gl with
  | nil => simp [bind_shadow_maps_loop, skipped_light_warnings, GLState.emits]
  | cons entry rest ih =>
    obtain ⟨light_name, shadow⟩ := entry
    by_cases h0 : shadow.depth_cubemap = 0
    · simp only [bind_shadow_maps_loop, h0, if_true, List.find?_cons, bne_self_eq_false, ih,
        emit_eq_emits, emits_emits, skipped_light_warnings, List.takeWhile_cons, beq_self_eq_true,
        List.map_cons, List.cons_append, List.nil_append]
    · have hb : (shadow.depth_cubemap != 0) = true := by simpa using h0
      have hc : (shadow.depth_cubemap == 0) = false := by simpa using h0
      simp only [bind_shadow_maps_loop, h0, if_false, List.find?_cons, hb,
        skipped_light_warnings, List.takeWhile_cons, hc, List.map_nil, List.nil_append]
      exact bind_shadow_map_trace shader shadow_strength shadow gl

end ShadowController
/-- C21: for a non-null shader `bind_shadow_maps` returns to the caller whichever of the four
uniform setters fail, and what it adds to the trace is: the warnings for the skipped lights
and, for the chosen light (the first whose depth cubemap exists), the selection of texture
unit 1, the bind of its cubemap and then one event for each of depthMap, lightPos, far_plane
and shadowStrength, in this order: the upload if the uniform exists in the shader, the logged
error of the `catch` otherwise. So all four uploads are attempted: the uploads performed are
those of the uniforms that exist, and the errors logged are as many as the uniforms that are
missing. -/
theorem bind_shadow_maps_attempts_every_upload (w : World) (shader : Shader)
    (shadow_strength : ℚ) (shadow : PointLightShadow) :
    (ShadowController.bind_shadow_maps (some shader) shadow_strength w).2 = Outcome.ok () ∧
    (ShadowController.bind_shadow_maps (some shader) shadow_strength w).1.gl.trace =
      w.gl.trace ++ (skipped_light_warnings w.shadow.m_point_lights.entries ++
        (match first_ready_light w with
          | none => []
          | some entry =>
            Event.glActiveTexture 1 :: Event.glBindTextureCubeMap entry.2.depth_cubemap ::
              shadow_map_attempts shader shadow_strength entry.2)) ∧
    (shadow_map_attempts shader shadow_strength shadow).length = 4 ∧
    (shadow_map_attempts shader shadow_strength shadow).filter Event.is_bind_or_upload =
      shadow_map_uploads shader shadow_strength shadow ∧
    ((shadow_map_attempts shader shadow_strength shadow).filter Event.is_error_log).length =
      (["depthMap", "lightPos", "far_plane", "shadowStrength"].filter
        (fun name => decide (name ∉ shader.uniforms))).length := by
  refine ⟨rfl, ?_, rfl, ?_, ?_⟩
  · simp only [ShadowController.bind_shadow_maps,
      ShadowController.bind_shadow_maps_loop_trace, GLState.emits, first_ready_light]
  · unfold shadow_map_attempts shadow_map_uploads guarded_upload
    by_cases h1 : "depthMap" ∈ shader.uniforms <;> by_cases h2 : "lightPos" ∈ shader.uniforms <;>
      by_cases h3 : "far_plane" ∈ shader.uniforms <;>
      by_cases h4 : "shadowStrength" ∈ shader.uniforms <;>
      simp [h1, h2, h3, h4, Event.is_bind_or_upload]
  · unfold shadow_map_attempts guarded_upload
    by_cases h1 : "depthMap" ∈ shader.uniforms <;> by_cases h2 : "lightPos" ∈ shader.uniforms <;>
      by_cases h3 : "far_plane" ∈ shader.uniforms <;>
      by_cases h4 : "shadowStrength" ∈ shader.uniforms <;>
      simp [h1, h2, h3, h4, Event.is_error_log]

/-! ## Facts about the per-instance vertex attributes -/

namespace InstancingController

theorem attribute_setup_emit (e : Event) (gl : GLState) :
    attribute_setup (gl.emit e).trace =
      attribute_setup gl.trace ++ (if e.is_attribute_setup then [e] else []) := by
  unfold attribute_setup GLState.emit
  by_cases h : e.is_attribute_setup = true
  · simp [List.filter_append, h]
  · simp [List.filter_append, h]

/-- The buffer of a group is created or refreshed before the attributes are configured: the
payload stays, no attribute is configured, and with a payload present the step returns. -/
theorem prepare_buffer_result (group : InstanceGroup) (gl : GLState)
    (res : InstanceGroup × GLState × Outcome Unit)
    (h : (if group.buffer_id = 0 then create_instance_buffer group gl
      else if group.needs_update then update_instance_buffer group gl
      else (group, gl, Outcome.ok ())) = res) :
    res.1.data = group.data ∧
    attribute_setup res.2.1.trace = attribute_setup gl.trace ∧
    (group.data ≠ none → res.2.2 = Outcome.ok ()) ∧
    (res.2.2 = Outcome.ok () ∨ ∃ message, res.2.2 = Outcome.fatal message) := by
  subst h
  cases hd : group.data with
  | none =>
    by_cases hb : group.buffer_id = 0
    · simp [hb, create_instance_buffer, hd]
    · by_cases hn : group.needs_update = true
      · simp [hb, hn, update_instance_buffer, hd]
      · simp [hb, hn, hd]
  | some data =>
    by_cases hb : group.buffer_id = 0
    · simp [hb, create_instance_buffer, hd, GLState.glGenBuffers, GLState.glBindBuffer,
        GLState.glBufferData, GLState.emit, attribute_setup, List.filter_append,
        Event.is_attribute_setup]
    · by_cases hn : group.needs_update = true
      · simp [hb, hn, update_instance_buffer, hd, GLState.glBindBuffer,
          GLState.glBufferData, GLState.emit, attribute_setup, List.filter_append,
          Event.is_attribute_setup]
      · simp [hb, hn, hd]

theorem setup_matrix_attributes_trace (attribute_start buffer_id : Nat) (gl : GLState)
    (h : attribute_start + 3 < 2 ^ 32) :
    attribute_setup (setup_matrix_attributes attribute_start buffer_id gl).trace =
      attribute_setup gl.trace ++
        (instanced_attribute attribute_start 4 64 0 ++
          instanced_attribute (attribute_start + 1) 4 64 16 ++
          instanced_attribute (attribute_start + 2) 4 64 32 ++
          instanced_attribute (attribute_start + 3) 4 64 48) := by
  have h0 : attribute_start % 4294967296 = attribute_start := Nat.mod_eq_of_lt (by omega)
  have h1 : (attribute_start + 1) % 4294967296 = attribute_start + 1 :=
    Nat.mod_eq_of_lt (by omega)
  have h2 : (attribute_start + 2) % 4294967296 = attribute_start + 2 :=
    Nat.mod_eq_of_lt (by omega)
  have h3 : (attribute_start + 3) % 4294967296 = attribute_start + 3 :=
    Nat.mod_eq_of_lt (by omega)
  simp [setup_matrix_attributes, List.range_succ, GLState.glBindBuffer, GLState.emit,
    attribute_setup, List.filter_append, Event.is_attribute_setup, instanced_attribute,
    h0, h1, h2, h3]

theorem setup_offset_attributes_trace (attribute_start buffer_id : Nat) (gl : GLState) :
    attribute_setup (setup_offset_attributes attribute_start buffer_id gl).trace =
      attribute_setup gl.trace ++ instanced_attribute attribute_start 2 8 0 := by
  simp [setup_offset_attributes, GLState.glBindBuffer, GLState.emit,
    attribute_setup, List.filter_append, Event.is_attribute_setup, instanced_attribute]

end InstancingController

/-- C22, the claim as stated, fails at `attribute_start` = 4294967295 for the group "g" of three
matrices: the location is the `uint32_t` sum `attribute_start + i`, which wraps around, so the
four attributes configured are 4294967295, 0, 1 and 2, not 4294967295 .. 4294967298. -/
theorem setup_instanced_mesh_locations_wrap :
    (InstancingController.setup_instanced_mesh "g" (some { vao := 7, num_indices := 6 })
      4294967295 sample_lit_world).2 = Outcome.ok () ∧
    attribute_setup (InstancingController.setup_instanced_mesh "g"
      (some { vao := 7, num_indices := 6 }) 4294967295 sample_lit_world).1.gl.trace =
      instanced_attribute 4294967295 4 64 0 ++ instanced_attribute 0 4 64 16 ++
        instanced_attribute 1 4 64 32 ++ instanced_attribute 2 4 64 48 ∧
    Event.glEnableVertexAttribArray (4294967295 + 1) ∉
      (InstancingController.setup_instanced_mesh "g"
        (some { vao := 7, num_indices := 6 }) 4294967295 sample_lit_world).1.gl.trace := by
  refine ⟨?_, ?_, ?_⟩ <;> decide

/-- C22, amended: for a registered group and a non-null mesh, `setup_instanced_mesh` with a
matrix payload and `attribute_start + 3 < 2^32` returns and configures exactly the four
locations `attribute_start + i` (i = 0..3), in this order, each with 4 float components, stride
64 bytes, byte offset 16*i and divisor 1; with a payload of 2D offsets it returns and configures
exactly the one location `attribute_start` with 2 float components, stride 8 bytes, offset 0
and divisor 1; with a payload of any other kind, or none, it fails with the fatal guarantee and
configures no attribute. -/
theorem setup_instanced_mesh_attributes (w : World) (group_name : String) (mesh : Mesh)
    (attribute_start : Nat) (group : InstanceGroup)
    (h : w.instancing.m_instance_groups.lookup group_name = some group) :
    (∀ payload, group.data = some (InstancedData.transforms payload) →
      attribute_start + 3 < 2 ^ 32 →
      (InstancingController.setup_instanced_mesh group_name (some mesh) attribute_start w).2 =
        Outcome.ok () ∧
      attribute_setup (InstancingController.setup_instanced_mesh group_name (some mesh)
          attribute_start w).1.gl.trace =
        attribute_setup w.gl.trace ++
          (instanced_attribute attribute_start 4 64 0 ++
            instanced_attribute (attribute_start + 1) 4 64 16 ++
            instanced_attribute (attribute_start + 2) 4 64 32 ++
            instanced_attribute (attribute_start + 3) 4 64 48)) ∧
    (∀ payload, group.data = some (InstancedData.offsets payload) →
      (InstancingController.setup_instanced_mesh group_name (some mesh) attribute_start w).2 =
        Outcome.ok () ∧
      attribute_setup (InstancingController.setup_instanced_mesh group_name (some mesh)
          attribute_start w).1.gl.trace =
        attribute_setup w.gl.trace ++ instanced_attribute attribute_start 2 8 0) ∧
    ((∀ payload, group.data ≠ some (InstancedData.transforms payload)) →
      (∀ payload, group.data ≠ some (InstancedData.offsets payload)) →
      (∃ message, (InstancingController.setup_instanced_mesh group_name (some mesh)
          attribute_start w).2 = Outcome.fatal message) ∧
      attribute_setup (InstancingController.setup_instanced_mesh group_name (some mesh)
          attribute_start w).1.gl.trace = attribute_setup w.gl.trace) := by
  unfold InstancingController.setup_instanced_mesh
  simp only [h]
  generalize hres : (if group.buffer_id = 0 then
      InstancingController.create_instance_buffer group w.gl
    else if group.needs_update then InstancingController.update_instance_buffer group w.gl
    else (group, w.gl, Outcome.ok ())) = res
  obtain ⟨r1, r2, r3, r4⟩ := InstancingController.prepare_buffer_result group w.gl res hres
  obtain ⟨g2, gl2, out⟩ := res
  dsimp only at r1 r2 r3 r4
  refine ⟨?_, ?_, ?_⟩
  · intro payload hd hlt
    have hok := r3 (by rw [hd]; exact Option.some_ne_none _)
    subst hok
    rw [hd] at r1
    simp only [r1, InstancingController.attribute_setup_emit,
      InstancingController.setup_matrix_attributes_trace _ _ _ hlt, r2,
      Event.is_attribute_setup, Bool.false_eq_true, if_false, List.append_nil, and_self]
  · intro payload hd
    have hok := r3 (by rw [hd]; exact Option.some_ne_none _)
    subst hok
    rw [hd] at r1
    simp only [r1, InstancingController.attribute_setup_emit,
      InstancingController.setup_offset_attributes_trace, r2,
      Event.is_attribute_setup, Bool.false_eq_true, if_false, List.append_nil, and_self]
  · intro ht ho
    rcases r4 with hok | ⟨message, hf⟩
    · subst hok
      rw [← r1] at ht ho
      cases hd : g2.data with
      | none =>
        simp only [InstancingController.attribute_setup_emit, r2, Event.is_attribute_setup,
          Bool.false_eq_true, if_false, List.append_nil, and_true]
        exact ⟨_, rfl⟩
      | some data =>
        cases data with
        | transforms payload => exact absurd hd (ht payload)
        | offsets payload => exact absurd hd (ho payload)
        | other size stride =>
          simp only [InstancingController.attribute_setup_emit, r2, Event.is_attribute_setup,
            Bool.false_eq_true, if_false, List.append_nil, and_true]
          exact ⟨_, rfl⟩
    · subst hf
      exact ⟨⟨message, rfl⟩, r2⟩

/-- Witness of C22 as amended: the group "g" of three matrices of the sample world, set up
from location 5. -/
theorem setup_instanced_mesh_attributes_witness :
    sample_lit_world.instancing.m_instance_groups.lookup "g" = some sample_group ∧
    sample_group.data = some (InstancedData.transforms { transforms := [1, 1, 1] }) ∧
    5 + 3 < 2 ^ 32 ∧
    attribute_setup (InstancingController.setup_instanced_mesh "g"
        (some { vao := 7, num_indices := 6 }) 5 sample_lit_world).1.gl.trace =
      attribute_setup sample_lit_world.gl.trace ++
        (instanced_attribute 5 4 64 0 ++ instanced_attribute (5 + 1) 4 64 16 ++
          instanced_attribute (5 + 2) 4 64 32 ++ instanced_attribute (5 + 3) 4 64 48) :=
  ⟨rfl, rfl, by decide,
    ((setup_instanced_mesh_attributes sample_lit_world "g" { vao := 7, num_indices := 6 } 5
      sample_group rfl).1 { transforms := [1, 1, 1] } rfl (by decide)).2⟩

/-! ## Facts about decimal numerals and the texture loop -/

theorem digitChar_value (d : Nat) (h : d < 10) : (Nat.digitChar d).toNat - 48 = d := by
  interval_cases d <;> rfl

theorem foldl_toDigitsCore (fuel n : Nat) (ds : List Char) (h : n < fuel) :
    (Nat.toDigitsCore 10 fuel n ds).foldl (fun acc c => 10 * acc + (c.toNat - 48)) 0 =
      ds.foldl (fun acc c => 10 * acc + (c.toNat - 48)) n := by
  induction fuel generalizing n ds with
  | zero => omega
  | succ fuel ih =>
    unfold Nat.toDigitsCore
    simp only []
    by_cases h0 : n / 10 = 0
    · simp only [h0, if_true, List.foldl_cons, Nat.mul_zero, Nat.zero_add]
      rw [digitChar_value _ (Nat.mod_lt _ (by decide))]
      have : n % 10 = n := Nat.mod_eq_of_lt (by omega)
      rw [this]
    · simp only [h0, if_false]
      rw [ih (n / 10) _ (by omega), List.foldl_cons,
        digitChar_value _ (Nat.mod_lt _ (by decide))]
      have : 10 * (n / 10) + n % 10 = n := Nat.div_add_mod n 10
      rw [this]

theorem decimal_value_toString (n : Nat) : decimal_value (toString n).data = n := by
  show decimal_value (Nat.repr n).data = n
  unfold Nat.repr Nat.toDigits decimal_value
  simp only [List.asString]
  rw [foldl_toDigitsCore _ _ _ (by omega)]
  rfl

theorem toString_injective (a b : Nat) (h : toString a = toString b) : a = b := by
  have := congrArg (fun s => decimal_value s.data) h
  simpa only [decimal_value_toString] using this

theorem append_toString_injective (s : String) (a b : Nat)
    (h : s ++ toString a = s ++ toString b) : a = b := by
  apply toString_injective
  have := congrArg String.data h
  rw [String.data_append, String.data_append] at this
  exact String.ext (List.append_cancel_left this)

theorem texture_rank_append (before : List Texture) (texture : Texture) (after : List Texture)
    (convention : String) :
    texture_rank (before ++ texture :: after) before.length convention =
      (before.filter (fun t => t.uniform_name_convention == convention)).length +
        (if texture.uniform_name_convention = convention then 1 else 0) := by
  unfold texture_rank
  have : (before ++ texture :: after).take (before.length + 1) = before ++ [texture] := by
    rw [List.take_append_eq_append_take]
    simp
  rw [this, List.filter_append, List.length_append]
  by_cases h : texture.uniform_name_convention = convention
  · simp [h]
  · simp [h]

theorem split_at_index {α : Type} (l : List α) (k : Nat) (a : α) (h : l[k]? = some a) :
    ∃ rest : List α, l = l.take k ++ a :: rest := by
  have hlt : k < l.length := by
    by_contra hge
    rw [List.getElem?_eq_none (by omega)] at h
    cases h
  refine ⟨l.drop (k + 1), ?_⟩
  have hget : l[k] = a := by
    rw [List.getElem?_eq_getElem hlt] at h
    exact Option.some.inj h
  rw [← hget, ← List.drop_eq_getElem_cons hlt, List.take_append_drop]

namespace InstancingController

/-- The texture loop from a texture on, when the uniform names of the remaining textures exist
in the shader: `before` are the textures already handled. -/
theorem bind_mesh_textures_trace (shader : Shader) (before after : List Texture) (gl : GLState)
    (h : ∀ (i : Nat) (texture : Texture), (before ++ after)[i]? = some texture →
      before.length ≤ i →
      texture_uniform_name (before ++ after) i texture ∈ shader.uniforms) :
    bind_mesh_textures shader after before.length
        (fun convention =>
          (before.filter (fun t => t.uniform_name_convention == convention)).length) gl =
      (gl.emits ((after.enumFrom before.length).flatMap (fun entry =>
        texture_round shader (before ++ after) entry.1 entry.2)), Outcome.ok ()) := by
  induction after generalizing before gl with
  | nil => simp [bind_mesh_textures, GLState.emits]
  | cons texture rest ih =>
    have hname : texture_uniform_name (before ++ texture :: rest) before.length texture =
        "" ++ texture.uniform_name_convention ++ toString
          ((before.filter (fun t =>
            t.uniform_name_convention == texture.uniform_name_convention)).length + 1) := by
      unfold texture_uniform_name
      rw [texture_rank_append]
      simp
    have hmem := h before.length texture
      (by rw [List.getElem?_append_right (Nat.le_refl _)]; simp) (Nat.le_refl _)
    have hcounts : (fun key => if key = texture.uniform_name_convention then
          (before.filter (fun t =>
            t.uniform_name_convention == texture.uniform_name_convention)).length + 1
        else (before.filter (fun t => t.uniform_name_convention == key)).length) =
        (fun convention => ((before ++ [texture]).filter
          (fun t => t.uniform_name_convention == convention)).length) := by
      funext key
      by_cases hk : key = texture.uniform_name_convention
      · subst hk
        simp [List.filter_append]
      · have hk2 : ¬ texture.uniform_name_convention = key := fun e => hk e.symm
        simp [List.filter_append, hk, hk2]
    have hstep := fun gl1 => ih (before ++ [texture]) gl1 (by
      intro i t hi hle
      have e : before ++ [texture] ++ rest = before ++ texture :: rest := by simp
      rw [e] at hi ⊢
      exact h i t hi (by simp at hle; omega))
    have e : before ++ [texture] ++ rest = before ++ texture :: rest := by simp
    simp only [e, List.length_append, List.length_singleton] at hstep
    rw [hname] at hmem
    unfold bind_mesh_textures
    simp only [Shader.set_int, Shader.set, hmem, if_true, hcounts, hstep]
    simp only [List.enumFrom_cons, List.flatMap_cons, texture_round, hname, emit_eq_emits,
      emits_emits]
    rfl

/-- The texture loop from a texture on, when the uniform names of the textures `mid` exist in
the shader and that of the next texture does not: the rounds of `mid` are completed, the
texture unit of the next texture is selected, and the exception of its upload ends the loop.
`before` are the textures already handled. -/
theorem bind_mesh_textures_stops (shader : Shader) (mid : List Texture) (failing : Texture)
    (rest before : List Texture) (gl : GLState)
    (h : ∀ (i : Nat) (texture : Texture),
      (before ++ (mid ++ failing :: rest))[i]? = some texture →
      before.length ≤ i → i < before.length + mid.length →
      texture_uniform_name (before ++ (mid ++ failing :: rest)) i texture ∈ shader.uniforms)
    (hf : texture_uniform_name (before ++ (mid ++ failing :: rest))
      (before.length + mid.length) failing ∉ shader.uniforms) :
    bind_mesh_textures shader (mid ++ failing :: rest) before.length
        (fun convention =>
          (before.filter (fun t => t.uniform_name_convention == convention)).length) gl =
      ((gl.emits ((mid.enumFrom before.length).flatMap (fun entry =>
          texture_round shader (before ++ (mid ++ failing :: rest)) entry.1 entry.2))).emit
          (Event.glActiveTexture (before.length + mid.length)),
        Outcome.threw ("no uniform named " ++
          texture_uniform_name (before ++ (mid ++ failing :: rest))
            (before.length + mid.length) failing)) := by
  induction mid generalizing before gl with
  | nil =>
    have hname : texture_uniform_name (before ++ failing :: rest) before.length failing =
        "" ++ failing.uniform_name_convention ++ toString
          ((before.filter (fun t =>
            t.uniform_name_convention == failing.uniform_name_convention)).length + 1) := by
      unfold texture_uniform_name
      rw [texture_rank_append]
      simp
    simp only [List.nil_append, List.length_nil, Nat.add_zero] at hf ⊢
    rw [hname] at hf
    unfold bind_mesh_textures
    simp only [Shader.set_int, Shader.set, hf, if_false, hname]
    simp [GLState.emits, GLState.emit]
  | cons texture mid ih =>
    have hname : texture_uniform_name (before ++ texture :: (mid ++ failing :: rest))
        before.length texture =
        "" ++ texture.uniform_name_convention ++ toString
          ((before.filter (fun t =>
            t.uniform_name_convention == texture.uniform_name_convention)).length + 1) := by
      unfold texture_uniform_name
      rw [texture_rank_append]
      simp
    have hmem := h before.length texture
      (by rw [List.getElem?_append_right (Nat.le_refl _)]; simp) (Nat.le_refl _)
      (by simp)
    have hcounts : (fun key => if key = texture.uniform_name_convention then
          (before.filter (fun t =>
            t.uniform_name_convention == texture.uniform_name_convention)).length + 1
        else (before.filter (fun t => t.uniform_name_convention == key)).length) =
        (fun convention => ((before ++ [texture]).filter
          (fun t => t.uniform_name_convention == convention)).length) := by
      funext key
      by_cases hk : key = texture.uniform_name_convention
      · subst hk
        simp [List.filter_append]
      · have hk2 : ¬ texture.uniform_name_convention = key := fun e => hk e.symm
        simp [List.filter_append, hk, hk2]
    have e : before ++ [texture] ++ (mid ++ failing :: rest) =
        before ++ texture :: (mid ++ failing :: rest) := by simp
    have hlen : (before ++ [texture]).length + mid.length =
        before.length + (texture :: mid).length := by
      simp only [List.length_append, List.length_singleton, List.length_cons, List.length_nil]
      omega
    have hstep := fun gl1 => ih (before ++ [texture]) gl1 (by
      intro i t hi hle hlt
      rw [e] at hi ⊢
      exact h i t hi (by simp at hle; omega) (by rw [hlen] at hlt; exact hlt)) (by
      rw [e, hlen]
      exact hf)
    simp only [e, hlen] at hstep
    simp only [List.length_append, List.length_singleton] at hstep
    simp only [List.cons_append] at hmem hname ⊢
    rw [hname] at hmem
    unfold bind_mesh_textures
    simp only [Shader.set_int, Shader.set, hmem, if_true, hcounts, hstep]
    simp only [List.enumFrom_cons, List.flatMap_cons, texture_round, hname, emit_eq_emits,
      emits_emits]
    rfl

end InstancingController

theorem texture_rank_lt (textures : List Texture) (i j : Nat) (texture : Texture)
    (hij : i < j) (hj : textures[j]? = some texture) :
    texture_rank textures i texture.uniform_name_convention <
      texture_rank textures j texture.uniform_name_convention := by
  unfold texture_rank
  have h1 : textures.take (j + 1) = textures.take j ++ [texture] := by
    rw [List.take_succ, hj]
    rfl
  have h2 : textures.take (i + 1) = (textures.take j).take (i + 1) := by
    rw [List.take_take, Nat.min_eq_left (by omega)]
  rw [h1, List.filter_append, List.length_append, h2]
  have h3 := ((List.take_sublist (i + 1) (textures.take j)).filter
    (fun t => t.uniform_name_convention == texture.uniform_name_convention)).length_le
  have h4 : ([texture].filter
      (fun t => t.uniform_name_convention == texture.uniform_name_convention)).length = 1 := by
    simp
  omega

/-- C23, the claim as stated, fails for a mesh with one diffuse texture and a shader without
the uniform "texture_diffuse1", although the group "g" holds three instances: the upload fails,
the failure is not caught, and the call ends before the texture is bound and before anything
is drawn. -/
theorem draw_with_textures_stops_at_failed_upload :
    0 < InstancingController.get_instance_count "g" sample_lit_world ∧
    (InstancingController.draw_instanced_with_textures "g"
      (some { vao := 7, num_indices := 6,
              textures := [{ id := 4, uniform_name_convention := "texture_diffuse" }] })
      (some { id := 1, uniforms := [] }) sample_lit_world).2 =
      Outcome.threw "no uniform named texture_diffuse1" ∧
    (InstancingController.draw_instanced_with_textures "g"
      (some { vao := 7, num_indices := 6,
              textures := [{ id := 4, uniform_name_convention := "texture_diffuse" }] })
      (some { id := 1, uniforms := [] }) sample_lit_world).1.gl.trace =
      [Event.glActiveTexture 0] := by
  refine ⟨?_, ?_, ?_⟩ <;> decide

/-- C23, amended: in `draw_instanced_with_textures` with a positive instance count and a shader
in which the uniform name of every texture of the mesh exists (so that no upload fails), the
call returns and issues, for every texture index i of the mesh in order, the selection of
texture unit i, the upload of the integer i under the uniform name T_i followed by the decimal
numeral of k_i, and the bind of texture i, where T_i is the uniform-name convention of
texture i and k_i is the number of textures j <= i with T_j = T_i; then the vertex array is bound
and the draw is issued. Whatever the shader, two textures of the same convention get distinct
uniform names. A failing upload is not caught: if the uniform name of texture k is the first
that the shader lacks, the call ends with the exception of that upload after the rounds of
the textures before k and the selection of texture unit k, before texture k is bound and
before anything is drawn. -/
theorem draw_with_textures_binds_every_texture (w : World) (group_name : String) (mesh : Mesh)
    (shader : Shader)
    (hcount : 0 < InstancingController.get_instance_count group_name w) :
    ((∀ (i : Nat) (texture : Texture), mesh.textures[i]? = some texture →
        texture_uniform_name mesh.textures i texture ∈ shader.uniforms) →
      (InstancingController.draw_instanced_with_textures group_name (some mesh) (some shader)
        w).2 = Outcome.ok () ∧
      (InstancingController.draw_instanced_with_textures group_name (some mesh) (some shader)
        w).1.gl.trace =
        w.gl.trace ++ texture_binding_events shader mesh.textures ++
          instanced_draw_events mesh (InstancingController.get_instance_count group_name w)) ∧
    (∀ (i j : Nat) (first second : Texture), mesh.textures[i]? = some first →
      mesh.textures[j]? = some second → i < j →
      first.uniform_name_convention = second.uniform_name_convention →
      texture_uniform_name mesh.textures i first ≠
        texture_uniform_name mesh.textures j second) ∧
    (∀ (k : Nat) (failing : Texture), mesh.textures[k]? = some failing →
      (∀ (i : Nat) (texture : Texture), mesh.textures[i]? = some texture → i < k →
        texture_uniform_name mesh.textures i texture ∈ shader.uniforms) →
      texture_uniform_name mesh.textures k failing ∉ shader.uniforms →
      (InstancingController.draw_instanced_with_textures group_name (some mesh) (some shader)
        w).2 =
        Outcome.threw ("no uniform named " ++ texture_uniform_name mesh.textures k failing) ∧
      (InstancingController.draw_instanced_with_textures group_name (some mesh) (some shader)
        w).1.gl.trace =
        w.gl.trace ++
          (mesh.textures.take k).enum.flatMap (fun entry =>
            texture_round shader mesh.textures entry.1 entry.2) ++
          [Event.glActiveTexture k]) := by
  have hne : InstancingController.get_instance_count group_name w ≠ 0 := by omega
  refine ⟨?_, ?_, ?_⟩
  · intro hu
    have hloop := InstancingController.bind_mesh_textures_trace shader [] mesh.textures w.gl
      (by simpa using hu)
    simp only [List.length_nil, List.filter_nil, List.nil_append] at hloop
    constructor
    · unfold InstancingController.draw_instanced_with_textures
      cases hl : w.instancing.m_instance_groups.lookup group_name with
      | none => simp [InstancingController.get_instance_count, hl] at hcount
      | some group =>
        simp only [hne, if_false, hloop]
    · unfold InstancingController.draw_instanced_with_textures
      cases hl : w.instancing.m_instance_groups.lookup group_name with
      | none => simp [InstancingController.get_instance_count, hl] at hcount
      | some group =>
        simp only [hne, if_false, hloop, texture_binding_events, instanced_draw_events,
          List.enum]
        split <;> simp [GLState.emits, GLState.emit]
  · intro i j first second hi hj hij hconv heq
    unfold texture_uniform_name at heq
    rw [hconv] at heq
    have := append_toString_injective _ _ _ heq
    have hlt := texture_rank_lt mesh.textures i j second hij hj
    omega
  · intro k failing hk hbefore hmissing
    obtain ⟨vao, num_indices, textures⟩ := mesh
    simp only at hk hbefore hmissing ⊢
    obtain ⟨rest, hsplit⟩ := split_at_index textures k failing hk
    have hlen : (textures.take k).length = k := by
      have hlt : k < textures.length := by
        by_contra hge
        rw [List.getElem?_eq_none (by omega)] at hk
        cases hk
      rw [List.length_take]
      omega
    unfold InstancingController.draw_instanced_with_textures
    simp only
    generalize textures.take k = mid at hsplit hlen ⊢
    subst hsplit
    subst hlen
    have hloop := InstancingController.bind_mesh_textures_stops shader mid failing rest []
      w.gl (fun i t hi _ hlt => hbefore i t (by simpa using hi) (by simpa using hlt))
      (by simpa using hmissing)
    simp only [List.length_nil, List.filter_nil, List.nil_append, Nat.zero_add] at hloop
    cases hl : w.instancing.m_instance_groups.lookup group_name with
    | none => simp [InstancingController.get_instance_count, hl] at hcount
    | some group =>
      simp only [hne, if_false, hloop, List.enum]
      simp [GLState.emits, GLState.emit]

/-- Witness of C23 as amended: a mesh with two diffuse textures drawn with the group "g" and a
shader that has "texture_diffuse1" and "texture_diffuse2". -/
theorem draw_with_textures_binds_every_texture_witness :
    0 < InstancingController.get_instance_count "g" sample_lit_world ∧
    (InstancingController.draw_instanced_with_textures "g"
      (some { vao := 7, num_indices := 6,
              textures := [{ id := 4, uniform_name_convention := "texture_diffuse" },
                           { id := 5, uniform_name_convention := "texture_diffuse" }] })
      (some { id := 1, uniforms := ["texture_diffuse1", "texture_diffuse2"] })
      sample_lit_world).2 = Outcome.ok () :=
  ⟨by decide,
    ((draw_with_textures_binds_every_texture sample_lit_world "g"
      { vao := 7, num_indices := 6,
        textures := [{ id := 4, uniform_name_convention := "texture_diffuse" },
                     { id := 5, uniform_name_convention := "texture_diffuse" }] }
      { id := 1, uniforms := ["texture_diffuse1", "texture_diffuse2"] } (by decide)).1
      (by
        intro i texture h
        match i, h with
        | 0, h => cases h; decide
        | 1, h => cases h; decide
        | n + 2, h => simp at h)).1⟩

/-! ## The faces of the shadow transforms -/

/-- C24: for every light position and all planes, shadow transform i applied to the homogeneous
point (position + t * d_i, 1), where d_0..d_5 are +X, -X, +Y, -Y, +Z, -Z, yields clip
coordinates with x = 0, y = 0 and w = t, for every t: face i looks straight along d_i. The
planes enter only the z coordinate, so the condition 0 < near_plane < far_plane is not needed.
Stated over exact arithmetic. -/
theorem shadow_transform_looks_along_face (light_pos : Vec3) (near_plane far_plane t : ℚ)
    (i : Fin 6) :
    (((create_shadow_transforms light_pos near_plane far_plane).getD i.val 0).mulVec
      (point_along light_pos (face_direction i) t)) 0 = 0 ∧
    (((create_shadow_transforms light_pos near_plane far_plane).getD i.val 0).mulVec
      (point_along light_pos (face_direction i) t)) 1 = 0 ∧
    (((create_shadow_transforms light_pos near_plane far_plane).getD i.val 0).mulVec
      (point_along light_pos (face_direction i) t)) 3 = t := by
  fin_cases i <;>
    (simp [create_shadow_transforms, glm.lookAt, glm_sub_add, glm.normalize, glm.dot, glm.cross,
      glm.perspective, rat_sqrt_one, Matrix.mul_apply, Fin.sum_univ_four, Matrix.mulVec,
      Matrix.dotProduct, point_along, face_direction]
     try ring_nf)

/-! ## Facts about the mean of a grid of offsets -/

theorem sum_map_range_affine (a b : ℚ) (n : Nat) :
    ((List.range n).map (fun (x : Nat) => a * (x : ℚ) + b)).sum =
      a * ((n : ℚ) * ((n : ℚ) - 1) / 2) + (n : ℚ) * b := by
  induction n with
  | zero => simp
  | succ n ih =>
    rw [List.range_succ, List.map_append, List.sum_append, ih]
    simp only [List.map_cons, List.map_nil, List.sum_cons, List.sum_nil, Nat.cast_succ]
    ring

theorem sum_map_flatMap_range {α : Type} (g : Nat → List α) (proj : α → ℚ) (n : Nat) :
    (((List.range n).flatMap g).map proj).sum =
      ((List.range n).map (fun y => ((g y).map proj).sum)).sum := by
  induction n with
  | zero => simp
  | succ n ih =>
    rw [List.range_succ, List.flatMap_append, List.map_append, List.sum_append, ih,
      List.map_append, List.sum_append]
    simp

namespace InstancingController

theorem grid_offsets_sums (width height : Nat) (spacing : ℚ) (center_offset : Vec2) :
    ((create_grid_offsets width height spacing center_offset).offsets.map
        (fun offset => offset.x)).sum =
      (height : ℚ) * (width : ℚ) * (center_offset.x - spacing / 2) ∧
    ((create_grid_offsets width height spacing center_offset).offsets.map
        (fun offset => offset.y)).sum =
      (height : ℚ) * (width : ℚ) * (center_offset.y - spacing / 2) := by
  rw [create_grid_offsets_eq]
  simp only [sum_map_flatMap_range, List.map_map, Function.comp_def, grid_offset]
  constructor
  · have hrow : ((List.range width).map (fun (x : Nat) =>
        ((x : ℚ) - (width : ℚ) / 2) * spacing + center_offset.x)).sum =
        (width : ℚ) * (center_offset.x - spacing / 2) := by
      have := sum_map_range_affine spacing (center_offset.x - (width : ℚ) / 2 * spacing) width
      have e : (fun (x : Nat) => ((x : ℚ) - (width : ℚ) / 2) * spacing + center_offset.x) =
          (fun (x : Nat) => spacing * (x : ℚ) +
            (center_offset.x - (width : ℚ) / 2 * spacing)) := by
        funext x
        ring
      rw [e, this]
      ring
    rw [hrow]
    have := sum_map_range_affine 0 ((width : ℚ) * (center_offset.x - spacing / 2)) height
    simp only [zero_mul, zero_add] at this
    rw [this]
    ring
  · have hrow : ∀ y : Nat, ((List.range width).map (fun (_ : Nat) =>
        ((y : ℚ) - (height : ℚ) / 2) * spacing + center_offset.y)).sum =
        (width : ℚ) * spacing * (y : ℚ) +
          (width : ℚ) * (center_offset.y - (height : ℚ) / 2 * spacing) := by
      intro y
      have := sum_map_range_affine 0 (((y : ℚ) - (height : ℚ) / 2) * spacing + center_offset.y)
        width
      simp only [zero_mul, zero_add] at this
      rw [this]
      ring
    simp only [hrow]
    rw [sum_map_range_affine]
    ring

end InstancingController

/-- C30: for width, height >= 1 the offsets produced by `create_grid_offsets` are not centred
on `center_offset`: the first offset (column 0 of row 0) is
`center_offset - ((width/2) * spacing, (height/2) * spacing)`, the last one (column width - 1
of row height - 1) is `center_offset + ((width/2 - 1) * spacing, (height/2 - 1) * spacing)`,
every offset in column x has the x coordinate `center_offset.x + (x - width/2) * spacing` and
every offset in row y the y coordinate `center_offset.y + (y - height/2) * spacing`, and the
mean of all offsets is `center_offset - (spacing/2, spacing/2)`, which differs from
`center_offset` unless the spacing is 0. Stated over exact arithmetic. -/
theorem create_grid_offsets_mean (width height : Nat) (spacing : ℚ) (center_offset : Vec2)
    (hw : 1 ≤ width) (hh : 1 ≤ height) :
    (InstancingController.create_grid_offsets width height spacing center_offset).offsets[0]? =
      some { x := center_offset.x - ((width : ℚ) / 2) * spacing,
             y := center_offset.y - ((height : ℚ) / 2) * spacing } ∧
    (InstancingController.create_grid_offsets width height spacing
        center_offset).offsets[(height - 1) * width + (width - 1)]? =
      some { x := center_offset.x + ((width : ℚ) / 2 - 1) * spacing,
             y := center_offset.y + ((height : ℚ) / 2 - 1) * spacing } ∧
    (∀ x y : Nat, x < width → y < height →
      (InstancingController.create_grid_offsets width height spacing
          center_offset).offsets[y * width + x]? =
        some { x := center_offset.x + ((x : ℚ) - (width : ℚ) / 2) * spacing,
               y := center_offset.y + ((y : ℚ) - (height : ℚ) / 2) * spacing }) ∧
    mean_offset
        (InstancingController.create_grid_offsets width height spacing center_offset).offsets =
      { x := center_offset.x - spacing / 2, y := center_offset.y - spacing / 2 } ∧
    (spacing ≠ 0 →
      mean_offset
        (InstancingController.create_grid_offsets width height spacing center_offset).offsets ≠
      center_offset) := by
  have hidx : ∀ x y : Nat, x < width → y < height →
      (InstancingController.create_grid_offsets width height spacing
          center_offset).offsets[y * width + x]? =
        some { x := center_offset.x + ((x : ℚ) - (width : ℚ) / 2) * spacing,
               y := center_offset.y + ((y : ℚ) - (height : ℚ) / 2) * spacing } := by
    intro x y hx hy
    rw [InstancingController.create_grid_offsets_eq]
    rw [(InstancingController.grid_length_and_index
      (fun y x => grid_offset width height spacing center_offset x y) width height).2 x y hx hy]
    simp only [grid_offset, Option.some.injEq, Vec2.mk.injEq]
    constructor <;> ring
  have hlen : (InstancingController.create_grid_offsets width height spacing
      center_offset).offsets.length = height * width := by
    rw [InstancingController.create_grid_offsets_eq]
    exact (InstancingController.grid_length_and_index _ width height).1
  have hmean : mean_offset
      (InstancingController.create_grid_offsets width height spacing center_offset).offsets =
      { x := center_offset.x - spacing / 2, y := center_offset.y - spacing / 2 } := by
    obtain ⟨sx, sy⟩ := InstancingController.grid_offsets_sums width height spacing center_offset
    have hw0 : (width : ℚ) ≠ 0 := by
      have : width ≠ 0 := by omega
      exact_mod_cast this
    have hh0 : (height : ℚ) ≠ 0 := by
      have : height ≠ 0 := by omega
      exact_mod_cast this
    unfold mean_offset
    rw [sx, sy, hlen]
    simp only [Nat.cast_mul, Vec2.mk.injEq]
    constructor <;> field_simp <;> ring
  refine ⟨?_, ?_, hidx, hmean, ?_⟩
  · have := hidx 0 0 (by omega) (by omega)
    simp only [Nat.zero_mul, Nat.add_zero, Nat.cast_zero, zero_sub] at this
    rw [this]
    simp only [Option.some.injEq, Vec2.mk.injEq]
    constructor <;> ring
  · have := hidx (width - 1) (height - 1) (by omega) (by omega)
    rw [this]
    have e1 : ((width - 1 : Nat) : ℚ) = (width : ℚ) - 1 := by
      rw [Nat.cast_sub hw, Nat.cast_one]
    have e2 : ((height - 1 : Nat) : ℚ) = (height : ℚ) - 1 := by
      rw [Nat.cast_sub hh, Nat.cast_one]
    simp only [e1, e2, Option.some.injEq, Vec2.mk.injEq]
    constructor <;> ring
  · intro hs heq
    rw [hmean] at heq
    have hx := congrArg Vec2.x heq
    simp only at hx
    apply hs
    linarith

/-- Witness of C30: the mean of the 3 by 2 grid of spacing 1 around (0, 0) is (-1/2, -1/2). -/
theorem create_grid_offsets_mean_witness :
    1 ≤ 3 ∧ 1 ≤ 2 ∧
    mean_offset (InstancingController.create_grid_offsets 3 2 1 ⟨0, 0⟩).offsets =
      { x := 0 - 1 / 2, y := 0 - 1 / 2 } :=
  ⟨by decide, by decide, (create_grid_offsets_mean 3 2 1 ⟨0, 0⟩ (by decide) (by decide)).2.2.2.1⟩

/-! ## Facts about the content of the instance buffers -/

theorem last_upload_append (buffer : Nat) (trace events : List Event)
    (h : ∀ e ∈ events, ∀ size, e ≠ Event.glBufferData buffer size) :
    last_upload buffer (trace ++ events) = last_upload buffer trace := by
  unfold last_upload
  rw [List.foldl_append]
  generalize trace.foldl (upload_step buffer) none = last
  induction events generalizing last with
  | nil => rfl
  | cons e rest ih =>
    rw [List.foldl_cons, ih (fun e he => h e (List.mem_cons_of_mem _ he))]
    have he := h e (List.mem_cons_self _ _)
    cases e <;> try rfl
    next target size =>
      by_cases ht : target = buffer
      · subst ht
        exact absurd rfl (he size)
      · simp [upload_step, ht]

theorem last_upload_append_upload (buffer size : Nat) (trace events : List Event)
    (h : ∀ e ∈ events, ∀ other, e ≠ Event.glBufferData buffer other) :
    last_upload buffer (trace ++ Event.glBufferData buffer size :: events) = some size := by
  have : trace ++ Event.glBufferData buffer size :: events =
      (trace ++ [Event.glBufferData buffer size]) ++ events := by simp
  rw [this, last_upload_append _ _ _ h]
  simp [last_upload, upload_step]

/-- The general step of the invariant: the map changes at most at `group_name`, whose new
entry, if there is one, holds the buffer `c` and is not stale; `c` is a buffer just created or
the buffer the old entry held; the last upload to every other buffer is as before. -/
theorem buffers_current_step (w w1 : World) (group_name : String) (c : Nat)
    (h : buffers_current w)
    (hother : ∀ other, other ≠ group_name →
      w1.instancing.m_instance_groups.lookup other = w.instancing.m_instance_groups.lookup other)
    (hcreated : w.gl.created ≤ w1.gl.created)
    (hup : ∀ b, b ≠ c → last_upload b w1.gl.trace = last_upload b w.gl.trace)
    (hc : w.gl.created < c ∨
      ∃ g, w.instancing.m_instance_groups.lookup group_name = some g ∧ g.buffer_id = c)
    (hnew : ∀ g1, w1.instancing.m_instance_groups.lookup group_name = some g1 →
      g1.buffer_id = c ∧ g1.buffer_current w1.gl ∧ c ≤ w1.gl.created) :
    buffers_current w1 := by
  obtain ⟨hg, hd⟩ := h
  have hne : ∀ other g, other ≠ group_name →
      w.instancing.m_instance_groups.lookup other = some g → g.buffer_id ≠ c := by
    intro other g hon hl heq
    rcases hc with hlt | ⟨g0, hl0, hb0⟩
    · have := (hg other g hl).2
      omega
    · exact hon (hd other group_name g g0 hl hl0 (by rw [heq, hb0]))
  constructor
  · intro name g hl
    by_cases hn : name = group_name
    · subst hn
      obtain ⟨-, h2, h3⟩ := hnew g hl
      obtain ⟨h1, -⟩ := hnew g hl
      exact ⟨h2, by rw [h1]; exact h3⟩
    · rw [hother name hn] at hl
      obtain ⟨⟨b1, b2, data, b3, b4⟩, b5⟩ := hg name g hl
      exact ⟨⟨b1, b2, data, b3, by rw [hup _ (hne name g hn hl)]; exact b4⟩, by omega⟩
  · intro first second g1 g2 hl1 hl2 heq
    by_cases hn1 : first = group_name
    · by_cases hn2 : second = group_name
      · rw [hn1, hn2]
      · exfalso
        subst hn1
        rw [hother second hn2] at hl2
        exact hne second g2 hn2 hl2 (by rw [← heq]; exact (hnew g1 hl1).1)
    · by_cases hn2 : second = group_name
      · exfalso
        subst hn2
        rw [hother first hn1] at hl1
        exact hne first g1 hn1 hl1 (by rw [heq]; exact (hnew g2 hl2).1)
      · rw [hother first hn1] at hl1
        rw [hother second hn2] at hl2
        exact hd first second g1 g2 hl1 hl2 heq

/-- A call that leaves the map as it is and uploads nothing keeps the invariant. -/
theorem buffers_current_congr (w w1 : World) (h : buffers_current w)
    (hm : w1.instancing.m_instance_groups = w.instancing.m_instance_groups)
    (hcreated : w.gl.created ≤ w1.gl.created)
    (hup : ∀ b, last_upload b w1.gl.trace = last_upload b w.gl.trace) :
    buffers_current w1 := by
  obtain ⟨hg, hd⟩ := h
  constructor
  · intro name g hl
    rw [hm] at hl
    obtain ⟨⟨b1, b2, data, b3, b4⟩, b5⟩ := hg name g hl
    exact ⟨⟨b1, b2, data, b3, by rw [hup]; exact b4⟩, by omega⟩
  · intro first second g1 g2 hl1 hl2 heq
    rw [hm] at hl1 hl2
    exact hd first second g1 g2 hl1 hl2 heq

theorem last_upload_concat (buffer : Nat) (trace : List Event) (e : Event) :
    last_upload buffer (trace ++ [e]) = upload_step buffer (last_upload buffer trace) e := by
  simp [last_upload, List.foldl_append]

theorem last_upload_fold (buffer : Nat) (trace events : List Event) :
    last_upload buffer (trace ++ events) =
      events.foldl (upload_step buffer) (last_upload buffer trace) := by
  simp [last_upload, List.foldl_append]

namespace InstancingController

theorem destroy_instance_buffer_uploads (group : InstanceGroup) (gl : GLState) (b : Nat) :
    last_upload b (destroy_instance_buffer group gl).2.trace = last_upload b gl.trace ∧
    (destroy_instance_buffer group gl).2.array_buffer_binding = gl.array_buffer_binding := by
  unfold destroy_instance_buffer
  split
  · simp [GLState.glDeleteBuffers, last_upload_concat, upload_step]
  · exact ⟨rfl, rfl⟩

theorem create_instance_buffer_uploads (group : InstanceGroup) (data : InstancedData)
    (gl : GLState) (hd : group.data = some data) (b : Nat) :
    last_upload b (create_instance_buffer group gl).2.1.trace =
      if gl.created + 1 = b then some data.size else last_upload b gl.trace := by
  unfold create_instance_buffer
  simp [hd, GLState.glGenBuffers, GLState.glBindBuffer, GLState.glBufferData, GLState.emit,
    last_upload_fold, upload_step]

theorem register_instance_group_uploads (group_name : String) (data : InstancedData)
    (w : World) (b : Nat) :
    last_upload b (register_instance_group group_name (some data) w).1.gl.trace =
      if w.gl.created + 1 = b then some data.size else last_upload b w.gl.trace := by
  cases hl : w.instancing.m_instance_groups.lookup group_name with
  | none =>
    have hn : group_name ∉ w.instancing.m_instance_groups := AList.lookup_eq_none.mp hl
    simp only [register_instance_group, hl, UMap.subscript_assign, hn, if_false,
      AList.lookup_insert]
    exact create_instance_buffer_uploads (InstanceGroup.of_data (some data)) data w.gl rfl b
  | some group =>
    simp only [register_instance_group, hl, UMap.lookup_replace_self, Option.map_some']
    rw [create_instance_buffer_uploads (InstanceGroup.of_data (some data)) data _ rfl b,
      (destroy_instance_buffer_uploads group w.gl b).1, (destroy_instance_buffer_gl group w.gl).1]

theorem buffers_current_register (group_name : String) (data : InstancedData) (w : World)
    (h : buffers_current w) :
    buffers_current (register_instance_group group_name (some data) w).1 := by
  obtain ⟨-, h2, h3, -⟩ := register_instance_group_some group_name data w
  have hu := register_instance_group_uploads group_name data w
  apply buffers_current_step w _ group_name (w.gl.created + 1) h
  · intro other hne
    obtain ⟨g, -, hm⟩ := register_instance_group_groups group_name (some data) w
    rw [hm]
    split
    · exact UMap.lookup_replace_ne _ hne _
    · exact AList.lookup_insert_ne hne
  · omega
  · intro b hb
    rw [hu b, if_neg (fun e => hb e.symm)]
  · exact Or.inl (Nat.lt_succ_self _)
  · intro g1 hg1
    rw [h2] at hg1
    cases hg1
    refine ⟨rfl, ⟨Nat.succ_ne_zero _, rfl, data, rfl, ?_⟩, by omega⟩
    rw [hu, if_pos rfl]

theorem update_instance_group_some (group_name : String) (data : InstancedData) (w : World)
    (group : InstanceGroup) (hl : w.instancing.m_instance_groups.lookup group_name = some group)
    (hb : group.buffer_id ≠ 0) :
    (update_instance_group group_name (some data) w).2 = Outcome.ok true ∧
    (update_instance_group group_name (some data) w).1.instancing.m_instance_groups =
      w.instancing.m_instance_groups.replace group_name
        { data := some data, buffer_id := group.buffer_id, needs_update := false } ∧
    (update_instance_group group_name (some data) w).1.gl.created = w.gl.created ∧
    ∀ b, last_upload b (update_instance_group group_name (some data) w).1.gl.trace =
      if group.buffer_id = b then some data.size else last_upload b w.gl.trace := by
  have hb2 : (group.buffer_id == 0) = false := by simpa using hb
  simp [update_instance_group, hl, update_instance_buffer, hb2, GLState.glBindBuffer,
    GLState.glBufferData, GLState.emit, last_upload_fold, upload_step]

theorem buffers_current_update (group_name : String) (data : InstancedData) (w : World)
    (h : buffers_current w) :
    buffers_current (update_instance_group group_name (some data) w).1 := by
  cases hl : w.instancing.m_instance_groups.lookup group_name with
  | none =>
    have : (update_instance_group group_name (some data) w).1 = w := by
      simp only [update_instance_group, hl]
    rw [this]
    exact h
  | some group =>
    have hinv := h.1 group_name group hl
    obtain ⟨-, e2, e3, e4⟩ := update_instance_group_some group_name data w group hl hinv.1.1
    apply buffers_current_step w _ group_name group.buffer_id h
    · intro other hne
      rw [e2]
      exact UMap.lookup_replace_ne _ hne _
    · omega
    · intro b hb
      rw [e4 b, if_neg (fun e => hb e.symm)]
    · exact Or.inr ⟨group, hl, rfl⟩
    · intro g1 hg1
      rw [e2, UMap.lookup_replace_self, hl] at hg1
      cases hg1
      refine ⟨rfl, ⟨hinv.1.1, rfl, data, rfl, ?_⟩, ?_⟩
      · rw [e4, if_pos rfl]
      · rw [e3]
        exact hinv.2

theorem buffers_current_unregister (group_name : String) (w : World) (h : buffers_current w) :
    buffers_current (unregister_instance_group group_name w).1 := by
  cases hl : w.instancing.m_instance_groups.lookup group_name with
  | none =>
    have : (unregister_instance_group group_name w).1 = w := by
      simp only [unregister_instance_group, hl]
    rw [this]
    exact h
  | some group =>
    apply buffers_current_step w _ group_name group.buffer_id h
    · intro other hne
      simp only [unregister_instance_group, hl]
      exact AList.lookup_erase_ne hne
    · simp only [unregister_instance_group, hl, (destroy_instance_buffer_gl group w.gl).1]
      exact Nat.le_refl _
    · intro b _
      simp only [unregister_instance_group, hl]
      exact (destroy_instance_buffer_uploads group w.gl b).1
    · exact Or.inr ⟨group, hl, rfl⟩
    · intro g1 hg1
      simp only [unregister_instance_group, hl, AList.lookup_erase] at hg1
      cases hg1

end InstancingController

namespace InstancingController

theorem setup_matrix_attributes_uploads (attribute_start buffer_id : Nat) (gl : GLState)
    (b : Nat) :
    last_upload b (setup_matrix_attributes attribute_start buffer_id gl).trace =
      last_upload b gl.trace ∧
    (setup_matrix_attributes attribute_start buffer_id gl).created = gl.created := by
  simp [setup_matrix_attributes, List.range_succ, GLState.glBindBuffer, GLState.emit,
    last_upload_fold, upload_step]

theorem setup_offset_attributes_uploads (attribute_start buffer_id : Nat) (gl : GLState)
    (b : Nat) :
    last_upload b (setup_offset_attributes attribute_start buffer_id gl).trace =
      last_upload b gl.trace ∧
    (setup_offset_attributes attribute_start buffer_id gl).created = gl.created := by
  simp [setup_offset_attributes, GLState.glBindBuffer, GLState.emit,
    last_upload_fold, upload_step]

theorem buffers_current_setup (group_name : String) (mesh : Option Mesh)
    (attribute_start : Nat) (w : World) (h : buffers_current w) :
    buffers_current (setup_instanced_mesh group_name mesh attribute_start w).1 := by
  cases mesh with
  | none => exact h
  | some mesh =>
    cases hl : w.instancing.m_instance_groups.lookup group_name with
    | none =>
      have : (setup_instanced_mesh group_name (some mesh) attribute_start w).1 = w := by
        simp only [setup_instanced_mesh, hl]
      rw [this]
      exact h
    | some group =>
      obtain ⟨⟨hb, hn, data, hd, hu⟩, hc⟩ := h.1 group_name group hl
      have hsame : w.instancing.m_instance_groups.replace group_name group =
          w.instancing.m_instance_groups := ShadowController.replace_same _ _ _ hl
      have hform : ∃ gl1 : GLState,
          (setup_instanced_mesh group_name (some mesh) attribute_start w).1 =
            { w with gl := gl1 } ∧ gl1.created = w.gl.created ∧
          ∀ b, last_upload b gl1.trace = last_upload b w.gl.trace := by
        unfold setup_instanced_mesh
        cases data with
        | transforms payload =>
          have hu2 := setup_matrix_attributes_uploads attribute_start group.buffer_id
            (w.gl.emit (Event.glBindVertexArray mesh.vao))
          simp only [hl, hb, if_false, hn, Bool.false_eq_true, hd, hsame]
          refine ⟨_, rfl, (hu2 0).2, fun b => ?_⟩
          have e0 : ∀ (e : Event) (gl : GLState), (gl.emit e).trace = gl.trace ++ [e] :=
            fun _ _ => rfl
          rw [e0, last_upload_concat, (hu2 b).1, e0, last_upload_concat]
          rfl
        | offsets payload =>
          have hu2 := setup_offset_attributes_uploads attribute_start group.buffer_id
            (w.gl.emit (Event.glBindVertexArray mesh.vao))
          simp only [hl, hb, if_false, hn, Bool.false_eq_true, hd, hsame]
          refine ⟨_, rfl, (hu2 0).2, fun b => ?_⟩
          have e0 : ∀ (e : Event) (gl : GLState), (gl.emit e).trace = gl.trace ++ [e] :=
            fun _ _ => rfl
          rw [e0, last_upload_concat, (hu2 b).1, e0, last_upload_concat]
          rfl
        | other size stride =>
          simp only [hl, hb, if_false, hn, Bool.false_eq_true, hd, hsame]
          refine ⟨_, rfl, rfl, fun b => ?_⟩
          simp [GLState.emit, last_upload_concat, upload_step]
      obtain ⟨gl1, e1, e2, e3⟩ := hform
      rw [e1]
      exact buffers_current_congr w _ h rfl (by rw [e2]) e3

theorem buffers_current_draw (group_name : String) (mesh : Option Mesh) (w : World)
    (h : buffers_current w) : buffers_current (draw_instanced group_name mesh w).1 := by
  obtain ⟨f1, f2⟩ := draw_instanced_frame group_name mesh w
  refine buffers_current_congr w _ h (by rw [f1]) ?_ ?_
  · have := congrArg Prod.fst f2
    simp only [GLState.objects] at this
    omega
  · intro b
    unfold draw_instanced
    cases mesh with
    | none => rfl
    | some mesh =>
      simp only []
      split
      · rfl
      · split
        · simp [GLState.emit, last_upload_concat, upload_step]
        · split <;> simp [GLState.emit, last_upload_fold, upload_step]

theorem bind_mesh_textures_uploads (shader : Shader) (textures : List Texture) (i : Nat)
    (counts : String → Nat) (gl : GLState) (b : Nat) :
    last_upload b (bind_mesh_textures shader textures i counts gl).1.trace =
      last_upload b gl.trace := by
  induction textures generalizing i counts gl with
  | nil => rfl
  | cons texture rest ih =>
    unfold bind_mesh_textures
    simp only [Shader.set_int, Shader.set]
    by_cases hm : "" ++ texture.uniform_name_convention ++
        toString (counts texture.uniform_name_convention + 1) ∈ shader.uniforms
    · simp only [hm, if_true, ih]
      simp [GLState.emit, last_upload_fold, upload_step]
    · simp only [hm, if_false]
      simp [GLState.emit, last_upload_fold, upload_step]

theorem buffers_current_draw_with_textures (group_name : String) (mesh : Option Mesh)
    (shader : Option Shader) (w : World) (h : buffers_current w) :
    buffers_current (draw_instanced_with_textures group_name mesh shader w).1 := by
  obtain ⟨f1, f2⟩ := draw_instanced_with_textures_frame group_name mesh shader w
  refine buffers_current_congr w _ h (by rw [f1]) ?_ ?_
  · have := congrArg Prod.fst f2
    simp only [GLState.objects] at this
    omega
  · intro b
    unfold draw_instanced_with_textures
    cases mesh with
    | none => rfl
    | some mesh =>
      cases shader with
      | none => rfl
      | some shader =>
        simp only []
        split
        · rfl
        · split
          · simp [GLState.emit, last_upload_concat, upload_step]
          · generalize hb : bind_mesh_textures shader mesh.textures 0 (fun _ => 0) w.gl = res
            have ho := bind_mesh_textures_uploads shader mesh.textures 0 (fun _ => 0) w.gl b
            rw [hb] at ho
            obtain ⟨gl2, out⟩ := res
            cases out with
            | fatal m => exact ho
            | threw m => exact ho
            | ok u =>
              dsimp only at ho ⊢
              split <;> simp [GLState.emit, last_upload_fold, upload_step, ho]

theorem buffers_current_terminate (w : World) : buffers_current (terminate w) := by
  constructor
  · intro name group hl
    simp [terminate] at hl
  · intro first second g1 g2 hl
    simp [terminate] at hl

/-- A call that does not end in a violated guarantee keeps the buffers of all groups
current. -/
theorem buffers_current_call (call : InstancingApiCall) (w : World) (h : buffers_current w)
    (hf : call.is_fatal w = false) : buffers_current (call.run w) := by
  cases call with
  | group call =>
    cases call with
    | register_instance_group name data =>
      cases data with
      | some data => exact buffers_current_register name data w h
      | none =>
        exfalso
        cases hl : w.instancing.m_instance_groups.lookup name with
        | none =>
          have hn : name ∉ w.instancing.m_instance_groups := AList.lookup_eq_none.mp hl
          simp [InstancingApiCall.is_fatal, InstancingCall.is_fatal, register_instance_group,
            hl, UMap.subscript_assign, hn, create_instance_buffer, InstanceGroup.of_data,
            Outcome.is_fatal] at hf
        | some group =>
          simp [InstancingApiCall.is_fatal, InstancingCall.is_fatal, register_instance_group,
            hl, UMap.lookup_replace_self, create_instance_buffer, InstanceGroup.of_data,
            Outcome.is_fatal] at hf
    | update_instance_group name data =>
      cases data with
      | some data => exact buffers_current_update name data w h
      | none =>
        cases hl : w.instancing.m_instance_groups.lookup name with
        | none =>
          have : (update_instance_group name none w).1 = w := by
            simp only [update_instance_group, hl]
          show buffers_current (update_instance_group name none w).1
          rw [this]
          exact h
        | some group =>
          exfalso
          have hb := (h.1 name group hl).1.1
          have hb2 : (group.buffer_id == 0) = false := by simpa using hb
          simp [InstancingApiCall.is_fatal, InstancingCall.is_fatal, update_instance_group,
            hl, update_instance_buffer, hb2, Outcome.is_fatal] at hf
    | unregister_instance_group name => exact buffers_current_unregister name w h
  | setup_instanced_mesh name mesh attribute_start =>
    exact buffers_current_setup name mesh attribute_start w h
  | draw_instanced name mesh => exact buffers_current_draw name mesh w h
  | draw_instanced_with_textures name mesh shader =>
    exact buffers_current_draw_with_textures name mesh shader w h
  | terminate => exact buffers_current_terminate w

theorem buffers_current_run (calls : List InstancingApiCall) (w : World)
    (h : buffers_current w) (hf : no_fatal_call calls w = true) :
    buffers_current (run_instancing_api_calls calls w) := by
  induction calls generalizing w with
  | nil => exact h
  | cons call rest ih =>
    simp only [no_fatal_call, Bool.and_eq_true, Bool.not_eq_true'] at hf
    exact ih (call.run w) (buffers_current_call call w h hf.1) hf.2

theorem buffers_current_initial (gl : GLState) (env : Env) :
    buffers_current (World.initial gl env) := by
  constructor
  · intro name group hl
    simp [World.initial] at hl
  · intro first second g1 g2 hl
    simp [World.initial] at hl

end InstancingController

/-- C26, the claim as stated, fails in two ways. First, after the registrant has added a fourth
matrix to the payload of three matrices that it registered under "g", no public call having
been made in between, the group "g" has `buffer_id` 1 and `needs_update` false, but the last
upload to buffer 1 had 192 bytes while `size()` of the payload is 256. Second, in the state
that the failed call `register_instance_group("n", null)` leaves, `update_instance_group` with
a payload of three matrices returns true, yet the group "n" has `buffer_id` 0 and
`needs_update` true and nothing was uploaded. -/
theorem instance_buffer_stale_after_registrant_write :
    (((registrant_add_transform "g" 1
        (InstancingController.register_instance_group "g"
          (some (InstancedData.transforms { transforms := [1, 1, 1] }))
          (World.initial sample_world.gl sample_world.env)).1).instancing.m_instance_groups.lookup
        "g").map (fun group => (group.buffer_id, group.needs_update,
          group.data.map InstancedData.size)) = some (1, false, some 256) ∧
      last_upload 1
        (registrant_add_transform "g" 1
          (InstancingController.register_instance_group "g"
            (some (InstancedData.transforms { transforms := [1, 1, 1] }))
            (World.initial sample_world.gl sample_world.env)).1).gl.trace = some 192) ∧
    ((InstancingController.register_instance_group "n" none
        (World.initial sample_world.gl sample_world.env)).2 =
        Outcome.fatal "Cannot create buffer for null instance data" ∧
      (InstancingController.update_instance_group "n"
        (some (InstancedData.transforms { transforms := [1, 1, 1] }))
        (InstancingController.register_instance_group "n" none
          (World.initial sample_world.gl sample_world.env)).1).2 = Outcome.ok true ∧
      ((InstancingController.update_instance_group "n"
        (some (InstancedData.transforms { transforms := [1, 1, 1] }))
        (InstancingController.register_instance_group "n" none
          (World.initial sample_world.gl
            sample_world.env)).1).1.instancing.m_instance_groups.lookup "n").map
        (fun group => (group.buffer_id, group.needs_update,
          group.data.map InstancedData.size)) = some (0, true, some 192) ∧
      (InstancingController.update_instance_group "n"
        (some (InstancedData.transforms { transforms := [1, 1, 1] }))
        (InstancingController.register_instance_group "n" none
          (World.initial sample_world.gl sample_world.env)).1).1.gl.trace.filter
        (fun event => match event with
          | Event.glBufferData _ _ => true
          | _ => false) = []) := by
  refine ⟨⟨?_, ?_⟩, ⟨?_, ?_, ?_, ?_⟩⟩ <;> decide

/-- C26, amended: after every `register_instance_group` with a non-null payload, in whatever
state, and after every `update_instance_group` with a non-null payload on a registered group
that has a buffer, the call has returned (true for the update) and the buffer of the group is
not stale: `buffer_id` is non-zero, `needs_update` is false, the group holds the payload passed,
and the byte length of the last upload to that buffer is `size()` of that payload. Hence, in
every state reached from freshly constructed controllers by calls of the public interface of
`InstancingController` none of which ends in a violated guarantee, with no write of a
registrant to a payload in between, the buffer of every registered group is not stale.
`size()` is the element count times the stride: 64 bytes per matrix, 8 bytes per 2D offset. -/
theorem instance_buffers_never_stale (gl : GLState) (env : Env)
    (calls : List InstancingApiCall)
    (hf : no_fatal_call calls (World.initial gl env) = true) :
    (∀ (group_name : String) (group : InstanceGroup),
      (run_instancing_api_calls calls
        (World.initial gl env)).instancing.m_instance_groups.lookup group_name = some group →
      group.buffer_id ≠ 0 ∧ group.needs_update = false ∧
      ∃ data : InstancedData, group.data = some data ∧
        last_upload group.buffer_id
          (run_instancing_api_calls calls (World.initial gl env)).gl.trace = some data.size) ∧
    (∀ (w : World) (group_name : String) (data : InstancedData),
      (InstancingController.register_instance_group group_name (some data) w).2 =
        Outcome.ok () ∧
      ∃ group : InstanceGroup,
        (InstancingController.register_instance_group group_name (some data)
          w).1.instancing.m_instance_groups.lookup group_name = some group ∧
        group.data = some data ∧ group.buffer_id ≠ 0 ∧ group.needs_update = false ∧
        last_upload group.buffer_id
          (InstancingController.register_instance_group group_name (some data) w).1.gl.trace =
          some data.size) ∧
    (∀ (w : World) (group_name : String) (data : InstancedData) (old : InstanceGroup),
      w.instancing.m_instance_groups.lookup group_name = some old → old.buffer_id ≠ 0 →
      (InstancingController.update_instance_group group_name (some data) w).2 =
        Outcome.ok true ∧
      ∃ group : InstanceGroup,
        (InstancingController.update_instance_group group_name (some data)
          w).1.instancing.m_instance_groups.lookup group_name = some group ∧
        group.data = some data ∧ group.buffer_id ≠ 0 ∧ group.needs_update = false ∧
        last_upload group.buffer_id
          (InstancingController.update_instance_group group_name (some data) w).1.gl.trace =
          some data.size) ∧
    (∀ payload : InstancedTransforms,
      (InstancedData.transforms payload).size = payload.count * 64 ∧
      (InstancedData.transforms payload).stride = 64) ∧
    (∀ payload : InstancedOffsets,
      (InstancedData.offsets payload).size = payload.count * 8 ∧
      (InstancedData.offsets payload).stride = 8) := by
  have hinv := InstancingController.buffers_current_run calls (World.initial gl env)
    (InstancingController.buffers_current_initial gl env) hf
  refine ⟨fun name group hl => (hinv.1 name group hl).1, ?_, ?_, fun _ => ⟨rfl, rfl⟩,
    fun _ => ⟨rfl, rfl⟩⟩
  · intro w name data
    obtain ⟨h1, h2, -, -⟩ := InstancingController.register_instance_group_some name data w
    refine ⟨h1, _, h2, rfl, Nat.succ_ne_zero _, rfl, ?_⟩
    rw [InstancingController.register_instance_group_uploads, if_pos rfl]
  · intro w name data old hl hb
    obtain ⟨e1, e2, -, e4⟩ := InstancingController.update_instance_group_some name data
      w old hl hb
    refine ⟨e1, { data := some data, buffer_id := old.buffer_id, needs_update := false },
      ?_, rfl, hb, rfl, ?_⟩
    · rw [e2, UMap.lookup_replace_self, hl]
      rfl
    · rw [e4, if_pos rfl]

/-- Witness of C26: after the registration of three identity matrices under "g" the last
upload to the buffer of "g" had 192 bytes. -/
theorem instance_buffers_never_stale_witness :
    no_fatal_call
      [InstancingApiCall.group (InstancingCall.register_instance_group "g"
        (some (InstancedData.transforms { transforms := [1, 1, 1] })))]
      (World.initial sample_world.gl sample_world.env) = true ∧
    (∀ (group_name : String) (group : InstanceGroup),
      (run_instancing_api_calls
        [InstancingApiCall.group (InstancingCall.register_instance_group "g"
          (some (InstancedData.transforms { transforms := [1, 1, 1] })))]
        (World.initial sample_world.gl
          sample_world.env)).instancing.m_instance_groups.lookup group_name = some group →
      group.buffer_id ≠ 0 ∧ group.needs_update = false ∧
      ∃ data : InstancedData, group.data = some data ∧
        last_upload group.buffer_id
          (run_instancing_api_calls
            [InstancingApiCall.group (InstancingCall.register_instance_group "g"
              (some (InstancedData.transforms { transforms := [1, 1, 1] })))]
            (World.initial sample_world.gl sample_world.env)).gl.trace = some data.size) ∧
    last_upload 1
      (run_instancing_api_calls
        [InstancingApiCall.group (InstancingCall.register_instance_group "g"
          (some (InstancedData.transforms { transforms := [1, 1, 1] })))]
        (World.initial sample_world.gl sample_world.env)).gl.trace = some 192 :=
  ⟨by decide,
    (instance_buffers_never_stale sample_world.gl sample_world.env
      [InstancingApiCall.group (InstancingCall.register_instance_group "g"
        (some (InstancedData.transforms { transforms := [1, 1, 1] })))] (by decide)).1,
    by decide⟩

namespace MainController

theorem animation_invariant_start (position rotation : Vec3) (self : MainController)
    (h : animation_invariant position rotation self) :
    animation_invariant position rotation self.start_skin_animation := by
  unfold start_skin_animation
  by_cases hs : self.m_animation_state = AnimationState.IDLE
  · simp only [hs, ne_eq, not_true_eq_false, if_false]
    simp only [animation_invariant, hs] at h ⊢
    exact ⟨h.2.2.1, h.2.2.2.1, h.2.2.1⟩
  · simp only [hs, ne_eq, not_false_eq_true, if_true]
    exact h

theorem animation_invariant_update (position rotation : Vec3) (dt : ℚ) (self : MainController)
    (h : animation_invariant position rotation self) :
    animation_invariant position rotation (self.update_skin_animation dt) := by
  unfold update_skin_animation
  cases hs : self.m_animation_state <;>
    simp only [animation_invariant, hs] at h <;>
    simp only [reduceCtorEq, if_false, if_true] <;>
    (try split) <;>
    simp only [animation_invariant, hs] <;>
    simp_all

theorem animation_invariant_run (position rotation : Vec3) (calls : List AnimationCall)
    (self : MainController) (h : animation_invariant position rotation self) :
    animation_invariant position rotation (run_animation_calls calls self) := by
  induction calls generalizing self with
  | nil => exact h
  | cons call rest ih =>
    apply ih
    cases call with
    | start => exact animation_invariant_start position rotation self h
    | update dt => exact animation_invariant_update position rotation dt self h

end MainController

/-- C28: `start_skin_animation` changes nothing unless the state is IDLE, where it saves the
skin position and rotation and enters ROTATING_TO_ZERO. `update_skin_animation` leaves the
state as it is or, from a state other than IDLE, moves it one step along the cycle
ROTATING_TO_ZERO, MOVING_FORWARD, WAITING, ROTATING_TO_LOOK_BACK, MOVING_BACK,
ROTATING_TO_ORIGINAL, IDLE. After a start in IDLE and any sequence of further calls of the two
functions, with no other write to the members in between, the saved position and rotation are
those the skin had at the start, and whenever the state is IDLE again the skin position and
rotation equal the saved values and the phase duration is 2. Stated over exact arithmetic. -/
theorem skin_animation_cycle (self start : MainController) (dt : ℚ)
    (calls : List AnimationCall) (hidle : start.m_animation_state = AnimationState.IDLE) :
    (self.m_animation_state ≠ AnimationState.IDLE → self.start_skin_animation = self) ∧
    ((self.update_skin_animation dt).m_animation_state = self.m_animation_state ∨
      (self.m_animation_state ≠ AnimationState.IDLE ∧
        (self.update_skin_animation dt).m_animation_state = self.m_animation_state.next)) ∧
    (start.start_skin_animation.m_animation_state = AnimationState.ROTATING_TO_ZERO ∧
      start.start_skin_animation.m_skin_original_position = start.m_skin_position ∧
      start.start_skin_animation.m_skin_original_rotation = start.m_skin_rotation) ∧
    ((run_animation_calls calls start.start_skin_animation).m_skin_original_position =
        start.m_skin_position ∧
      (run_animation_calls calls start.start_skin_animation).m_skin_original_rotation =
        start.m_skin_rotation) ∧
    ((run_animation_calls calls start.start_skin_animation).m_animation_state =
        AnimationState.IDLE →
      (run_animation_calls calls start.start_skin_animation).m_skin_position =
        (run_animation_calls calls start.start_skin_animation).m_skin_original_position ∧
      (run_animation_calls calls start.start_skin_animation).m_skin_rotation =
        (run_animation_calls calls start.start_skin_animation).m_skin_original_rotation ∧
      (run_animation_calls calls start.start_skin_animation).m_animation_duration = 2) := by
  have hstart : animation_invariant start.m_skin_position start.m_skin_rotation
      start.start_skin_animation := by
    simp [MainController.start_skin_animation, hidle, animation_invariant]
  have hrun := MainController.animation_invariant_run _ _ calls _ hstart
  refine ⟨?_, ?_, ?_, ⟨hrun.1, hrun.2.1⟩, ?_⟩
  · intro hs
    simp [MainController.start_skin_animation, hs]
  · unfold MainController.update_skin_animation
    cases hs : self.m_animation_state <;>
      simp only [reduceCtorEq, if_false, if_true, ne_eq, not_true_eq_false, false_and,
        or_false, not_false_eq_true, true_and, AnimationState.next] <;>
      (try split) <;> simp [hs]
  · simp [MainController.start_skin_animation, hidle]
  · intro hs
    obtain ⟨h1, h2, h3⟩ := hrun
    simp only [hs] at h3
    exact ⟨by rw [h1]; exact h3.1, by rw [h2]; exact h3.2.1, h3.2.2⟩

/-- Witness of C28: an animation of the constructed controller, started and run through its
seven phases. -/
theorem skin_animation_cycle_witness :
    sample_controller.m_animation_state = AnimationState.IDLE ∧
    (run_animation_calls
      [AnimationCall.update 2, AnimationCall.update 2, AnimationCall.update 10,
       AnimationCall.update 2, AnimationCall.update 2, AnimationCall.update 2]
      sample_controller.start_skin_animation).m_skin_original_position =
      sample_controller.m_skin_position :=
  ⟨rfl, (skin_animation_cycle sample_controller sample_controller 0
    [AnimationCall.update 2, AnimationCall.update 2, AnimationCall.update 10,
     AnimationCall.update 2, AnimationCall.update 2, AnimationCall.update 2] rfl).2.2.2.1.1⟩

/-! ## Facts about the grid of blocks -/

theorem foldl_add_transform {α : Type} (f : α → Mat4) (l : List α) (acc : InstancedTransforms) :
    l.foldl (fun transforms x => transforms.add_transform (f x)) acc =
      { transforms := acc.transforms ++ l.map f } := by
  induction l generalizing acc with
  | nil => simp
  | cons hd tl ih =>
    rw [List.foldl_cons, ih]
    simp only [InstancedTransforms.add_transform, List.map_cons, List.append_assoc,
      List.singleton_append]

theorem foldl_transform_rows {α : Type} (row : α → List Mat4) (l : List α)
    (acc : InstancedTransforms) :
    l.foldl (fun transforms y =>
      ({ transforms := transforms.transforms ++ row y } : InstancedTransforms)) acc =
      { transforms := acc.transforms ++ l.flatMap row } := by
  induction l generalizing acc with
  | nil => simp
  | cons hd tl ih => simp [ih]

theorem int_range_length (lo hi : Int) : (int_range lo hi).length = (hi - lo).toNat := by
  simp [int_range]

theorem mem_int_range (lo hi i : Int) : i ∈ int_range lo hi ↔ lo ≤ i ∧ i < hi := by
  simp only [int_range, List.mem_map, List.mem_range]
  constructor
  · rintro ⟨k, hk, rfl⟩
    omega
  · intro h
    exact ⟨(i - lo).toNat, by omega, by omega⟩

theorem mem_grid_positions (lo hi : Int) (p : Vec3) :
    p ∈ grid_positions lo hi ↔
      ∃ i j : Int, lo ≤ i ∧ i < hi ∧ lo ≤ j ∧ j < hi ∧ p = ⟨(i : ℚ), -1, (j : ℚ)⟩ := by
  simp only [grid_positions, List.mem_flatMap, List.mem_map, mem_int_range]
  constructor
  · rintro ⟨i, hi, j, hj, rfl⟩
    exact ⟨i, j, hi.1, hi.2, hj.1, hj.2, rfl⟩
  · rintro ⟨i, j, h1, h2, h3, h4, rfl⟩
    exact ⟨i, ⟨h1, h2⟩, j, ⟨h3, h4⟩, rfl⟩

theorem grid_positions_length (lo hi : Int) :
    (grid_positions lo hi).length = (hi - lo).toNat * (hi - lo).toNat := by
  unfold grid_positions
  rw [List.length_flatMap]
  simp [int_range_length, Function.comp_def]

namespace MainController

theorem setup_instanced_grid_eq (self : MainController) (w : World) :
    self.setup_instanced_grid w =
      InstancingController.register_instance_group "grid_blocks"
        (some (InstancedData.transforms
          { transforms := (grid_positions (-2) self.m_grid_size).map
              calculate_block_model_matrix })) w := by
  unfold setup_instanced_grid
  simp only [foldl_add_transform, foldl_transform_rows, List.nil_append, grid_positions,
    List.map_flatMap, List.map_map, Function.comp_def]

theorem foldl_draw_block {α : Type} (f : α → Vec3) (l : List α) (self : MainController) :
    (l.foldl (fun self x => draw_block_with_shadows "mcblock" (f x) self)
      self).m_blocks_to_render =
        self.m_blocks_to_render ++
          l.map (fun x => ⟨"mcblock", f x, calculate_block_model_matrix (f x)⟩) ∧
    (l.foldl (fun self x => draw_block_with_shadows "mcblock" (f x) self)
      self).m_grid_size = self.m_grid_size := by
  induction l generalizing self with
  | nil => simp
  | cons hd tl ih =>
    rw [List.foldl_cons, (ih _).1, (ih _).2]
    simp [draw_block_with_shadows]

end MainController

theorem grid_positions_index (lo hi : Int) (a b : Nat) (ha : a < (hi - lo).toNat)
    (hb : b < (hi - lo).toNat) :
    (grid_positions lo hi)[a * (hi - lo).toNat + b]? =
      some ⟨((lo + (a : Int) : Int) : ℚ), -1, ((lo + (b : Int) : Int) : ℚ)⟩ := by
  have h := (InstancingController.grid_length_and_index
    (fun (y x : Nat) => (⟨((lo + (y : Int) : Int) : ℚ), -1, ((lo + (x : Int) : Int) : ℚ)⟩ : Vec3))
    (hi - lo).toNat (hi - lo).toNat).2 b a hb ha
  simp only [grid_positions, int_range, List.flatMap_map, List.map_map, Function.comp_def] at h ⊢
  exact h

namespace MainController

theorem draw_queue_blocks_eq (self : MainController) :
    self.draw_queue_blocks.m_blocks_to_render =
      if self.m_use_instancing then []
      else (grid_positions 0 self.m_grid_size).map
        (fun p => ⟨"mcblock", p, calculate_block_model_matrix p⟩) := by
  unfold draw_queue_blocks
  by_cases hu : self.m_use_instancing = true
  · simp [hu]
  · have hu2 : self.m_use_instancing = false := by simpa using hu
    simp only [hu2, Bool.not_false, if_true, Bool.false_eq_true, if_false]
    have hrows : ∀ (rows : List Int) (state : MainController),
        state.m_grid_size = self.m_grid_size →
        (rows.foldl (fun (self : MainController) (i : Int) =>
          (int_range 0 self.m_grid_size).foldl (fun (self : MainController) (j : Int) =>
            draw_block_with_shadows "mcblock" ⟨(i : ℚ), -1, (j : ℚ)⟩ self) self)
          state).m_blocks_to_render =
          state.m_blocks_to_render ++
            (rows.flatMap (fun (i : Int) => (int_range 0 self.m_grid_size).map
              (fun (j : Int) => (⟨(i : ℚ), -1, (j : ℚ)⟩ : Vec3)))).map
              (fun p => ⟨"mcblock", p, calculate_block_model_matrix p⟩) := by
      intro rows
      induction rows with
      | nil => intro state _; simp
      | cons i rest ih =>
        intro state hs
        have hrow := foldl_draw_block (fun (j : Int) => (⟨(i : ℚ), -1, (j : ℚ)⟩ : Vec3))
          (int_range 0 state.m_grid_size) state
        rw [List.foldl_cons, ih _ (by rw [hrow.2]; exact hs), hrow.1, hs]
        simp [List.map_flatMap, List.map_map, Function.comp_def]
    refine (hrows _ _ ?_).trans ?_
    · rfl
    · simp [grid_positions]

end MainController

/-- C29: for every `m_grid_size >= 0`, `setup_instanced_grid` returns and registers under
"grid_blocks" exactly `(m_grid_size + 2)^2` transforms, row by row one for each position
`(i, -1, j)` with `-2 <= i, j < m_grid_size`, each equal to `calculate_block_model_matrix` of
that position. The blocks that `draw` queues for the same grid when instancing is off are the
`m_grid_size^2` positions with `0 <= i, j < m_grid_size`, with the same model matrices; all of
them are among the positions of the instanced grid, and the position `(-2, -1, -2)` of the
instanced grid is not among them. -/
theorem setup_instanced_grid_covers_queued_grid (self : MainController) (w : World)
    (h : 0 ≤ self.m_grid_size) :
    (self.setup_instanced_grid w).2 = Outcome.ok () ∧
    registered_transforms "grid_blocks" (self.setup_instanced_grid w).1 =
      (grid_positions (-2) self.m_grid_size).map MainController.calculate_block_model_matrix ∧
    (InstancingController.get_instance_count "grid_blocks"
      (self.setup_instanced_grid w).1 : Int) = (self.m_grid_size + 2) ^ 2 ∧
    (∀ a b : Nat, a < (self.m_grid_size + 2).toNat → b < (self.m_grid_size + 2).toNat →
      (registered_transforms "grid_blocks"
          (self.setup_instanced_grid w).1)[a * (self.m_grid_size + 2).toNat + b]? =
        some (MainController.calculate_block_model_matrix
          ⟨(((a : Int) - 2 : Int) : ℚ), -1, (((b : Int) - 2 : Int) : ℚ)⟩)) ∧
    (∀ p : Vec3, p ∈ grid_positions (-2) self.m_grid_size ↔
      ∃ i j : Int, -2 ≤ i ∧ i < self.m_grid_size ∧ -2 ≤ j ∧ j < self.m_grid_size ∧
        p = ⟨(i : ℚ), -1, (j : ℚ)⟩) ∧
    (self.m_use_instancing = false →
      self.draw_queue_blocks.m_blocks_to_render =
        (grid_positions 0 self.m_grid_size).map
          (fun p => ⟨"mcblock", p, MainController.calculate_block_model_matrix p⟩) ∧
      (self.draw_queue_blocks.m_blocks_to_render.length : Int) = self.m_grid_size ^ 2) ∧
    (∀ p : Vec3, p ∈ grid_positions 0 self.m_grid_size ↔
      ∃ i j : Int, 0 ≤ i ∧ i < self.m_grid_size ∧ 0 ≤ j ∧ j < self.m_grid_size ∧
        p = ⟨(i : ℚ), -1, (j : ℚ)⟩) ∧
    (∀ p : Vec3, p ∈ grid_positions 0 self.m_grid_size →
      p ∈ grid_positions (-2) self.m_grid_size) ∧
    (⟨-2, -1, -2⟩ : Vec3) ∈ grid_positions (-2) self.m_grid_size ∧
    (⟨-2, -1, -2⟩ : Vec3) ∉ grid_positions 0 self.m_grid_size := by
  obtain ⟨r1, r2, -, -⟩ := InstancingController.register_instance_group_some "grid_blocks"
    (InstancedData.transforms
      { transforms := (grid_positions (-2) self.m_grid_size).map
          MainController.calculate_block_model_matrix }) w
  have hreg : registered_transforms "grid_blocks" (self.setup_instanced_grid w).1 =
      (grid_positions (-2) self.m_grid_size).map
        MainController.calculate_block_model_matrix := by
    rw [MainController.setup_instanced_grid_eq]
    simp only [registered_transforms, r2]
  have hk : (self.m_grid_size - -2).toNat = (self.m_grid_size + 2).toNat := by
    rw [sub_neg_eq_add]
  refine ⟨?_, hreg, ?_, ?_, mem_grid_positions _ _, ?_, mem_grid_positions _ _, ?_, ?_, ?_⟩
  · rw [MainController.setup_instanced_grid_eq]
    exact r1
  · rw [MainController.setup_instanced_grid_eq]
    simp only [InstancingController.get_instance_count, r2, InstancedTransforms.count,
      List.length_map, grid_positions_length, hk, pow_two]
    push_cast
    rw [Int.toNat_of_nonneg (by omega)]
  · intro a b ha hb
    rw [hreg, List.getElem?_map, ← hk, grid_positions_index _ _ a b (by rw [hk]; exact ha)
      (by rw [hk]; exact hb)]
    have e : ∀ n : Nat, (-2 + (n : Int)) = (n : Int) - 2 := fun n => by omega
    simp only [Option.map_some', e]
  · intro hu
    have hq := MainController.draw_queue_blocks_eq self
    simp only [hu, Bool.false_eq_true, if_false] at hq
    refine ⟨hq, ?_⟩
    rw [hq, List.length_map, grid_positions_length, pow_two, sub_zero]
    push_cast
    rw [Int.toNat_of_nonneg h]
  · intro p hp
    obtain ⟨i, j, h1, h2, h3, h4, rfl⟩ := (mem_grid_positions _ _ _).mp hp
    exact (mem_grid_positions _ _ _).mpr ⟨i, j, by omega, h2, by omega, h4, rfl⟩
  · exact (mem_grid_positions _ _ _).mpr ⟨-2, -2, by omega, by omega, by omega, by omega,
      by simp⟩
  · intro hp
    obtain ⟨i, j, h1, h2, h3, h4, heq⟩ := (mem_grid_positions _ _ _).mp hp
    have hx := congrArg Vec3.x heq
    simp only at hx
    have : (i : ℚ) = ((-2 : Int) : ℚ) := by rw [← hx]; norm_num
    have := Int.cast_injective this
    omega

/-- Witness of C29: the constructed controller, whose grid size is 15, registers 289
transforms. -/
theorem setup_instanced_grid_covers_queued_grid_witness :
    0 ≤ sample_controller.m_grid_size ∧
    (InstancingController.get_instance_count "grid_blocks"
      (sample_controller.setup_instanced_grid sample_world).1 : Int) =
      (sample_controller.m_grid_size + 2) ^ 2 :=
  ⟨by decide,
    (setup_instanced_grid_covers_queued_grid sample_controller sample_world (by decide)).2.2.1⟩

/-! ## Facts about the circular arrangement of transforms -/

theorem uniform_real_abs (offset : ℚ) (h : 0 ≤ offset) (u : UnitDraw) :
    |uniform_real (-offset) offset u| ≤ offset := by
  unfold uniform_real
  have h0 := u.nonneg
  have h1 := u.lt_one
  rw [abs_le]
  constructor <;> nlinarith

theorem translation_rotate_scale_translate (libm : Libm) (v s axis : Vec3) (angle : ℚ) :
    translation (glm.rotate libm (glm.scale (glm.translate 1 v) s) angle axis) = v ∧
    translation (glm.translate 1 v) = v := by
  cases v
  simp [translation, glm.rotate, glm.scale, glm.translate]

namespace InstancingController

theorem circular_transform_some (libm : Libm) (draws : Nat → UnitDraw) (count : Nat)
    (radius offset scale_min scale_max : ℚ) (i : Nat) (h : i < count) :
    ∃ model, circular_transform libm draws count radius offset scale_min scale_max i =
        some model ∧
      translation model =
        ⟨libm.sin (glm.radians ((i : ℚ) / (count : ℚ) * 360)) * radius +
            uniform_real (-offset) offset (draws 0),
          uniform_real (-offset) offset (draws 1) * (2 / 5),
          libm.cos (glm.radians ((i : ℚ) / (count : ℚ) * 360)) * radius +
            uniform_real (-offset) offset (draws 2)⟩ := by
  have hc : (count : ℚ) ≠ 0 := by
    have : count ≠ 0 := by omega
    exact_mod_cast this
  simp only [circular_transform, float_div, hc, if_false]
  exact ⟨_, rfl, (translation_rotate_scale_translate _ _ _ _ _).1⟩

theorem create_circular_transforms_fold (libm : Libm) (draws : Nat → UnitDraw) (count n : Nat)
    (radius offset scale_min scale_max : ℚ) (h : n ≤ count) :
    ∃ transforms : List Mat4,
      (List.range n).foldl
        (fun (state : Option InstancedTransforms) (i : Nat) =>
          match state with
          | none => none
          | some transforms =>
            match circular_transform libm (fun k => draws (5 * i + k)) count radius offset
                scale_min scale_max i with
            | none => none
            | some model => some (transforms.add_transform model))
        (some {}) = some { transforms := transforms } ∧
      transforms.length = n ∧
      ∀ i, i < n →
        ∃ model, transforms[i]? = some model ∧
          circular_transform libm (fun k => draws (5 * i + k)) count radius offset
            scale_min scale_max i = some model := by
  induction n with
  | zero => exact ⟨[], rfl, rfl, fun i hi => absurd hi (Nat.not_lt_zero i)⟩
  | succ n ih =>
    obtain ⟨transforms, h1, h2, h3⟩ := ih (by omega)
    obtain ⟨model, hm, -⟩ := circular_transform_some libm (fun k => draws (5 * n + k)) count
      radius offset scale_min scale_max n (by omega)
    refine ⟨transforms ++ [model], ?_, by simp [h2], ?_⟩
    · rw [List.range_succ, List.foldl_append, h1]
      simp only [List.foldl_cons, List.foldl_nil, hm, InstancedTransforms.add_transform]
    · intro i hi
      rcases Nat.lt_succ_iff_lt_or_eq.mp hi with hlt | rfl
      · obtain ⟨m, hm1, hm2⟩ := h3 i hlt
        exact ⟨m, by rw [List.getElem?_append_left (by omega)]; exact hm1, hm2⟩
      · exact ⟨model, by rw [List.getElem?_append_right (by omega)]; simp [h2], hm⟩

end InstancingController

/-- C25: for every count, every generator and whatever the math library returns,
`create_circular_transforms` performs no division by zero and returns exactly `count` matrices,
an empty payload when `count` = 0. For `offset >= 0` the translation of matrix i is
`(sin(a_i) * radius + dx, 0.4 * dy, cos(a_i) * radius + dz)` with `a_i` the angle of
`i / count * 360` degrees in radians and dx, dy, dz the first three draws of round i, each of
absolute value at most `offset`. The scale and the rotation applied after the translation do
not alter it. -/
theorem create_circular_transforms_translations (libm : Libm) (draws : Nat → UnitDraw)
    (count : Nat) (radius offset scale_min scale_max : ℚ) :
    ∃ payload : InstancedTransforms,
      InstancingController.create_circular_transforms libm draws count radius offset scale_min
        scale_max = some payload ∧
      payload.count = count ∧
      (count = 0 → payload.transforms = []) ∧
      (0 ≤ offset → ∀ i, i < count →
        ∃ (model : Mat4) (dx dy dz : ℚ), payload.transforms[i]? = some model ∧
          |dx| ≤ offset ∧ |dy| ≤ offset ∧ |dz| ≤ offset ∧
          translation model =
            ⟨libm.sin (glm.radians ((i : ℚ) / (count : ℚ) * 360)) * radius + dx,
              dy * (2 / 5),
              libm.cos (glm.radians ((i : ℚ) / (count : ℚ) * 360)) * radius + dz⟩) ∧
      (∀ (v s axis : Vec3) (angle : ℚ),
        translation (glm.rotate libm (glm.scale (glm.translate 1 v) s) angle axis) =
          translation (glm.translate 1 v)) := by
  obtain ⟨transforms, h1, h2, h3⟩ := InstancingController.create_circular_transforms_fold libm
    draws count count radius offset scale_min scale_max (Nat.le_refl _)
  refine ⟨{ transforms := transforms }, h1, h2, ?_, ?_, ?_⟩
  · intro h0
    rw [h0] at h2
    exact List.length_eq_zero.mp h2
  · intro hoff i hi
    obtain ⟨model, hm1, hm2⟩ := h3 i hi
    obtain ⟨model2, hs1, hs2⟩ := InstancingController.circular_transform_some libm
      (fun k => draws (5 * i + k)) count radius offset scale_min scale_max i hi
    rw [hm2] at hs1
    cases hs1
    exact ⟨model, _, _, _, hm1, uniform_real_abs offset hoff _, uniform_real_abs offset hoff _,
      uniform_real_abs offset hoff _, hs2⟩
  · intro v s axis angle
    obtain ⟨e1, e2⟩ := translation_rotate_scale_translate libm v s axis angle
    rw [e1, e2]

/-- Witness of C25: three transforms on a circle of radius 2 with displacements of at most
1. -/
theorem create_circular_transforms_translations_witness :
    (0 : ℚ) ≤ 1 ∧
    ∃ payload : InstancedTransforms,
      InstancingController.create_circular_transforms sample_libm sample_draws 3 2 1 1 2 =
        some payload ∧
      payload.count = 3 ∧
      ∃ (model : Mat4) (dx dy dz : ℚ), payload.transforms[0]? = some model ∧
        |dx| ≤ 1 ∧ |dy| ≤ 1 ∧ |dz| ≤ 1 ∧
        translation model =
          ⟨sample_libm.sin (glm.radians (((0 : Nat) : ℚ) / ((3 : Nat) : ℚ) * 360)) * 2 + dx,
            dy * (2 / 5),
            sample_libm.cos (glm.radians (((0 : Nat) : ℚ) / ((3 : Nat) : ℚ) * 360)) * 2 + dz⟩ := by
  obtain ⟨payload, h1, h2, -, h4, -⟩ :=
    create_circular_transforms_translations sample_libm sample_draws 3 2 1 1 2
  exact ⟨by norm_num, payload, h1, h2, h4 (by norm_num) 0 (by decide)⟩

end engine
